import Mathlib

/-!
Verification of the mesh I/O module `steps/utilities/meshio.py`.

Modelling conventions used throughout this development:

* A text file is modelled as a list of lines (`List Char` each, without the
  trailing newline).  `readline` past the end of the file yields the empty
  string, as in Python.
* Python floats are modelled by their decimal text (`Chars`) in the XML/ASCII
  serializer (where only printing and re-parsing of the very same text occurs),
  and by exact rationals (`ℚ`) in the mesh importers, where arithmetic on the
  parsed values happens.
* Fallible Python operations (assert, `int()`, `float()`, list indexing,
  attribute access on `None`, unbound locals) are run in `Except PyErr`.
-/

abbrev Chars := List Char

def lit (s : String) : Chars := s.data

def isWs (c : Char) : Bool := c.isWhitespace

/-- Python `str.lstrip()`. -/
def pyLstrip (s : Chars) : Chars := s.dropWhile isWs

/-- Python `str.rstrip()`. -/
def pyRstrip (s : Chars) : Chars := s.rdropWhile isWs

/-- Python `str.strip()`. -/
def pyStrip (s : Chars) : Chars := pyRstrip (pyLstrip s)

/-- `line[0:line.find('#')]` when `'#'` occurs in the line, else the whole
line (used by `readTetgen` to drop comments). -/
def beforeHash (s : Chars) : Chars := s.takeWhile (· ≠ '#')

/-- Worker for Python `str.split()` (split on whitespace runs, drop empties). -/
def wsTokensGo : Chars → Chars → List Chars
  | [], acc => if acc.isEmpty then [] else [acc.reverse]
  | c :: r, acc =>
    if isWs c then
      if acc.isEmpty then wsTokensGo r [] else acc.reverse :: wsTokensGo r []
    else wsTokensGo r (c :: acc)

/-- Python `str.split()` with no argument. -/
def pyWsTokens (s : Chars) : List Chars := wsTokensGo s []

/-- Worker for Python `str.split(sep)` with a nonempty separator `h :: t`.
The first argument is fuel (any value `≥` the length of the string works;
structural recursion on the fuel keeps the definition kernel-reducible). -/
def splitSepGo (h : Char) (t : Chars) : ℕ → Chars → Chars → List Chars
  | 0, s, acc => [acc.reverse ++ s]
  | _ + 1, [], acc => [acc.reverse]
  | fuel + 1, c :: r, acc =>
    if c = h ∧ t.isPrefixOf r then
      acc.reverse :: splitSepGo h t fuel (r.drop t.length) []
    else
      splitSepGo h t fuel r (c :: acc)

/-- Python `str.split(sep)` where the separator is the nonempty string
`h :: t`; keeps empty pieces, and `''.split(sep) == ['']`. -/
def pySplitSep (h : Char) (t : Chars) (s : Chars) : List Chars :=
  splitSepGo h t s.length s []

/-- Python slice `s[a:-b]` (with `a, b > 0` as used by `loadXML`). -/
def sliceM (a b : ℕ) (s : Chars) : Chars := (s.drop a).take (s.length - b - a)

/-- Python slice `s[-n:]`. -/
def lastN (n : ℕ) (s : Chars) : Chars := s.drop (s.length - n)

/-- Python slice `s[:n]`. -/
def takeN (n : ℕ) (s : Chars) : Chars := s.take n

/-! ### Decimal numbers -/

def digitVal (c : Char) : ℕ := c.toNat - 48

def digitsVal (l : Chars) : ℕ := l.foldl (fun a c => 10 * a + digitVal c) 0

def allDigits (l : Chars) : Bool := l.all Char.isDigit

/-- Big-endian decimal digits of `n`, prepended to `acc`; the first argument
is fuel (any value `≥ n` works). -/
def natStrGo : ℕ → ℕ → Chars → Chars
  | 0, _, acc => acc
  | _ + 1, 0, acc => acc
  | fuel + 1, n + 1, acc =>
    natStrGo fuel ((n + 1) / 10) (Nat.digitChar ((n + 1) % 10) :: acc)

/-- Python `str(n)` for a nonnegative integer. -/
def natStr (n : ℕ) : Chars :=
  if n = 0 then ['0'] else natStrGo n n []

/-- Python `str(i)` for an integer. -/
def intStr (i : ℤ) : Chars := if i < 0 then '-' :: natStr i.natAbs else natStr i.toNat

def natTokVal? (l : Chars) : Option ℕ :=
  if l.isEmpty || !allDigits l then none else some (digitsVal l)

/-- Python `int(s)`: strips whitespace, then an optional sign followed by a
nonempty digit string; anything else raises `ValueError` (`none` here). -/
def pyInt? (s : Chars) : Option ℤ :=
  if (pyStrip s).head? = some '+' then (natTokVal? (pyStrip s).tail).map Int.ofNat
  else if (pyStrip s).head? = some '-' then (natTokVal? (pyStrip s).tail).map (fun n => -(n : ℤ))
  else (natTokVal? (pyStrip s)).map Int.ofNat

def expVal? (r : Chars) : Option ℤ :=
  if r.head? = some '+' then (natTokVal? r.tail).map Int.ofNat
  else if r.head? = some '-' then (natTokVal? r.tail).map (fun n => -(n : ℤ))
  else (natTokVal? r).map Int.ofNat

def floatWithExp (m : ℚ) : Chars → Option ℚ
  | [] => some m
  | c :: r =>
    if c = 'e' ∨ c = 'E' then (expVal? r).map (fun e => m * (10 : ℚ) ^ e)
    else none

def pyFloatCore? (t : Chars) : Option ℚ :=
  let ip := t.takeWhile Char.isDigit
  match t.dropWhile Char.isDigit with
  | [] => if ip.isEmpty then none else some (digitsVal ip : ℚ)
  | c :: r2 =>
    if c = '.' then
      let fp := r2.takeWhile Char.isDigit
      let r3 := r2.dropWhile Char.isDigit
      if ip.isEmpty && fp.isEmpty then none
      else floatWithExp ((digitsVal ip : ℚ) + (digitsVal fp : ℚ) / (10 : ℚ) ^ fp.length) r3
    else if ip.isEmpty then none
    else floatWithExp (digitsVal ip : ℚ) (c :: r2)

/-- Python `float(s)` on the decimal grammar `[sign] digits [. digits]
[(e|E) [sign] digits]` (the special forms `inf`/`nan` are not modelled; no
claim exercises them). -/
def pyFloat? (s : Chars) : Option ℚ :=
  if (pyStrip s).head? = some '+' then pyFloatCore? (pyStrip s).tail
  else if (pyStrip s).head? = some '-' then (pyFloatCore? (pyStrip s).tail).map Neg.neg
  else pyFloatCore? (pyStrip s)

/-! ### Python runtime errors -/

deriving instance DecidableEq for Except

inductive PyErr where
  | assertionError
  | valueError
  | indexError
  | keyError
  | nameError
  | attributeError
  | typeError
  deriving DecidableEq, Repr

def pyAssert (b : Prop) [Decidable b] : Except PyErr Unit :=
  if b then .ok () else .error .assertionError

def pyIntE (s : Chars) : Except PyErr ℤ :=
  match pyInt? s with
  | some i => .ok i
  | none => .error .valueError

def pyFloatQE (s : Chars) : Except PyErr ℚ :=
  match pyFloat? s with
  | some q => .ok q
  | none => .error .valueError

/-- `float()` in the text-level float model used by the serializer: the call
validates the decimal grammar and the "value" is the stripped text itself. -/
def pyFloatTE (s : Chars) : Except PyErr Chars :=
  match pyFloat? s with
  | some _ => .ok (pyStrip s)
  | none => .error .valueError

/-- Python list indexing `l[i]` for `i ≥ 0` (IndexError past the end). -/
def pyGet (l : List α) (i : ℕ) : Except PyErr α :=
  match l.get? i with
  | some a => .ok a
  | none => .error .indexError

/-- `file.readline()`: a line, and the rest of the file; at end of file
Python returns the empty string. -/
def rdline : List Chars → Chars × List Chars
  | [] => ([], [])
  | l :: r => (l, r)

/-! ### Facts about characters and digits -/

theorem not_ws_of_isDigit {c : Char} (h : c.isDigit = true) : isWs c = false := by
  unfold isWs
  by_contra hw
  simp only [Bool.not_eq_false] at hw
  simp [Char.isWhitespace] at hw
  rcases hw with ((h1 | h1) | h1) | h1 <;> subst h1 <;> exact absurd h (by decide)

theorem isDigit_ne {c d : Char} (h : c.isDigit = true) (hd : d.isDigit = false) : c ≠ d := by
  intro he; subst he; rw [h] at hd; cases hd

theorem digitChar_isDigit {d : ℕ} (h : d < 10) : (Nat.digitChar d).isDigit = true := by
  interval_cases d <;> decide

theorem digitVal_digitChar {d : ℕ} (h : d < 10) : digitVal (Nat.digitChar d) = d := by
  interval_cases d <;> decide

theorem natStrGo_eq :
    ∀ (fuel n : ℕ), n ≤ fuel → ∀ acc,
      natStrGo fuel n acc = ((Nat.digits 10 n).map Nat.digitChar).reverse ++ acc := by
  intro fuel
  induction fuel with
  | zero =>
    intro n hn acc
    interval_cases n
    simp [natStrGo]
  | succ f ih =>
    intro n hn acc
    match n with
    | 0 => simp [natStrGo]
    | m + 1 =>
      rw [natStrGo, ih ((m + 1) / 10)
        (by
          have := Nat.div_lt_self (Nat.succ_pos m) (by norm_num : 1 < 10)
          omega)]
      rw [Nat.digits_def' (by norm_num : 1 < 10) (Nat.succ_pos m)]
      simp

theorem natStr_eq_digits {n : ℕ} (h : n ≠ 0) :
    natStr n = ((Nat.digits 10 n).map Nat.digitChar).reverse := by
  unfold natStr
  rw [if_neg h, natStrGo_eq n n le_rfl, List.append_nil]

theorem allDigits_natStr (n : ℕ) : allDigits (natStr n) = true := by
  by_cases h : n = 0
  · subst h; decide
  · rw [natStr_eq_digits h]
    simp only [allDigits, List.all_eq_true]
    intro c hc
    rw [List.mem_reverse, List.mem_map] at hc
    obtain ⟨d, hd, rfl⟩ := hc
    exact digitChar_isDigit (Nat.digits_lt_base (by norm_num) hd)

theorem natStr_ne_nil (n : ℕ) : natStr n ≠ [] := by
  by_cases h : n = 0
  · subst h; decide
  · rw [natStr_eq_digits h]
    simp [Nat.digits_ne_nil_iff_ne_zero.mpr h]

theorem foldl_digits_reverse :
    ∀ (l : List ℕ), (∀ d ∈ l, d < 10) → ∀ a : ℕ,
      List.foldl (fun acc c => 10 * acc + digitVal c) a ((l.map Nat.digitChar).reverse)
        = a * 10 ^ l.length + Nat.ofDigits 10 l := by
  intro l
  induction l with
  | nil => intro _ a; simp
  | cons d rest ih =>
    intro hl a
    simp only [List.map_cons, List.reverse_cons, List.foldl_append, List.foldl_cons,
      List.foldl_nil]
    rw [ih (fun x hx => hl x (List.mem_cons_of_mem _ hx))]
    rw [digitVal_digitChar (hl d (List.mem_cons_self _ _))]
    rw [Nat.ofDigits_cons]
    simp only [List.length_cons, pow_succ]
    ring

theorem digitsVal_natStr (n : ℕ) : digitsVal (natStr n) = n := by
  by_cases h : n = 0
  · subst h; decide
  · rw [natStr_eq_digits h]
    unfold digitsVal
    rw [foldl_digits_reverse _ (fun d hd => Nat.digits_lt_base (by norm_num) hd) 0]
    simp [Nat.ofDigits_digits]

theorem natTokVal?_natStr (n : ℕ) : natTokVal? (natStr n) = some n := by
  unfold natTokVal?
  rw [if_neg]
  · rw [digitsVal_natStr]
  · simp [allDigits_natStr, List.isEmpty_iff, natStr_ne_nil]

/-! ### Stripping -/

theorem pyLstrip_ws_append {t : Chars} (ht : ∀ c ∈ t, isWs c = true) (s : Chars) :
    pyLstrip (t ++ s) = pyLstrip s := by
  induction t with
  | nil => simp
  | cons c r ih =>
    simp only [List.cons_append, pyLstrip, List.dropWhile_cons,
      ht c (List.mem_cons_self _ _), if_true]
    exact ih fun x hx => ht x (List.mem_cons_of_mem _ hx)

theorem pyLstrip_cons_neg {c : Char} {r : Chars} (h : isWs c = false) :
    pyLstrip (c :: r) = c :: r := by
  simp [pyLstrip, List.dropWhile_cons, h]

theorem pyRstrip_concat_neg {l : Chars} {c : Char} (h : isWs c = false) :
    pyRstrip (l ++ [c]) = l ++ [c] :=
  List.rdropWhile_concat_neg _ _ _ (by simp [h])

theorem pyStrip_noWs {s : Chars} (h : ∀ c ∈ s, isWs c = false) : pyStrip s = s := by
  unfold pyStrip pyLstrip pyRstrip
  have h1 : List.dropWhile isWs s = s := by
    rw [List.dropWhile_eq_self_iff]
    intro hl
    obtain ⟨c, r, rfl⟩ := List.exists_cons_of_ne_nil (List.length_pos.mp hl)
    simpa using h c (List.mem_cons_self _ _)
  rw [h1, List.rdropWhile_eq_self_iff]
  intro hl
  simp [h _ (List.getLast_mem hl)]

theorem pyStrip_of_allDigits {s : Chars} (h : allDigits s = true) : pyStrip s = s := by
  refine pyStrip_noWs fun c hc => not_ws_of_isDigit ?_
  simp only [allDigits, List.all_eq_true] at h
  exact h c hc

/-- Strip of a rendered XML line: whitespace head, the payload starts and ends
with a non-whitespace character. -/
theorem pyStrip_wrap {t a m b : Chars} (ht : ∀ c ∈ t, isWs c = true)
    (ha : ∃ c r, a = c :: r ∧ isWs c = false)
    (hb : ∃ l c, b = l ++ [c] ∧ isWs c = false) :
    pyStrip (t ++ (a ++ (m ++ b))) = a ++ (m ++ b) := by
  obtain ⟨c1, r1, rfl, h1⟩ := ha
  obtain ⟨l2, c2, rfl, h2⟩ := hb
  unfold pyStrip
  rw [pyLstrip_ws_append ht]
  simp only [List.cons_append]
  rw [pyLstrip_cons_neg h1]
  rw [show c1 :: (r1 ++ (m ++ (l2 ++ [c2]))) = (c1 :: (r1 ++ (m ++ l2))) ++ [c2] by simp]
  rw [pyRstrip_concat_neg h2]

/-! ### Slicing -/

theorem takeN_wrap {a : Chars} (m : Chars) {n : ℕ} (ha : a.length = n) :
    takeN n (a ++ m) = a :=
  List.take_left' ha

theorem lastN_wrap {b : Chars} (m : Chars) {n : ℕ} (hb : b.length = n) :
    lastN n (m ++ b) = b := by
  unfold lastN
  have hlen : (m ++ b).length - n = m.length := by simp [hb]
  rw [hlen, List.drop_left]

theorem sliceM_wrap {a b : Chars} (m : Chars) {la lb : ℕ}
    (ha : a.length = la) (hb : b.length = lb) :
    sliceM la lb (a ++ (m ++ b)) = m := by
  unfold sliceM
  rw [List.drop_left' ha]
  have hlen : (a ++ (m ++ b)).length - lb - la = m.length := by simp [ha, hb]; omega
  rw [hlen, List.take_left]

/-! ### Integer parsing round trips -/

theorem pyInt?_natStr (n : ℕ) : pyInt? (natStr n) = some (n : ℤ) := by
  unfold pyInt?
  rw [pyStrip_of_allDigits (allDigits_natStr n)]
  obtain ⟨c, r, hcr⟩ := List.exists_cons_of_ne_nil (natStr_ne_nil n)
  have hc : c.isDigit = true := by
    have := allDigits_natStr n
    rw [hcr] at this
    simp only [allDigits, List.all_eq_true] at this
    exact this c (List.mem_cons_self _ _)
  rw [hcr]
  simp only [List.head?_cons, Option.some.injEq]
  rw [if_neg (isDigit_ne hc (by decide)), if_neg (isDigit_ne hc (by decide))]
  rw [← hcr, natTokVal?_natStr]
  rfl

theorem pyInt?_intStr (i : ℤ) : pyInt? (intStr i) = some i := by
  unfold intStr
  by_cases h : i < 0
  · rw [if_pos h]
    unfold pyInt?
    have hall : ∀ c ∈ '-' :: natStr i.natAbs, isWs c = false := by
      intro c hc
      rcases List.mem_cons.mp hc with rfl | hc
      · decide
      · have := allDigits_natStr i.natAbs
        simp only [allDigits, List.all_eq_true] at this
        exact not_ws_of_isDigit (this c hc)
    rw [pyStrip_noWs hall]
    rw [if_neg (by simp), if_pos (by simp),
      show ('-' :: natStr i.natAbs).tail = natStr i.natAbs from rfl, natTokVal?_natStr]
    have hi : -(i.natAbs : ℤ) = i := by omega
    simp [hi]
    rw [abs_of_neg h, neg_neg]
  · rw [if_neg h, pyInt?_natStr]
    congr 1
    omega

theorem pyIntE_natStr (n : ℕ) : pyIntE (natStr n) = .ok (n : ℤ) := by
  unfold pyIntE; rw [pyInt?_natStr]

theorem pyIntE_intStr (i : ℤ) : pyIntE (intStr i) = .ok i := by
  unfold pyIntE; rw [pyInt?_intStr]

/-! ### Splitting round trips -/

theorem splitSepGo_fuel {h : Char} {t : Chars} :
    ∀ (f1 : ℕ) {f2 : ℕ} {s acc : Chars}, s.length ≤ f1 → s.length ≤ f2 →
      splitSepGo h t f1 s acc = splitSepGo h t f2 s acc := by
  intro f1
  induction f1 with
  | zero =>
    intro f2 s acc h1 _
    rw [List.length_eq_zero.mp (Nat.le_zero.mp h1)]
    cases f2 <;> simp [splitSepGo]
  | succ f ih =>
    intro f2 s acc h1 h2
    match s, f2 with
    | [], 0 => simp [splitSepGo]
    | [], g + 1 => simp [splitSepGo]
    | c :: r, g + 1 =>
      have hr1 : r.length ≤ f := by simp at h1; omega
      have hr2 : r.length ≤ g := by simp at h2; omega
      have hd : (List.drop t.length r).length ≤ r.length := by simp
      simp only [splitSepGo]
      split
      · rw [ih (le_trans hd hr1) (le_trans hd hr2)]
      · rw [ih hr1 hr2]

theorem isPrefixOf_append_self (t r : Chars) : t.isPrefixOf (t ++ r) = true := by
  induction t with
  | nil => simp [List.isPrefixOf]
  | cons c cs ih => simp [List.isPrefixOf, ih]

theorem splitSepGo_sep {h : Char} {t rest : Chars} :
    ∀ (x : Chars), h ∉ x → ∀ (fuel : ℕ) (acc : Chars),
      (x ++ (h :: (t ++ rest))).length ≤ fuel →
      splitSepGo h t fuel (x ++ (h :: (t ++ rest))) acc
        = (acc.reverse ++ x) :: splitSepGo h t rest.length rest [] := by
  intro x
  induction x with
  | nil =>
    intro _ fuel acc hf
    simp only [List.nil_append, List.length_cons, List.length_append] at hf
    match fuel, hf with
    | f + 1, hf =>
      simp only [splitSepGo, isPrefixOf_append_self, and_true, if_pos rfl]
      rw [List.drop_left, splitSepGo_fuel f (by omega) le_rfl]
      simp
  | cons c x' ih =>
    intro hx fuel acc hf
    have hc : c ≠ h := fun he => hx (he ▸ List.mem_cons_self _ _)
    simp only [List.cons_append, List.length_cons] at hf
    match fuel, hf with
    | f + 1, hf =>
      simp only [List.cons_append, splitSepGo, List.append_eq]
      rw [if_neg (fun hand => hc hand.1)]
      rw [ih (fun hm => hx (List.mem_cons_of_mem _ hm)) f (c :: acc) (by simpa using hf)]
      simp

theorem splitSepGo_last {h : Char} {t : Chars} :
    ∀ (x : Chars), h ∉ x → ∀ (fuel : ℕ) (acc : Chars), x.length ≤ fuel →
      splitSepGo h t fuel x acc = [acc.reverse ++ x] := by
  intro x
  induction x with
  | nil =>
    intro _ fuel acc _
    cases fuel <;> simp [splitSepGo]
  | cons c x' ih =>
    intro hx fuel acc hf
    have hc : c ≠ h := fun he => hx (he ▸ List.mem_cons_self _ _)
    simp only [List.length_cons] at hf
    match fuel, hf with
    | f + 1, hf =>
      simp only [splitSepGo]
      rw [if_neg (fun hand => hc hand.1)]
      rw [ih (fun hm => hx (List.mem_cons_of_mem _ hm)) f (c :: acc) (by simpa using hf)]
      simp

theorem pySplitSep_sep {h : Char} {t x rest : Chars} (hx : h ∉ x) :
    pySplitSep h t (x ++ (h :: (t ++ rest))) = x :: pySplitSep h t rest := by
  unfold pySplitSep
  rw [splitSepGo_sep x hx _ [] le_rfl]
  simp

theorem pySplitSep_last {h : Char} {t x : Chars} (hx : h ∉ x) :
    pySplitSep h t x = [x] := by
  unfold pySplitSep
  rw [splitSepGo_last x hx _ [] le_rfl]
  simp

/-! ### Joining (the serializer side) and its interaction with splitting -/

def joinSep (sep : Chars) : List Chars → Chars
  | [] => []
  | [x] => x
  | x :: y :: xs => x ++ (sep ++ joinSep sep (y :: xs))

theorem pySplitSep_joinSep {h : Char} {t : Chars} :
    ∀ (l : List Chars), l ≠ [] → (∀ p ∈ l, h ∉ p) →
      pySplitSep h t (joinSep (h :: t) l) = l := by
  intro l
  induction l with
  | nil => intro hne; exact absurd rfl hne
  | cons x xs ih =>
    intro _ hp
    match xs with
    | [] => exact pySplitSep_last (hp x (List.mem_cons_self _ _))
    | y :: ys =>
      show pySplitSep h t (x ++ (h :: (t ++ joinSep (h :: t) (y :: ys)))) = _
      rw [pySplitSep_sep (hp x (List.mem_cons_self _ _))]
      rw [ih (by simp) (fun p hm => hp p (List.mem_cons_of_mem _ hm))]

/-! ### Whitespace tokenization round trip -/

theorem wsTokensGo_append {x : Chars} (hx : ∀ c ∈ x, isWs c = false) :
    ∀ (r acc : Chars), wsTokensGo (x ++ r) acc = wsTokensGo r (x.reverse ++ acc) := by
  induction x with
  | nil => intro r acc; simp
  | cons c x' ih =>
    intro r acc
    simp only [List.cons_append, wsTokensGo, List.append_eq, hx c (List.mem_cons_self _ _)]
    rw [if_neg (by simp [hx c (List.mem_cons_self _ _)])]
    rw [ih (fun d hd => hx d (List.mem_cons_of_mem _ hd)) r (c :: acc)]
    simp

theorem pyWsTokens_joinSep :
    ∀ (toks : List Chars), toks ≠ [] →
      (∀ tok ∈ toks, tok ≠ [] ∧ ∀ c ∈ tok, isWs c = false) →
      wsTokensGo (joinSep [' '] toks) [] = toks := by
  intro toks
  induction toks with
  | nil => intro hne; exact absurd rfl hne
  | cons x xs ih =>
    intro _ hp
    obtain ⟨hxne, hxws⟩ := hp x (List.mem_cons_self _ _)
    match xs with
    | [] =>
      show wsTokensGo x [] = [x]
      rw [← List.append_nil x, wsTokensGo_append hxws]
      simp [wsTokensGo, List.isEmpty_iff, hxne]
    | y :: ys =>
      show wsTokensGo (x ++ (' ' :: joinSep [' '] (y :: ys))) [] = _
      rw [wsTokensGo_append hxws]
      simp only [List.append_nil, wsTokensGo, isWs, Char.isWhitespace]
      rw [if_pos (by decide), if_neg (by simp [List.isEmpty_iff, hxne])]
      rw [List.reverse_reverse]
      rw [ih (by simp) (fun p hm => hp p (List.mem_cons_of_mem _ hm))]

theorem pyWsTokens_render {toks : List Chars} (hne : toks ≠ [])
    (hp : ∀ tok ∈ toks, tok ≠ [] ∧ ∀ c ∈ tok, isWs c = false) :
    pyWsTokens (joinSep [' '] toks) = toks :=
  pyWsTokens_joinSep toks hne hp

theorem beforeHash_of_no_hash {s : Chars} (h : ∀ c ∈ s, c ≠ '#') :
    beforeHash s = s := by
  unfold beforeHash
  induction s with
  | nil => rfl
  | cons c r ih =>
    simp only [List.takeWhile_cons]
    rw [if_pos (by simpa using h c (List.mem_cons_self _ _))]
    exact congrArg _ (ih fun x hx => h x (List.mem_cons_of_mem _ hx))

/-! ## The geometry engine's containers

The classes `steps.geom.Tetmesh`, `TmComp` and `TmPatch` live outside this
module (`import steps.geom as stetmesh`); they are modelled from the spec,
§3/§6: a compartment is a named group of tetrahedron indices with volume-system
labels, a patch a named group of triangle indices with surface-system labels
and inner/outer compartment references, and the mesh owns both collections. -/

structure TmComp where
  id : Chars
  volsys : List Chars
  tets : List ℤ
  deriving DecidableEq, Repr

structure TmPatch where
  id : Chars
  ssys : List Chars
  icompId : Chars
  ocompId : Option Chars
  tris : List ℤ
  deriving DecidableEq, Repr

/-! ## numpy arrays (importer side) -/

/-- A 2-D numpy array of shape `(rows, cols)`, stored row-major.
`numpy.empty` leaves the cells uninitialized; an uninitialized cell is
modelled by `none`. -/
structure NpArr (α : Type) where
  rows : ℕ
  cols : ℕ
  data : List (Option α)
  deriving DecidableEq, Repr

def npEmpty (α : Type) (r c : ℕ) : NpArr α := ⟨r, c, List.replicate (r * c) none⟩

/-- numpy row-index resolution: negative indices wrap around, anything else
out of range raises IndexError. -/
def npRow (rows : ℕ) (i : ℤ) : Option ℕ :=
  if 0 ≤ i then (if i < (rows : ℤ) then some i.toNat else none)
  else if 0 ≤ i + (rows : ℤ) then some (i + (rows : ℤ)).toNat else none

def NpArr.setCell (a : NpArr α) (row : ℤ) (col : ℕ) (v : α) : Except PyErr (NpArr α) :=
  match npRow a.rows row with
  | none => .error .indexError
  | some r => .ok ⟨a.rows, a.cols, a.data.set (r * a.cols + col) (some v)⟩

/-! ## `readTetgen` (meshio.py lines 53-322) -/

/-- Modelled from the spec: the minimal-form `stetmesh.Tetmesh(nodes, tets,
faces)` constructor stores the flattened vertex/tetrahedron/triangle arrays;
compartments and patches are attached afterwards by the `TmComp`/`TmPatch`
constructors.  (`steps.geom` is not part of this module's sources.) -/
structure TgMesh where
  verts : List (Option ℚ)
  tets : List (Option ℤ)
  tris : List (Option ℤ)
  comps : List TmComp
  patches : List TmPatch
  deriving DecidableEq, Repr

def TgMesh.addComp (m : TgMesh) (c : TmComp) : TgMesh :=
  { m with comps := m.comps ++ [c] }

def TgMesh.addPatch (m : TgMesh) (p : TmPatch) : TgMesh :=
  { m with patches := m.patches ++ [p] }

/-- Modelled from the spec: `Tetmesh.getComp(id)` finds a compartment by its
string id, returning `None` when absent. -/
def TgMesh.getComp (m : TgMesh) (i : Chars) : Option TmComp :=
  m.comps.find? (fun c => c.id = i)

/-- The `.node` record loop (lines 183-199): runs exactly `nnodes` iterations;
a content-free line after comment stripping is skipped by `continue`; the
index shift is captured from the record read by iteration 0. -/
def tgNodeLoop : ℕ → ℕ → List Chars → ℤ → NpArr ℚ →
    Except PyErr (ℤ × NpArr ℚ × List Chars)
  | 0, _, f, idxshift, arr => .ok (idxshift, arr, f)
  | k + 1, nodeno, f, idxshift, arr => do
    let (line, f) := rdline f
    let tokens := pyWsTokens (beforeHash line)
    if tokens.isEmpty then
      tgNodeLoop k (nodeno + 1) f idxshift arr
    else do
      let nodeidx ← pyIntE (← pyGet tokens 0)
      let idxshift := if nodeno = 0 then nodeidx else idxshift
      let idx2 := nodeidx - idxshift
      let x ← pyFloatQE (← pyGet tokens 1)
      let arr ← arr.setCell idx2 0 x
      let y ← pyFloatQE (← pyGet tokens 2)
      let arr ← arr.setCell idx2 1 y
      let z ← pyFloatQE (← pyGet tokens 3)
      let arr ← arr.setCell idx2 2 z
      tgNodeLoop k (nodeno + 1) f idxshift arr

/-- The `.ele` record loop (lines 221-236). -/
def tgEleLoop (attridx : ℕ) (tetregattrib idxshift : ℤ) :
    ℕ → List Chars → NpArr ℤ → List ℤ →
    Except PyErr (NpArr ℤ × List ℤ × List Chars)
  | 0, f, arr, comps => .ok (arr, comps, f)
  | k + 1, f, arr, comps => do
    let (line, f) := rdline f
    let tokens := pyWsTokens (beforeHash line)
    if tokens.isEmpty then
      tgEleLoop attridx tetregattrib idxshift k f arr comps
    else do
      let tetidx := (← pyIntE (← pyGet tokens 0)) - idxshift
      let n0 ← pyIntE (← pyGet tokens 1)
      let arr ← arr.setCell tetidx 0 (n0 - idxshift)
      let n1 ← pyIntE (← pyGet tokens 2)
      let arr ← arr.setCell tetidx 1 (n1 - idxshift)
      let n2 ← pyIntE (← pyGet tokens 3)
      let arr ← arr.setCell tetidx 2 (n2 - idxshift)
      let n3 ← pyIntE (← pyGet tokens 4)
      let arr ← arr.setCell tetidx 3 (n3 - idxshift)
      let comps ← if tetregattrib = 1 then do
          let a ← pyIntE (← pyGet tokens attridx)
          pure (comps ++ [a])
        else pure comps
      tgEleLoop attridx tetregattrib idxshift k f arr comps

/-- The `.face` record loop (lines 261-275); the boundary marker is always
read from token 4. -/
def tgFaceLoop (faceregattrib idxshift : ℤ) :
    ℕ → List Chars → NpArr ℤ → List ℤ →
    Except PyErr (NpArr ℤ × List ℤ × List Chars)
  | 0, f, arr, patches => .ok (arr, patches, f)
  | k + 1, f, arr, patches => do
    let (line, f) := rdline f
    let tokens := pyWsTokens (beforeHash line)
    if tokens.isEmpty then
      tgFaceLoop faceregattrib idxshift k f arr patches
    else do
      let faceidx := (← pyIntE (← pyGet tokens 0)) - idxshift
      let n0 ← pyIntE (← pyGet tokens 1)
      let arr ← arr.setCell faceidx 0 (n0 - idxshift)
      let n1 ← pyIntE (← pyGet tokens 2)
      let arr ← arr.setCell faceidx 1 (n1 - idxshift)
      let n2 ← pyIntE (← pyGet tokens 3)
      let arr ← arr.setCell faceidx 2 (n2 - idxshift)
      let patches ← if faceregattrib = 1 then do
          let a ← pyIntE (← pyGet tokens 4)
          pure (patches ++ [a])
        else pure patches
      tgFaceLoop faceregattrib idxshift k f arr patches

/-- One `assert i in map` loop (lines 293-294 / 303-304). -/
def pyAssertAll (l : List α) (p : α → Prop) [DecidablePred p] : Except PyErr Unit :=
  if ∀ x ∈ l, p x then .ok () else .error .assertionError

/-- Patch creation loop (lines 305-315). -/
def tgMkPatches (nfaces : ℕ) (patches : List ℤ)
    (pmap : List (ℤ × Chars)) (piomap : List (Chars × (Option Chars × Option Chars))) :
    TgMesh → List ℤ → Except PyErr TgMesh
  | m, [] => pure m
  | m, i :: rest => do
    let alltris := (List.range nfaces).filter (fun x => patches.getD x 0 = i)
    let patch_n ← match pmap.lookup i with
      | some s => pure s
      | none => .error .keyError
    let io ← match piomap.lookup patch_n with
      | some pr => pure pr
      | none => .error .keyError
    let icomp := match io.1 with
      | some nm => m.getComp nm
      | none => none
    pyAssert icomp.isSome
    let ocomp ← match io.2 with
      | none => pure (none : Option TmComp)
      | some nm => do
        let oc := m.getComp nm
        pyAssert oc.isSome
        pure oc
    let m := m.addPatch
      ⟨patch_n, [], (icomp.map TmComp.id).getD [], ocomp.map TmComp.id,
        alltris.map (fun t => (t : ℤ))⟩
    tgMkPatches nfaces patches pmap piomap m rest

/-- Compartment/patch annotation (lines 289-315).  Python's `set(comps)` is
modelled as `dedup` (first-occurrence order; no claim depends on the
iteration order of the set). -/
def tgAnnotate (ntets nfaces : ℕ) (comps patches : List ℤ)
    (compmap patchmap : Option (List (ℤ × Chars)))
    (patchiomap : Option (List (Chars × (Option Chars × Option Chars))))
    (tetmesh : TgMesh) : Except PyErr TgMesh :=
  match compmap with
  | none => pure tetmesh
  | some cmap =>
    if comps = [] then pure tetmesh
    else do
      let uniq := comps.dedup
      pyAssertAll uniq (fun i => (cmap.lookup i).isSome)
      let tetmesh := uniq.foldl (fun m i =>
        let alltets := (List.range ntets).filter (fun x => comps.getD x 0 = i)
        match cmap.lookup i with
        | some cid => m.addComp ⟨cid, [], alltets.map (fun t => (t : ℤ))⟩
        | none => m) tetmesh
      match patchmap, patchiomap with
      | some pmap, some piomap =>
        if patches = [] then pure tetmesh
        else do
          let uniqp := patches.dedup
          pyAssertAll uniqp (fun i => (pmap.lookup i).isSome)
          tgMkPatches nfaces patches pmap piomap tetmesh uniqp
      | _, _ => pure tetmesh

/-- `readTetgen(pathroot, compmap, patchmap, patchiomap)` (lines 53-322).
Files are passed as `Option (List Chars)`: `none` means the file does not
exist at `pathroot + suffix`.  A missing `.node` or `.ele` makes the function
return `None` (modelled `Option.none` in the `ok` result); a missing `.face`
leaves `faces = None`. -/
def readTetgen (nodeF eleF faceF : Option (List Chars))
    (compmap patchmap : Option (List (ℤ × Chars)))
    (patchiomap : Option (List (Chars × (Option Chars × Option Chars)))) :
    Except PyErr (Option (TgMesh × Option (List ℤ) × Option (List ℤ))) := do
  match nodeF with
  | none => return none
  | some nodeLines =>
  match eleF with
  | none => return none
  | some eleLines => do
    -- .node header (lines 167-181)
    let (line, nf) := rdline nodeLines
    let tokens := pyWsTokens line
    pyAssert (tokens.length = 4)
    let nnodes ← pyIntE (← pyGet tokens 0)
    pyAssert (0 < nnodes)
    let ndims ← pyIntE (← pyGet tokens 1)
    pyAssert (ndims = 3)
    let _ ← pyIntE (← pyGet tokens 2)
    let _ ← pyIntE (← pyGet tokens 3)
    let (idxshift, nodesArr, _) ← tgNodeLoop nnodes.toNat 0 nf 0 (npEmpty ℚ nnodes.toNat 3)
    -- .ele header (lines 204-219)
    let (line, ef) := rdline eleLines
    let tokens := pyWsTokens line
    pyAssert (tokens.length = 3)
    let ntets ← pyIntE (← pyGet tokens 0)
    pyAssert (0 < ntets)
    let nodespertet ← pyIntE (← pyGet tokens 1)
    pyAssert (nodespertet = 4 ∨ nodespertet = 10)
    let attridx := (1 + nodespertet).toNat
    let tetregattrib ← pyIntE (← pyGet tokens 2)
    pyAssert (tetregattrib = 0 ∨ tetregattrib = 1)
    let (tetsArr, comps, _) ←
      tgEleLoop attridx tetregattrib idxshift ntets.toNat ef (npEmpty ℤ ntets.toNat 4) []
    let gateE := (if tetregattrib = 1 then pyAssert ((comps.length : ℤ) = ntets)
      else pure () : Except PyErr Unit)
    let _ ← gateE
    -- .face section (lines 243-279)
    let faceSec := (match faceF with
      | none => pure ((0 : ℤ), (none : Option (NpArr ℤ)), ([] : List ℤ))
      | some faceLines => do
        let (line, ff) := rdline faceLines
        let tokens := pyWsTokens line
        pyAssert (tokens.length = 2)
        let nfaces ← pyIntE (← pyGet tokens 0)
        pyAssert (0 < nfaces)
        let faceregattrib ← pyIntE (← pyGet tokens 1)
        pyAssert (faceregattrib = 0 ∨ faceregattrib = 1)
        let (facesArr, patches, _) ←
          tgFaceLoop faceregattrib idxshift nfaces.toNat ff (npEmpty ℤ nfaces.toNat 3) []
        let gateF := (if faceregattrib = 1 then pyAssert ((patches.length : ℤ) = nfaces)
          else pure () : Except PyErr Unit)
        let _ ← gateF
        pure (nfaces, some facesArr, patches))
    let (nfaces, facesArr?, patches) ← faceSec
    -- lines 282-285: flattening and mesh construction; when the `.face` file
    -- was absent, `faces` is `None` and `faces.flatten()` raises
    -- AttributeError before the mesh is ever constructed.
    let flat := (match facesArr? with
      | none => .error .attributeError
      | some a => pure a.data : Except PyErr (List (Option ℤ)))
    let facesFlat ← flat
    let tetmesh := TgMesh.mk nodesArr.data tetsArr.data facesFlat [] []
    -- annotation (lines 289-315)
    let tetmesh ← tgAnnotate ntets.toNat nfaces.toNat comps patches
      compmap patchmap patchiomap tetmesh
    -- lines 318-322
    let compsRet := if comps = [] then none else some comps
    let patchesRet := if patches = [] then none else some patches
    return some (tetmesh, compsRet, patchesRet)

/-! ## `readCubit` (lines 336-444) -/

/-- Python `line.replace(',', ' ')`. -/
def pyReplaceComma (s : Chars) : Chars := s.map (fun c => if c = ',' then ' ' else c)

/-- Modelled from the spec: the two-argument `stetmesh.Tetmesh(pnts, tets)`
constructor stores the flattened vertex and tetrahedron arrays; its `nverts`
and `ntets` accessors report the element counts. -/
structure CubitMesh where
  verts : List ℚ
  tets : List ℤ
  deriving DecidableEq, Repr

def CubitMesh.nverts (m : CubitMesh) : ℕ := m.verts.length / 3

def CubitMesh.ntets (m : CubitMesh) : ℕ := m.tets.length / 4

/-- The node loop of `readCubit` (lines 393-410): `tokens` is the already
split current line, and the loop runs until the first token is `*ELEMENT`.
The first argument is fuel (any value above the number of remaining lines
works: each iteration either stops, consumes a line, or fails on the
tokenless end-of-file line). -/
def cubNodeLoop (scale : ℚ) : ℕ → List Chars → List Chars → List ℚ →
    Except PyErr (List ℚ × List Chars)
  | 0, _, _, _ => .error .indexError
  | fuel + 1, cursor, tokens, pnts => do
    let t0 ← pyGet tokens 0
    if t0 = lit "*ELEMENT" then .ok (pnts, cursor)
    else do
      pyAssert (tokens.length = 4)
      let _ ← pyIntE (← pyGet tokens 0)
      let x ← pyFloatQE (← pyGet tokens 1)
      let y ← pyFloatQE (← pyGet tokens 2)
      let z ← pyFloatQE (← pyGet tokens 3)
      let pnts := pnts ++ [x * scale, y * scale, z * scale]
      let (line, cursor) := rdline cursor
      cubNodeLoop scale fuel cursor (pyWsTokens (pyReplaceComma line)) pnts

/-- The element loop of `readCubit` (lines 414-428): `while(line)` stops at
end of file (Python's `readline` then returns the falsy `''`); an interior
line, even empty, is processed. -/
def cubTetLoop : List Chars → List ℤ → Except PyErr (List ℤ)
  | [], tets => .ok tets
  | line :: cursor, tets => do
    let tokens := pyWsTokens (pyReplaceComma line)
    pyAssert (tokens.length = 5)
    let _ ← pyIntE (← pyGet tokens 0)
    let n0 ← pyIntE (← pyGet tokens 1)
    let n1 ← pyIntE (← pyGet tokens 2)
    let n2 ← pyIntE (← pyGet tokens 3)
    let n3 ← pyIntE (← pyGet tokens 4)
    cubTetLoop cursor (tets ++ [n0 - 1, n1 - 1, n2 - 1, n3 - 1])

/-- `readCubit(filename, scale)` (lines 336-444).  Every line of the file is
modelled as newline-terminated, so the literal comparisons
`line == '*HEADING\n'` and `line == '*NODE\n'` compare the line content. -/
def readCubit (fileLines : List Chars) (scale : ℚ) : Except PyErr CubitMesh := do
  let (l1, f) := rdline fileLines
  pyAssert (l1 = lit "*HEADING")
  let (_, f) := rdline f
  let (l3, f) := rdline f
  pyAssert (l3 = lit "*NODE")
  let (line, f) := rdline f
  let (pnts, f) ← cubNodeLoop scale (f.length + 1) f (pyWsTokens (pyReplaceComma line)) []
  pyAssert (pnts.length % 3 = 0)
  let tets ← cubTetLoop f []
  pyAssert (tets.length % 4 = 0)
  let mesh := CubitMesh.mk pnts tets
  pyAssert (pnts.length / 3 = mesh.nverts)
  pyAssert (tets.length / 4 = mesh.ntets)
  return mesh

/-! ## Generic evaluation helpers -/

theorem ok_bind {α β : Type} (a : α) (f : α → Except PyErr β) :
    (Except.ok a : Except PyErr α) >>= f = f a := rfl

theorem error_bind {α β : Type} (e : PyErr) (f : α → Except PyErr β) :
    (Except.error e : Except PyErr α) >>= f = .error e := rfl

theorem pure_eq_ok {α : Type} (a : α) : (Except.pure a : Except PyErr α) = .ok a := rfl

theorem pure_eq_ok' {α : Type} (a : α) : (pure a : Except PyErr α) = .ok a := rfl

theorem pyAssert_pos {b : Prop} [Decidable b] (h : b) : pyAssert b = .ok () := if_pos h

theorem pyAssert_neg {b : Prop} [Decidable b] (h : ¬b) :
    pyAssert b = .error .assertionError := if_neg h

theorem bind_eq_ok {α β : Type} {x : Except PyErr α} {f : α → Except PyErr β} {b : β} :
    x >>= f = .ok b ↔ ∃ a, x = .ok a ∧ f a = .ok b := by
  cases x with
  | ok a => simp [ok_bind]
  | error e => simp [error_bind]

theorem pyAssert_ok_iff {b : Prop} [Decidable b] {u : Unit} : pyAssert b = .ok u ↔ b := by
  by_cases h : b <;> simp [pyAssert, h]

theorem pyGet_eq_ok {l : List α} {i : ℕ} {a : α} :
    pyGet l i = .ok a ↔ l.get? i = some a := by
  rw [List.get?_eq_getElem?]
  cases h : l[i]? <;> simp [pyGet, List.get?_eq_getElem?, h]

theorem pyIntE_eq_ok {s : Chars} {v : ℤ} : pyIntE s = .ok v ↔ pyInt? s = some v := by
  cases h : pyInt? s <;> simp [pyIntE, h]

theorem getD_of_get? : ∀ {l : List α} {i : ℕ} {x : α} (d : α),
    l.get? i = some x → l.getD i d = x := by
  intro l
  induction l with
  | nil => intro i x d h; simp at h
  | cons a as ih =>
    intro i x d h
    cases i with
    | zero => simp at h; simp [List.getD, h]
    | succ j => simp only [List.get?] at h; simpa [List.getD] using ih d h

theorem set_append_right (pre : List α) :
    ∀ (l : List α) (j : ℕ) (v : α), (pre ++ l).set (pre.length + j) v = pre ++ l.set j v := by
  induction pre with
  | nil => intro l j v; simp
  | cons c cs ih =>
    intro l j v
    show (c :: (cs ++ l)).set (cs.length + 1 + j) v = _
    have hj : cs.length + 1 + j = (cs.length + j) + 1 := by omega
    rw [hj]
    simp [List.set, ih]

/-! ## Rendered TetGen file-sets

An abstract, well-formed TetGen file-set, rendered to text with a chosen
index base `s` (0 or 1, or indeed any start).  The records carry 0-based
references; rendering adds `s` to every node id, element/face id and node
reference, which is exactly the relabeling of §C4. -/

def joinSp (toks : List Chars) : Chars := joinSep [' '] toks

def tokWF (t : Chars) : Prop := t ≠ [] ∧ ∀ c ∈ t, isWs c = false ∧ c ≠ '#'

instance : DecidablePred tokWF := fun t => by unfold tokWF; infer_instance

theorem tokWF_natStr (n : ℕ) : tokWF (natStr n) := by
  refine ⟨natStr_ne_nil n, fun c hc => ?_⟩
  have hd : c.isDigit = true := by
    have := allDigits_natStr n
    simp only [allDigits, List.all_eq_true] at this
    exact this c hc
  exact ⟨not_ws_of_isDigit hd, isDigit_ne hd (by decide)⟩

theorem tokWF_intStr (i : ℤ) : tokWF (intStr i) := by
  unfold intStr
  by_cases h : i < 0
  · rw [if_pos h]
    refine ⟨by simp, fun c hc => ?_⟩
    rcases List.mem_cons.mp hc with rfl | hc
    · exact ⟨by decide, by decide⟩
    · exact (tokWF_natStr i.natAbs).2 c hc
  · rw [if_neg h]; exact tokWF_natStr i.toNat

theorem mem_joinSep {c : Char} {sep : Chars} :
    ∀ {l : List Chars}, c ∈ joinSep sep l → c ∈ sep ∨ ∃ p ∈ l, c ∈ p := by
  intro l
  induction l with
  | nil => intro h; simp [joinSep] at h
  | cons x xs ih =>
    match xs with
    | [] => intro h; exact Or.inr ⟨x, by simp, h⟩
    | y :: ys =>
      intro h
      simp only [joinSep, List.mem_append] at h
      rcases h with h | h | h
      · exact Or.inr ⟨x, by simp, h⟩
      · exact Or.inl h
      · rcases ih h with hs | ⟨p, hp, hcp⟩
        · exact Or.inl hs
        · exact Or.inr ⟨p, List.mem_cons_of_mem _ hp, hcp⟩

/-- Tokenizing a rendered record line recovers its tokens. -/
theorem lineTokens_render {toks : List Chars} (hne : toks ≠ [])
    (hwf : ∀ tok ∈ toks, tokWF tok) :
    pyWsTokens (beforeHash (joinSp toks)) = toks := by
  rw [beforeHash_of_no_hash]
  · exact pyWsTokens_render hne
      (fun t ht => ⟨(hwf t ht).1, fun c hc => ((hwf t ht).2 c hc).1⟩)
  · intro c hc
    rcases mem_joinSep hc with hsep | ⟨p, hp, hcp⟩
    · intro he; subst he; simp at hsep
    · exact ((hwf p hp).2 c hcp).2

/-- Tokenizing a rendered header line (read without comment stripping). -/
theorem hdrTokens_render {toks : List Chars} (hne : toks ≠ [])
    (hwf : ∀ tok ∈ toks, tokWF tok) :
    pyWsTokens (joinSp toks) = toks :=
  pyWsTokens_render hne
    (fun t ht => ⟨(hwf t ht).1, fun c hc => ((hwf t ht).2 c hc).1⟩)

structure TgSet where
  coords : List (Chars × Chars × Chars)
  npt : ℕ
  eleAttr : Bool
  eles : List (List ℕ × ℤ)
  faceAttr : Bool
  faces : List ((ℕ × ℕ × ℕ) × ℤ)

def coordWF (t : Chars) : Prop := tokWF t ∧ (pyFloat? t).isSome

instance : DecidablePred coordWF := fun t => by unfold coordWF; infer_instance

def TgSet.WF (f : TgSet) : Prop :=
  f.coords ≠ [] ∧ f.eles ≠ [] ∧ f.faces ≠ [] ∧
  (f.npt = 4 ∨ f.npt = 10) ∧
  (∀ c ∈ f.coords, coordWF c.1 ∧ coordWF c.2.1 ∧ coordWF c.2.2) ∧
  (∀ e ∈ f.eles, e.1.length = f.npt)

instance (f : TgSet) : Decidable f.WF := by unfold TgSet.WF; infer_instance

def tgNodeRecs (s : ℕ) : ℕ → List (Chars × Chars × Chars) → List Chars
  | _, [] => []
  | i, c :: rest => joinSp [natStr (i + s), c.1, c.2.1, c.2.2] :: tgNodeRecs s (i + 1) rest

def tgNodeFile (s : ℕ) (f : TgSet) : List Chars :=
  joinSp [natStr f.coords.length, lit "3", lit "0", lit "0"] :: tgNodeRecs s 0 f.coords

def tgEleRecs (s : ℕ) (withAttr : Bool) : ℕ → List (List ℕ × ℤ) → List Chars
  | _, [] => []
  | i, e :: rest =>
    joinSp (natStr (i + s) :: (e.1.map (fun r => natStr (r + s))
      ++ if withAttr then [intStr e.2] else [])) :: tgEleRecs s withAttr (i + 1) rest

def tgEleFile (s : ℕ) (f : TgSet) : List Chars :=
  joinSp [natStr f.eles.length, natStr f.npt, if f.eleAttr then lit "1" else lit "0"]
    :: tgEleRecs s f.eleAttr 0 f.eles

def tgFaceRecs (s : ℕ) (withAttr : Bool) : ℕ → List ((ℕ × ℕ × ℕ) × ℤ) → List Chars
  | _, [] => []
  | i, fc :: rest =>
    joinSp ([natStr (i + s), natStr (fc.1.1 + s), natStr (fc.1.2.1 + s),
      natStr (fc.1.2.2 + s)] ++ if withAttr then [intStr fc.2] else [])
      :: tgFaceRecs s withAttr (i + 1) rest

def tgFaceFile (s : ℕ) (f : TgSet) : List Chars :=
  joinSp [natStr f.faces.length, if f.faceAttr then lit "1" else lit "0"]
    :: tgFaceRecs s f.faceAttr 0 f.faces

def nodeCells (c : Chars × Chars × Chars) : List (Option ℚ) :=
  [pyFloat? c.1, pyFloat? c.2.1, pyFloat? c.2.2]

def eleCells (e : List ℕ × ℤ) : List (Option ℤ) :=
  (e.1.take 4).map (fun r => some (r : ℤ))

def faceCells (fc : (ℕ × ℕ × ℕ) × ℤ) : List (Option ℤ) :=
  [some (fc.1.1 : ℤ), some (fc.1.2.1 : ℤ), some (fc.1.2.2 : ℤ)]

/-- The mesh a well-formed rendered file-set denotes: coordinates in record
order, the first four node references of each element, the three node
references of each face — all independent of the rendering base `s`. -/
def tgMeshOf (f : TgSet) : TgMesh :=
  ⟨f.coords.flatMap nodeCells, f.eles.flatMap eleCells, f.faces.flatMap faceCells, [], []⟩

def tgResultOf (f : TgSet) : Except PyErr (Option (TgMesh × Option (List ℤ) × Option (List ℤ))) :=
  .ok (some (tgMeshOf f,
    if f.eleAttr then some (f.eles.map (fun e => e.2)) else none,
    if f.faceAttr then some (f.faces.map (fun fc => fc.2)) else none))

theorem set_append_left :
    ∀ (l₁ : List α) (i : ℕ), i < l₁.length → ∀ (l₂ : List α) (v : α),
      (l₁ ++ l₂).set i v = l₁.set i v ++ l₂ := by
  intro l₁
  induction l₁ with
  | nil => intro i hi; simp at hi
  | cons c cs ih =>
    intro i hi l₂ v
    match i with
    | 0 => simp [List.set]
    | j + 1 =>
      simp only [List.cons_append, List.set, List.append_eq]
      rw [ih j (by simpa using hi)]

theorem npRow_nat {n k : ℕ} (hk : k < n) : npRow n (k : ℤ) = some k := by
  unfold npRow
  rw [if_pos (by positivity), if_pos (by exact_mod_cast hk)]
  simp

theorem npSetCell_split {α : Type} {n cols k col : ℕ} (hk : k < n) (hcol : col < cols)
    {pre row tail : List (Option α)} (hpre : pre.length = cols * k)
    (hrow : row.length = cols) (v : α) :
    NpArr.setCell ⟨n, cols, pre ++ (row ++ tail)⟩ (k : ℤ) col v
      = .ok ⟨n, cols, pre ++ (row.set col v ++ tail)⟩ := by
  unfold NpArr.setCell
  rw [npRow_nat hk]
  have hidx : k * cols + col = pre.length + col := by rw [hpre]; ring
  simp only [hidx, set_append_right]
  rw [set_append_left row col (by rw [hrow]; exact hcol)]

theorem exists_four {l : List ℕ} {npt : ℕ} (hl : l.length = npt) (h4 : 4 ≤ npt) :
    ∃ a b c d tl, l = a :: b :: c :: d :: tl := by
  match l with
  | a :: b :: c :: d :: tl => exact ⟨a, b, c, d, tl, rfl⟩
  | [] | [_] | [_, _] | [_, _, _] => simp at hl; omega

/-! ## Round trip of the TetGen record loops on rendered input -/

theorem tgNodeLoop_rest (s n : ℕ) :
    ∀ (cs : List (Chars × Chars × Chars)) (k : ℕ), 0 < k → k + cs.length ≤ n →
      (∀ c ∈ cs, coordWF c.1 ∧ coordWF c.2.1 ∧ coordWF c.2.2) →
      ∀ (pre : List (Option ℚ)), pre.length = 3 * k → ∀ (rest : List Chars),
      tgNodeLoop cs.length k (tgNodeRecs s k cs ++ rest) (s : ℤ)
          ⟨n, 3, pre ++ List.replicate ((n - k) * 3) none⟩
        = .ok ((s : ℤ),
            ⟨n, 3, pre ++ (cs.flatMap nodeCells ++ List.replicate ((n - k - cs.length) * 3) none)⟩,
            rest) := by
  intro cs
  induction cs with
  | nil =>
    intro k _ _ _ pre _ rest
    simp [tgNodeLoop, tgNodeRecs]
  | cons c cs' ih =>
    intro k hk hlen hwf pre hpre rest
    obtain ⟨⟨hx1, hx2⟩, ⟨hy1, hy2⟩, ⟨hz1, hz2⟩⟩ := hwf c (List.mem_cons_self _ _)
    obtain ⟨q1, hq1⟩ := Option.isSome_iff_exists.mp hx2
    obtain ⟨q2, hq2⟩ := Option.isSome_iff_exists.mp hy2
    obtain ⟨q3, hq3⟩ := Option.isSome_iff_exists.mp hz2
    have hkn : k < n := by simp at hlen; omega
    have htoks : pyWsTokens (beforeHash (joinSp [natStr (k + s), c.1, c.2.1, c.2.2]))
        = [natStr (k + s), c.1, c.2.1, c.2.2] := by
      refine lineTokens_render (by simp) ?_
      intro tok htok
      simp only [List.mem_cons] at htok
      rcases htok with rfl | rfl | rfl | rfl | h
      · exact tokWF_natStr _
      · exact hx1
      · exact hy1
      · exact hz1
      · simp at h
    have hsplit : (n - k) * 3 = 3 + (n - k - 1) * 3 := by omega
    show tgNodeLoop (cs'.length + 1) k _ _ _ = _
    rw [tgNodeRecs]
    simp only [tgNodeLoop, List.cons_append, rdline, htoks]
    rw [if_neg (by simp)]
    simp only [pyGet, List.get?, ok_bind, pyIntE_natStr]
    rw [if_neg (by omega)]
    simp only [pyFloatQE, hq1, hq2, hq3, ok_bind]
    have hcast : ((k + s : ℕ) : ℤ) - (s : ℤ) = (k : ℤ) := by push_cast; ring
    rw [hcast, hsplit, List.replicate_add]
    rw [npSetCell_split hkn (by norm_num) hpre (by simp) q1]
    rw [ok_bind]
    rw [show (List.replicate 3 (none : Option ℚ)).set 0 (some q1)
        = [some q1, none, none] from rfl]
    rw [npSetCell_split hkn (by norm_num) hpre (by simp) q2]
    rw [ok_bind]
    rw [show ([some q1, none, none] : List (Option ℚ)).set 1 (some q2)
        = [some q1, some q2, none] from rfl]
    rw [npSetCell_split hkn (by norm_num) hpre (by simp) q3]
    rw [ok_bind]
    rw [show ([some q1, some q2, none] : List (Option ℚ)).set 2 (some q3)
        = [some q1, some q2, some q3] from rfl]
    have hassoc : pre ++ ([some q1, some q2, some q3] ++ List.replicate ((n - k - 1) * 3) none)
        = (pre ++ [some q1, some q2, some q3])
          ++ List.replicate ((n - (k + 1)) * 3) (none : Option ℚ) := by
      rw [show n - k - 1 = n - (k + 1) from by omega, List.append_assoc]
    rw [hassoc]
    rw [ih (k + 1) (by omega) (by simp at hlen ⊢; omega)
      (fun x hx => hwf x (List.mem_cons_of_mem _ hx))
      (pre ++ [some q1, some q2, some q3]) (by simp [hpre]; omega) rest]
    have hcells : nodeCells c = [some q1, some q2, some q3] := by
      simp [nodeCells, hq1, hq2, hq3]
    have harith : n - (k + 1) - cs'.length = n - k - (c :: cs').length := by
      simp; omega
    simp only [List.flatMap_cons, hcells, harith, List.append_assoc, List.cons_append,
      List.nil_append]

theorem tgEleLoop_rest_noattr (s n npt : ℕ) (hnpt : 4 ≤ npt) :
    ∀ (es : List (List ℕ × ℤ)) (k : ℕ), k + es.length ≤ n →
      (∀ e ∈ es, e.1.length = npt) →
      ∀ (pre : List (Option ℤ)), pre.length = 4 * k →
      ∀ (acc : List ℤ) (rest : List Chars),
      tgEleLoop (1 + npt) 0 (s : ℤ) es.length (tgEleRecs s false k es ++ rest)
          ⟨n, 4, pre ++ List.replicate ((n - k) * 4) none⟩ acc
        = .ok (⟨n, 4,
              pre ++ (es.flatMap eleCells ++ List.replicate ((n - k - es.length) * 4) none)⟩,
            acc, rest) := by
  intro es
  induction es with
  | nil =>
    intro k _ _ pre _ acc rest
    simp [tgEleLoop, tgEleRecs]
  | cons e es' ih =>
    intro k hlen hwf pre hpre acc rest
    have hel : e.1.length = npt := hwf e (List.mem_cons_self _ _)
    obtain ⟨r0, r1, r2, r3, tl, he1⟩ := exists_four hel hnpt
    have hkn : k < n := by simp at hlen; omega
    have htoks : pyWsTokens (beforeHash (joinSp (natStr (k + s) ::
        e.1.map (fun r => natStr (r + s)))))
        = natStr (k + s) :: e.1.map (fun r => natStr (r + s)) := by
      refine lineTokens_render (by simp) ?_
      intro tok htok
      simp only [List.mem_cons, List.mem_map] at htok
      rcases htok with rfl | ⟨r, _, rfl⟩ <;> exact tokWF_natStr _
    have hsplit : (n - k) * 4 = 4 + (n - k - 1) * 4 := by omega
    have hcast : ∀ m : ℕ, ((m + s : ℕ) : ℤ) - (s : ℤ) = (m : ℤ) := by
      intro m; push_cast; ring
    show tgEleLoop _ _ _ (es'.length + 1) _ _ _ = _
    rw [tgEleRecs]
    simp only [tgEleLoop, List.cons_append, rdline,
      show (if false = true then [intStr e.2] else []) = ([] : List Chars) from rfl,
      List.append_nil, htoks]
    rw [if_neg (by simp)]
    rw [he1]
    simp only [List.map_cons, List.cons_append, List.append_nil, pyGet, List.get?, ok_bind,
      pyIntE_natStr]
    rw [hcast k, hsplit, List.replicate_add]
    rw [npSetCell_split hkn (by norm_num) hpre (by simp) _, ok_bind, hcast r0]
    rw [show (List.replicate 4 (none : Option ℤ)).set 0 (some (r0 : ℤ))
        = [some (r0 : ℤ), none, none, none] from rfl]
    rw [npSetCell_split hkn (by norm_num) hpre (by simp) _, ok_bind, hcast r1]
    rw [show ([some (r0 : ℤ), none, none, none]).set 1 (some (r1 : ℤ))
        = [some (r0 : ℤ), some (r1 : ℤ), none, none] from rfl]
    rw [npSetCell_split hkn (by norm_num) hpre (by simp) _, ok_bind, hcast r2]
    rw [show ([some (r0 : ℤ), some (r1 : ℤ), none, none]).set 2 (some (r2 : ℤ))
        = [some (r0 : ℤ), some (r1 : ℤ), some (r2 : ℤ), none] from rfl]
    rw [npSetCell_split hkn (by norm_num) hpre (by simp) _, ok_bind, hcast r3]
    rw [show ([some (r0 : ℤ), some (r1 : ℤ), some (r2 : ℤ), none]).set 3 (some (r3 : ℤ))
        = [some (r0 : ℤ), some (r1 : ℤ), some (r2 : ℤ), some (r3 : ℤ)] from rfl]
    rw [if_neg (show ¬(0 : ℤ) = 1 from by norm_num)]
    simp only [pure_eq_ok, pure_eq_ok', ok_bind]
    have hassoc : pre ++ ([some (r0 : ℤ), some r1, some r2, some r3]
          ++ List.replicate ((n - k - 1) * 4) none)
        = (pre ++ [some (r0 : ℤ), some r1, some r2, some r3])
          ++ List.replicate ((n - (k + 1)) * 4) (none : Option ℤ) := by
      rw [show n - k - 1 = n - (k + 1) from by omega, List.append_assoc]
    rw [hassoc]
    rw [ih (k + 1) (by simp at hlen ⊢; omega)
      (fun x hx => hwf x (List.mem_cons_of_mem _ hx))
      _ (by simp [hpre]; omega) acc rest]
    have hcellsE : eleCells e = [some (r0 : ℤ), some r1, some r2, some r3] := by
      rw [eleCells, he1]; rfl
    have harith : n - (k + 1) - es'.length = n - k - (e :: es').length := by
      simp; omega
    simp only [List.flatMap_cons, hcellsE, harith, List.append_assoc, List.cons_append,
      List.nil_append]

theorem tgEleLoop_rest_attr (s n npt : ℕ) (hnpt : 4 ≤ npt) :
    ∀ (es : List (List ℕ × ℤ)) (k : ℕ), k + es.length ≤ n →
      (∀ e ∈ es, e.1.length = npt) →
      ∀ (pre : List (Option ℤ)), pre.length = 4 * k →
      ∀ (acc : List ℤ) (rest : List Chars),
      tgEleLoop (1 + npt) 1 (s : ℤ) es.length (tgEleRecs s true k es ++ rest)
          ⟨n, 4, pre ++ List.replicate ((n - k) * 4) none⟩ acc
        = .ok (⟨n, 4,
              pre ++ (es.flatMap eleCells ++ List.replicate ((n - k - es.length) * 4) none)⟩,
            acc ++ es.map (fun e => e.2), rest) := by
  intro es
  induction es with
  | nil =>
    intro k _ _ pre _ acc rest
    simp [tgEleLoop, tgEleRecs]
  | cons e es' ih =>
    intro k hlen hwf pre hpre acc rest
    have hel : e.1.length = npt := hwf e (List.mem_cons_self _ _)
    obtain ⟨r0, r1, r2, r3, tl, he1⟩ := exists_four hel hnpt
    have hkn : k < n := by simp at hlen; omega
    have htl : tl.length = npt - 4 := by rw [he1] at hel; simp at hel; omega
    have htoks : pyWsTokens (beforeHash (joinSp (natStr (k + s) ::
        (e.1.map (fun r => natStr (r + s)) ++ [intStr e.2]))))
        = natStr (k + s) :: (e.1.map (fun r => natStr (r + s)) ++ [intStr e.2]) := by
      refine lineTokens_render (by simp) ?_
      intro tok htok
      simp only [List.mem_cons, List.mem_append, List.mem_map, List.mem_singleton] at htok
      rcases htok with rfl | ⟨r, _, rfl⟩ | rfl | h
      · exact tokWF_natStr _
      · exact tokWF_natStr _
      · exact tokWF_intStr _
      · simp at h
    have hsplit : (n - k) * 4 = 4 + (n - k - 1) * 4 := by omega
    have hcast : ∀ m : ℕ, ((m + s : ℕ) : ℤ) - (s : ℤ) = (m : ℤ) := by
      intro m; push_cast; ring
    show tgEleLoop _ _ _ (es'.length + 1) _ _ _ = _
    rw [tgEleRecs]
    simp only [List.cons_append] at htoks
    simp only [tgEleLoop, List.cons_append, rdline, if_true]
    rw [htoks]
    rw [if_neg (by simp)]
    rw [he1]
    simp only [List.map_cons, List.cons_append, pyGet, List.get?, ok_bind, pyIntE_natStr]
    rw [hcast k, hsplit, List.replicate_add]
    rw [npSetCell_split hkn (by norm_num) hpre (by simp) _, ok_bind, hcast r0]
    rw [show (List.replicate 4 (none : Option ℤ)).set 0 (some (r0 : ℤ))
        = [some (r0 : ℤ), none, none, none] from rfl]
    rw [npSetCell_split hkn (by norm_num) hpre (by simp) _, ok_bind, hcast r1]
    rw [show ([some (r0 : ℤ), none, none, none]).set 1 (some (r1 : ℤ))
        = [some (r0 : ℤ), some (r1 : ℤ), none, none] from rfl]
    rw [npSetCell_split hkn (by norm_num) hpre (by simp) _, ok_bind, hcast r2]
    rw [show ([some (r0 : ℤ), some (r1 : ℤ), none, none]).set 2 (some (r2 : ℤ))
        = [some (r0 : ℤ), some (r1 : ℤ), some (r2 : ℤ), none] from rfl]
    rw [npSetCell_split hkn (by norm_num) hpre (by simp) _, ok_bind, hcast r3]
    rw [show ([some (r0 : ℤ), some (r1 : ℤ), some (r2 : ℤ), none]).set 3 (some (r3 : ℤ))
        = [some (r0 : ℤ), some (r1 : ℤ), some (r2 : ℤ), some (r3 : ℤ)] from rfl]
    have hattrGet : (natStr (k + s) :: natStr (r0 + s) :: natStr (r1 + s)
        :: natStr (r2 + s) :: natStr (r3 + s)
        :: (tl.map (fun r => natStr (r + s)) ++ [intStr e.2])).get? (1 + npt)
        = some (intStr e.2) := by
      have hidx : 1 + npt = tl.length + 4 + 1 := by omega
      rw [hidx]
      simp only [List.get?]
      rw [List.get?_append_right (by simp)]
      simp
    rw [hattrGet]
    simp only [pure_eq_ok, pure_eq_ok', ok_bind, pyIntE_intStr]
    have hassoc : pre ++ ([some (r0 : ℤ), some r1, some r2, some r3]
          ++ List.replicate ((n - k - 1) * 4) none)
        = (pre ++ [some (r0 : ℤ), some r1, some r2, some r3])
          ++ List.replicate ((n - (k + 1)) * 4) (none : Option ℤ) := by
      rw [show n - k - 1 = n - (k + 1) from by omega, List.append_assoc]
    rw [hassoc]
    rw [ih (k + 1) (by simp at hlen ⊢; omega)
      (fun x hx => hwf x (List.mem_cons_of_mem _ hx))
      _ (by simp [hpre]; omega) (acc ++ [e.2]) rest]
    have hcellsE : eleCells e = [some (r0 : ℤ), some r1, some r2, some r3] := by
      rw [eleCells, he1]; rfl
    have harith : n - (k + 1) - es'.length = n - k - (e :: es').length := by
      simp; omega
    simp only [List.flatMap_cons, hcellsE, harith, List.map_cons, List.append_assoc,
      List.cons_append, List.nil_append]

theorem tgFaceLoop_rest (s n : ℕ) (withAttr : Bool) :
    ∀ (fs : List ((ℕ × ℕ × ℕ) × ℤ)) (k : ℕ), k + fs.length ≤ n →
      ∀ (pre : List (Option ℤ)), pre.length = 3 * k →
      ∀ (acc : List ℤ) (rest : List Chars),
      tgFaceLoop (if withAttr then 1 else 0) (s : ℤ) fs.length
          (tgFaceRecs s withAttr k fs ++ rest)
          ⟨n, 3, pre ++ List.replicate ((n - k) * 3) none⟩ acc
        = .ok (⟨n, 3,
              pre ++ (fs.flatMap faceCells ++ List.replicate ((n - k - fs.length) * 3) none)⟩,
            acc ++ (if withAttr then fs.map (fun fc => fc.2) else []), rest) := by
  intro fs
  induction fs with
  | nil =>
    intro k _ pre _ acc rest
    cases withAttr <;> simp [tgFaceLoop, tgFaceRecs]
  | cons fc fs' ih =>
    intro k hlen pre hpre acc rest
    have hkn : k < n := by simp at hlen; omega
    have hsplit : (n - k) * 3 = 3 + (n - k - 1) * 3 := by omega
    have hcast : ∀ m : ℕ, ((m + s : ℕ) : ℤ) - (s : ℤ) = (m : ℤ) := by
      intro m; push_cast; ring
    have hassoc : pre ++ ([some (fc.1.1 : ℤ), some (fc.1.2.1 : ℤ), some (fc.1.2.2 : ℤ)]
          ++ List.replicate ((n - k - 1) * 3) none)
        = (pre ++ [some (fc.1.1 : ℤ), some (fc.1.2.1 : ℤ), some (fc.1.2.2 : ℤ)])
          ++ List.replicate ((n - (k + 1)) * 3) (none : Option ℤ) := by
      rw [show n - k - 1 = n - (k + 1) from by omega, List.append_assoc]
    have harith : n - (k + 1) - fs'.length = n - k - (fc :: fs').length := by
      simp; omega
    cases withAttr with
    | false =>
      have htoks : pyWsTokens (beforeHash (joinSp [natStr (k + s), natStr (fc.1.1 + s),
          natStr (fc.1.2.1 + s), natStr (fc.1.2.2 + s)]))
          = [natStr (k + s), natStr (fc.1.1 + s), natStr (fc.1.2.1 + s),
              natStr (fc.1.2.2 + s)] := by
        refine lineTokens_render (by simp) ?_
        intro tok htok
        simp only [List.mem_cons] at htok
        rcases htok with rfl | rfl | rfl | rfl | h
        · exact tokWF_natStr _
        · exact tokWF_natStr _
        · exact tokWF_natStr _
        · exact tokWF_natStr _
        · simp at h
      show tgFaceLoop _ _ (fs'.length + 1) _ _ _ = _
      rw [tgFaceRecs]
      simp only [tgFaceLoop, List.cons_append, List.nil_append, Bool.false_eq_true,
        if_false, rdline]
      simp only [show (natStr (k + s) :: natStr (fc.1.1 + s) :: natStr (fc.1.2.1 + s)
          :: natStr (fc.1.2.2 + s) :: [])
          = [natStr (k + s), natStr (fc.1.1 + s), natStr (fc.1.2.1 + s),
             natStr (fc.1.2.2 + s)] from rfl, htoks]
      rw [if_neg (by simp)]
      simp only [pyGet, List.get?, ok_bind, pyIntE_natStr]
      rw [hcast k, hsplit, List.replicate_add]
      rw [npSetCell_split hkn (by norm_num) hpre (by simp) _, ok_bind, hcast fc.1.1]
      rw [show (List.replicate 3 (none : Option ℤ)).set 0 (some (fc.1.1 : ℤ))
          = [some (fc.1.1 : ℤ), none, none] from rfl]
      rw [npSetCell_split hkn (by norm_num) hpre (by simp) _, ok_bind, hcast fc.1.2.1]
      rw [show ([some (fc.1.1 : ℤ), none, none]).set 1 (some (fc.1.2.1 : ℤ))
          = [some (fc.1.1 : ℤ), some (fc.1.2.1 : ℤ), none] from rfl]
      rw [npSetCell_split hkn (by norm_num) hpre (by simp) _, ok_bind, hcast fc.1.2.2]
      rw [show ([some (fc.1.1 : ℤ), some (fc.1.2.1 : ℤ), none]).set 2 (some (fc.1.2.2 : ℤ))
          = [some (fc.1.1 : ℤ), some (fc.1.2.1 : ℤ), some (fc.1.2.2 : ℤ)] from rfl]
      rw [if_neg (show ¬(0 : ℤ) = 1 from by norm_num)]
      simp only [pure_eq_ok, pure_eq_ok', ok_bind]
      rw [hassoc]
      simp only [Bool.false_eq_true, if_false, List.append_nil] at ih
      rw [ih (k + 1) (by simp at hlen ⊢; omega) _ (by simp [hpre]; omega) acc rest]
      simp only [Bool.false_eq_true, if_false, List.append_nil, List.flatMap_cons, faceCells,
        harith, List.append_assoc, List.cons_append, List.nil_append]
    | true =>
      have htoks : pyWsTokens (beforeHash (joinSp ([natStr (k + s), natStr (fc.1.1 + s),
          natStr (fc.1.2.1 + s), natStr (fc.1.2.2 + s)] ++ [intStr fc.2])))
          = [natStr (k + s), natStr (fc.1.1 + s), natStr (fc.1.2.1 + s),
              natStr (fc.1.2.2 + s), intStr fc.2] := by
        refine lineTokens_render (by simp) ?_
        intro tok htok
        simp only [List.cons_append, List.nil_append, List.mem_cons] at htok
        rcases htok with rfl | rfl | rfl | rfl | rfl | h
        · exact tokWF_natStr _
        · exact tokWF_natStr _
        · exact tokWF_natStr _
        · exact tokWF_natStr _
        · exact tokWF_intStr _
        · simp at h
      show tgFaceLoop _ _ (fs'.length + 1) _ _ _ = _
      rw [tgFaceRecs]
      simp only [tgFaceLoop, List.cons_append, List.nil_append, eq_self_iff_true,
        if_true, rdline]
      simp only [show (natStr (k + s) :: natStr (fc.1.1 + s) :: natStr (fc.1.2.1 + s)
          :: natStr (fc.1.2.2 + s) :: [intStr fc.2])
          = [natStr (k + s), natStr (fc.1.1 + s), natStr (fc.1.2.1 + s),
             natStr (fc.1.2.2 + s)] ++ [intStr fc.2] from rfl, htoks]
      rw [if_neg (by simp)]
      simp only [pyGet, List.get?, ok_bind, pyIntE_natStr, pyIntE_intStr]
      rw [hcast k, hsplit, List.replicate_add]
      rw [npSetCell_split hkn (by norm_num) hpre (by simp) _, ok_bind, hcast fc.1.1]
      rw [show (List.replicate 3 (none : Option ℤ)).set 0 (some (fc.1.1 : ℤ))
          = [some (fc.1.1 : ℤ), none, none] from rfl]
      rw [npSetCell_split hkn (by norm_num) hpre (by simp) _, ok_bind, hcast fc.1.2.1]
      rw [show ([some (fc.1.1 : ℤ), none, none]).set 1 (some (fc.1.2.1 : ℤ))
          = [some (fc.1.1 : ℤ), some (fc.1.2.1 : ℤ), none] from rfl]
      rw [npSetCell_split hkn (by norm_num) hpre (by simp) _, ok_bind, hcast fc.1.2.2]
      rw [show ([some (fc.1.1 : ℤ), some (fc.1.2.1 : ℤ), none]).set 2 (some (fc.1.2.2 : ℤ))
          = [some (fc.1.1 : ℤ), some (fc.1.2.1 : ℤ), some (fc.1.2.2 : ℤ)] from rfl]
      simp only [pure_eq_ok, pure_eq_ok', ok_bind, pyIntE_intStr]
      rw [hassoc]
      simp only [eq_self_iff_true, if_true] at ih
      rw [ih (k + 1) (by simp at hlen ⊢; omega) _ (by simp [hpre]; omega)
        (acc ++ [fc.2]) rest]
      simp only [eq_self_iff_true, if_true, List.flatMap_cons, faceCells, harith,
        List.map_cons, List.append_assoc, List.cons_append, List.nil_append]

/-- The whole node loop starting from iteration 0: the index shift is
captured from the first record and then applied throughout. -/
theorem tgNodeLoop_start (s : ℕ) (cs : List (Chars × Chars × Chars)) (hne : cs ≠ [])
    (hwf : ∀ c ∈ cs, coordWF c.1 ∧ coordWF c.2.1 ∧ coordWF c.2.2) (rest : List Chars) :
    tgNodeLoop cs.length 0 (tgNodeRecs s 0 cs ++ rest) 0 (npEmpty ℚ cs.length 3)
      = .ok ((s : ℤ), ⟨cs.length, 3, cs.flatMap nodeCells⟩, rest) := by
  match cs, hne with
  | c :: cs', _ =>
    obtain ⟨⟨hx1, hx2⟩, ⟨hy1, hy2⟩, ⟨hz1, hz2⟩⟩ := hwf c (List.mem_cons_self _ _)
    obtain ⟨q1, hq1⟩ := Option.isSome_iff_exists.mp hx2
    obtain ⟨q2, hq2⟩ := Option.isSome_iff_exists.mp hy2
    obtain ⟨q3, hq3⟩ := Option.isSome_iff_exists.mp hz2
    have htoks : pyWsTokens (beforeHash (joinSp [natStr (0 + s), c.1, c.2.1, c.2.2]))
        = [natStr (0 + s), c.1, c.2.1, c.2.2] := by
      refine lineTokens_render (by simp) ?_
      intro tok htok
      simp only [List.mem_cons] at htok
      rcases htok with rfl | rfl | rfl | rfl | h
      · exact tokWF_natStr _
      · exact hx1
      · exact hy1
      · exact hz1
      · simp at h
    have hn : (c :: cs').length = cs'.length + 1 := rfl
    show tgNodeLoop (cs'.length + 1) 0 _ _ _ = _
    rw [tgNodeRecs]
    simp only [tgNodeLoop, List.cons_append, rdline, htoks]
    rw [if_neg (by simp)]
    simp only [pyGet, List.get?, ok_bind, pyIntE_natStr, if_true]
    simp only [pyFloatQE, hq1, hq2, hq3, ok_bind]
    have hsub : ((0 + s : ℕ) : ℤ) - ((0 + s : ℕ) : ℤ) = ((0 : ℕ) : ℤ) := by push_cast; ring
    rw [hsub]
    have hdata : List.replicate ((c :: cs').length * 3) (none : Option ℚ)
        = ([] : List (Option ℚ))
          ++ (List.replicate 3 none ++ List.replicate (cs'.length * 3) none) := by
      rw [List.nil_append, ← List.replicate_add]
      congr 1
      simp
      ring
    rw [show npEmpty ℚ (c :: cs').length 3 = ⟨(c :: cs').length, 3,
        ([] : List (Option ℚ)) ++ (List.replicate 3 none
          ++ List.replicate (cs'.length * 3) none)⟩ from by
      unfold npEmpty
      rw [hdata]]
    rw [npSetCell_split (by simp) (by norm_num) rfl (by simp) q1, ok_bind]
    rw [show (List.replicate 3 (none : Option ℚ)).set 0 (some q1)
        = [some q1, none, none] from rfl]
    rw [npSetCell_split (by simp) (by norm_num) rfl (by simp) q2, ok_bind]
    rw [show ([some q1, none, none] : List (Option ℚ)).set 1 (some q2)
        = [some q1, some q2, none] from rfl]
    rw [npSetCell_split (by simp) (by norm_num) rfl (by simp) q3, ok_bind]
    rw [show ([some q1, some q2, none] : List (Option ℚ)).set 2 (some q3)
        = [some q1, some q2, some q3] from rfl]
    have hcast0 : ((0 + s : ℕ) : ℤ) = (s : ℤ) := by push_cast; ring
    rw [hcast0]
    have hshape : ([] : List (Option ℚ)) ++ ([some q1, some q2, some q3]
          ++ List.replicate (cs'.length * 3) none)
        = [some q1, some q2, some q3]
          ++ List.replicate (((c :: cs').length - 1) * 3) (none : Option ℚ) := by
      simp
    rw [hshape]
    rw [tgNodeLoop_rest s (c :: cs').length cs' 1 (by norm_num)
      (by simp only [List.length_cons]; omega)
      (fun x hx => hwf x (List.mem_cons_of_mem _ hx)) _ (by norm_num) rest]
    have hcells : nodeCells c = [some q1, some q2, some q3] := by
      simp [nodeCells, hq1, hq2, hq3]
    simp only [List.flatMap_cons, hcells]
    simp

/-- Parsing a well-formed rendered TetGen file-set: the result depends only
on the abstract records, never on the index base `s`, and trailing unread
lines (`extraN`/`extraE`/`extraF`) are ignored because each loop reads
exactly the header-declared number of lines. -/
theorem readTetgen_render (f : TgSet) (hwf : f.WF) (s : ℕ)
    (extraN extraE extraF : List Chars) :
    readTetgen (some (tgNodeFile s f ++ extraN)) (some (tgEleFile s f ++ extraE))
      (some (tgFaceFile s f ++ extraF)) none none none = tgResultOf f := by
  obtain ⟨hcne, hene, hfne, hnpt, hcoord, helen⟩ := hwf
  have h4 : 4 ≤ f.npt := by rcases hnpt with h | h <;> omega
  have hndToks : pyWsTokens (joinSp [natStr f.coords.length, lit "3", lit "0", lit "0"])
      = [natStr f.coords.length, lit "3", lit "0", lit "0"] := by
    refine hdrTokens_render (by simp) ?_
    intro tok htok
    simp only [List.mem_cons] at htok
    rcases htok with rfl | rfl | rfl | rfl | h
    · exact tokWF_natStr _
    · decide
    · decide
    · decide
    · simp at h
  have heToks : pyWsTokens (joinSp [natStr f.eles.length, natStr f.npt,
      if f.eleAttr then lit "1" else lit "0"])
      = [natStr f.eles.length, natStr f.npt, if f.eleAttr then lit "1" else lit "0"] := by
    refine hdrTokens_render (by simp) ?_
    intro tok htok
    simp only [List.mem_cons] at htok
    rcases htok with rfl | rfl | rfl | h
    · exact tokWF_natStr _
    · exact tokWF_natStr _
    · cases f.eleAttr <;> decide
    · simp at h
  have hfToks : pyWsTokens (joinSp [natStr f.faces.length,
      if f.faceAttr then lit "1" else lit "0"])
      = [natStr f.faces.length, if f.faceAttr then lit "1" else lit "0"] := by
    refine hdrTokens_render (by simp) ?_
    intro tok htok
    simp only [List.mem_cons] at htok
    rcases htok with rfl | rfl | h
    · exact tokWF_natStr _
    · cases f.faceAttr <;> decide
    · simp at h
  have hflagE : pyIntE (if f.eleAttr then lit "1" else lit "0")
      = .ok (if f.eleAttr then (1 : ℤ) else 0) := by
    cases f.eleAttr <;> rfl
  have hflagF : pyIntE (if f.faceAttr then lit "1" else lit "0")
      = .ok (if f.faceAttr then (1 : ℤ) else 0) := by
    cases f.faceAttr <;> rfl
  have hloopE : tgEleLoop (1 + f.npt) (if f.eleAttr then (1 : ℤ) else 0) (s : ℤ)
      f.eles.length (tgEleRecs s f.eleAttr 0 f.eles ++ extraE)
      (npEmpty ℤ f.eles.length 4) []
      = .ok (⟨f.eles.length, 4, f.eles.flatMap eleCells⟩,
          (if f.eleAttr then f.eles.map (fun e => e.2) else []), extraE) := by
    cases hb : f.eleAttr with
    | false =>
      simpa [npEmpty] using tgEleLoop_rest_noattr s f.eles.length f.npt h4 f.eles 0
        (by simp) helen [] (by simp) [] extraE
    | true =>
      simpa [npEmpty] using tgEleLoop_rest_attr s f.eles.length f.npt h4 f.eles 0
        (by simp) helen [] (by simp) [] extraE
  have hloopF : tgFaceLoop (if f.faceAttr then (1 : ℤ) else 0) (s : ℤ)
      f.faces.length (tgFaceRecs s f.faceAttr 0 f.faces ++ extraF)
      (npEmpty ℤ f.faces.length 3) []
      = .ok (⟨f.faces.length, 3, f.faces.flatMap faceCells⟩,
          (if f.faceAttr then f.faces.map (fun fc => fc.2) else []), extraF) := by
    simpa [npEmpty] using tgFaceLoop_rest s f.faces.length f.faceAttr f.faces 0
      (by simp) [] (by simp) [] extraF
  have hgateE : (if (if f.eleAttr then (1 : ℤ) else 0) = 1 then
      pyAssert ((((if f.eleAttr then f.eles.map (fun e => e.2) else []) : List ℤ).length : ℤ)
        = (f.eles.length : ℤ)) else pure ())
      = (.ok () : Except PyErr Unit) := by
    cases f.eleAttr <;> simp [pyAssert, pure_eq_ok']
  have hgateF : (if (if f.faceAttr then (1 : ℤ) else 0) = 1 then
      pyAssert ((((if f.faceAttr then f.faces.map (fun fc => fc.2) else []) : List ℤ).length : ℤ)
        = (f.faces.length : ℤ)) else pure ())
      = (.ok () : Except PyErr Unit) := by
    cases f.faceAttr <;> simp [pyAssert, pure_eq_ok']
  have hcompsRet : (if (if f.eleAttr then f.eles.map (fun e => e.2) else []) = [] then none
      else some (if f.eleAttr then f.eles.map (fun e => e.2) else []))
      = (if f.eleAttr then some (f.eles.map (fun e => e.2)) else none) := by
    cases f.eleAttr with
    | false => simp
    | true => simp [hene]
  have hpatchRet : (if (if f.faceAttr then f.faces.map (fun fc => fc.2) else []) = [] then none
      else some (if f.faceAttr then f.faces.map (fun fc => fc.2) else []))
      = (if f.faceAttr then some (f.faces.map (fun fc => fc.2)) else none) := by
    cases f.faceAttr with
    | false => simp
    | true => simp [hfne]
  simp only [readTetgen, tgNodeFile, tgEleFile, tgFaceFile, List.cons_append, rdline,
    hndToks, heToks, hfToks]
  rw [pyAssert_pos (by simp)]
  simp only [pyGet, List.get?, ok_bind, pyIntE_natStr,
    show pyIntE (lit "3") = .ok (3 : ℤ) from rfl,
    show pyIntE (lit "0") = .ok (0 : ℤ) from rfl, hflagE, hflagF]
  rw [pyAssert_pos (by exact_mod_cast List.length_pos.mpr hcne)]
  simp only [ok_bind]
  rw [pyAssert_pos trivial]
  simp only [ok_bind, Int.toNat_natCast]
  rw [tgNodeLoop_start s f.coords hcne hcoord extraN]
  simp only [ok_bind]
  rw [pyAssert_pos (by simp)]
  simp only [ok_bind]
  rw [pyAssert_pos (by exact_mod_cast List.length_pos.mpr hene)]
  simp only [ok_bind]
  rw [pyAssert_pos (by exact_mod_cast hnpt)]
  simp only [ok_bind]
  rw [show ((1 : ℤ) + (f.npt : ℤ)).toNat = 1 + f.npt from by omega]
  rw [pyAssert_pos (by cases f.eleAttr <;> simp)]
  simp only [ok_bind, Int.toNat_natCast]
  rw [hloopE]
  simp only [ok_bind]
  have hfpos : (0 : ℤ) < (f.faces.length : ℤ) := by
    exact_mod_cast List.length_pos.mpr hfne
  cases hEA : f.eleAttr <;> cases hFA : f.faceAttr <;>
    simp only [hEA, hFA] at hloopF ⊢ <;>
    simp only [Bool.false_eq_true, if_false, if_true, eq_self_iff_true] at hloopF <;>
    simp [pyAssert_pos, hloopF, tgAnnotate, tgResultOf, tgMeshOf, hene, hfne, hfpos,
      pure_eq_ok, pure_eq_ok', ok_bind, pyAssert, hEA, hFA]

/-! ## Claims C3-C6 -/

/-- **C3** (the claim is right, the code is wrong): with a valid `.node` and
`.ele` pair and no `.face` file, `readTetgen` does not return a mesh with a
`None` boundary-tag result; `faces` is still `None` at line 284 and
`faces.flatten()` raises `AttributeError` before the mesh is constructed. -/
theorem readTetgen_missing_face_crashes :
    readTetgen
      (some [lit "4 3 0 0", lit "1 0 0 0", lit "2 1 0 0", lit "3 0 1 0", lit "4 0 0 1"])
      (some [lit "1 4 0", lit "1 1 2 3 4"])
      none none none none
    = .error .attributeError := by decide

/-- **C4**: importing a well-formed TetGen file-set rendered with 1-based ids
and the same records rendered with 0-based ids gives identical results: the
shift is read from the first `.node` record and subtracted from every node
id, element/face id and node reference, cancelling the relabeling. -/
theorem readTetgen_shift_invariant (f : TgSet) (hwf : f.WF)
    (extraN extraE extraF : List Chars) :
    readTetgen (some (tgNodeFile 1 f ++ extraN)) (some (tgEleFile 1 f ++ extraE))
        (some (tgFaceFile 1 f ++ extraF)) none none none
      = readTetgen (some (tgNodeFile 0 f ++ extraN)) (some (tgEleFile 0 f ++ extraE))
        (some (tgFaceFile 0 f ++ extraF)) none none none := by
  rw [readTetgen_render f hwf 1 extraN extraE extraF,
    readTetgen_render f hwf 0 extraN extraE extraF]

/-- Witness for C4 at a concrete file-set. -/
theorem readTetgen_shift_invariant_witness :
    TgSet.WF ⟨[(lit "0", lit "0", lit "0"), (lit "1", lit "0", lit "0"),
        (lit "0", lit "1", lit "0"), (lit "0", lit "0", lit "1")], 4, true,
        [([0, 1, 2, 3], 7)], true, [((0, 1, 2), 5)]⟩ ∧
    readTetgen
        (some (tgNodeFile 1 ⟨[(lit "0", lit "0", lit "0"), (lit "1", lit "0", lit "0"),
          (lit "0", lit "1", lit "0"), (lit "0", lit "0", lit "1")], 4, true,
          [([0, 1, 2, 3], 7)], true, [((0, 1, 2), 5)]⟩ ++ []))
        (some (tgEleFile 1 ⟨[(lit "0", lit "0", lit "0"), (lit "1", lit "0", lit "0"),
          (lit "0", lit "1", lit "0"), (lit "0", lit "0", lit "1")], 4, true,
          [([0, 1, 2, 3], 7)], true, [((0, 1, 2), 5)]⟩ ++ []))
        (some (tgFaceFile 1 ⟨[(lit "0", lit "0", lit "0"), (lit "1", lit "0", lit "0"),
          (lit "0", lit "1", lit "0"), (lit "0", lit "0", lit "1")], 4, true,
          [([0, 1, 2, 3], 7)], true, [((0, 1, 2), 5)]⟩ ++ [])) none none none
      = readTetgen
        (some (tgNodeFile 0 ⟨[(lit "0", lit "0", lit "0"), (lit "1", lit "0", lit "0"),
          (lit "0", lit "1", lit "0"), (lit "0", lit "0", lit "1")], 4, true,
          [([0, 1, 2, 3], 7)], true, [((0, 1, 2), 5)]⟩ ++ []))
        (some (tgEleFile 0 ⟨[(lit "0", lit "0", lit "0"), (lit "1", lit "0", lit "0"),
          (lit "0", lit "1", lit "0"), (lit "0", lit "0", lit "1")], 4, true,
          [([0, 1, 2, 3], 7)], true, [((0, 1, 2), 5)]⟩ ++ []))
        (some (tgFaceFile 0 ⟨[(lit "0", lit "0", lit "0"), (lit "1", lit "0", lit "0"),
          (lit "0", lit "1", lit "0"), (lit "0", lit "0", lit "1")], 4, true,
          [([0, 1, 2, 3], 7)], true, [((0, 1, 2), 5)]⟩ ++ [])) none none none :=
  ⟨by decide, readTetgen_shift_invariant _ (by decide) [] [] []⟩

/-- **C5**, counterexample: a 10-node `.ele` file whose fifth node-reference
column (token position 5 after the element id) holds `7`, while the declared
region attribute column (token position `1 + 10 = 11`) holds `99`.  The claim
says the attribute is collected from token position 5 for 10-node elements
too; the code collects `99`, the value at position 11. -/
theorem readTetgen_attr_pos5_refuted :
    readTetgen
      (some [lit "1 3 0 0", lit "0 0 0 0"])
      (some [lit "1 10 1", lit "0 5 5 5 5 7 5 5 5 5 5 99"])
      (some [lit "1 0", lit "0 0 0 0"])
      none none none
    = .ok (some
        (⟨[some 0, some 0, some 0], [some 5, some 5, some 5, some 5],
          [some 0, some 0, some 0], [], []⟩, some [99], none))
    ∧ pyWsTokens (lit "0 5 5 5 5 7 5 5 5 5 5 99") = [lit "0", lit "5", lit "5", lit "5",
        lit "5", lit "7", lit "5", lit "5", lit "5", lit "5", lit "5", lit "99"]
    ∧ pyInt? (lit "7") = some 7 ∧ (99 : ℤ) ≠ 7 := by decide

/-- **C5**, amended: the region attribute of each element record is collected
from token position `1 + nodespertet` — position 5 (immediately after the 4
node references) for 4-node elements, position 11 (after all 10 node
references) for 10-node elements. -/
theorem readTetgen_attr_column (f : TgSet) (hwf : f.WF) (s : ℕ)
    (hattr : f.eleAttr = true) :
    readTetgen (some (tgNodeFile s f)) (some (tgEleFile s f)) (some (tgFaceFile s f))
      none none none
      = .ok (some (tgMeshOf f, some (f.eles.map (fun e => e.2)),
          if f.faceAttr then some (f.faces.map (fun fc => fc.2)) else none)) := by
  have h := readTetgen_render f hwf s [] [] []
  simp only [List.append_nil] at h
  rw [h, tgResultOf, hattr, if_pos rfl]

/-- Witness for the amended C5 on a concrete 10-node file-set. -/
theorem readTetgen_attr_column_witness :
    TgSet.WF ⟨[(lit "0", lit "0", lit "0")], 10, true,
        [([5, 5, 5, 5, 7, 5, 5, 5, 5, 5], 99)], false, [((0, 0, 0), 0)]⟩ ∧
    readTetgen
        (some (tgNodeFile 0 ⟨[(lit "0", lit "0", lit "0")], 10, true,
          [([5, 5, 5, 5, 7, 5, 5, 5, 5, 5], 99)], false, [((0, 0, 0), 0)]⟩))
        (some (tgEleFile 0 ⟨[(lit "0", lit "0", lit "0")], 10, true,
          [([5, 5, 5, 5, 7, 5, 5, 5, 5, 5], 99)], false, [((0, 0, 0), 0)]⟩))
        (some (tgFaceFile 0 ⟨[(lit "0", lit "0", lit "0")], 10, true,
          [([5, 5, 5, 5, 7, 5, 5, 5, 5, 5], 99)], false, [((0, 0, 0), 0)]⟩))
        none none none
      = .ok (some (tgMeshOf ⟨[(lit "0", lit "0", lit "0")], 10, true,
          [([5, 5, 5, 5, 7, 5, 5, 5, 5, 5], 99)], false, [((0, 0, 0), 0)]⟩,
          some [99], none)) :=
  ⟨by decide, by
    have h := readTetgen_attr_column
      ⟨[(lit "0", lit "0", lit "0")], 10, true,
        [([5, 5, 5, 5, 7, 5, 5, 5, 5, 5], 99)], false, [((0, 0, 0), 0)]⟩
      (by decide) 0 rfl
    simpa using h⟩

/-- **C6**, counterexample: the `.node` header declares 2 records; a blank
line sits between the two data lines.  The blank line is skipped without an
error, but it consumes one of the two loop iterations, so the second declared
record (`1 4 5 6`) is never read and node 1 keeps its uninitialized
(`numpy.empty`) cells — a declared data record IS lost. -/
theorem readTetgen_blank_line_loses_record :
    readTetgen
      (some [lit "2 3 0 0", lit "0 1 2 3", lit "", lit "1 4 5 6"])
      (some [lit "1 4 0", lit "0 0 1 0 1"])
      (some [lit "1 0", lit "0 0 1 0"])
      none none none
    = .ok (some
        (⟨[some 1, some 2, some 3, none, none, none],
          [some 0, some 1, some 0, some 1],
          [some 0, some 1, some 0], [], []⟩, none, none)) := by decide

/-- **C6**, amended: a content-free line is skipped without an error, but it
consumes one of the header-declared count of reads; when every declared
record appears in the first `count` body lines, all records are parsed and
stored, and any lines after them (for example trailing comment lines) are
never read at all. -/
theorem readTetgen_skips_trailing_junk (f : TgSet) (hwf : f.WF) (s : ℕ)
    (junkN junkE junkF : List Chars) :
    readTetgen (some (tgNodeFile s f ++ junkN)) (some (tgEleFile s f ++ junkE))
      (some (tgFaceFile s f ++ junkF)) none none none = tgResultOf f :=
  readTetgen_render f hwf s junkN junkE junkF

/-- Witness for the amended C6 with trailing comment and blank lines. -/
theorem readTetgen_skips_trailing_junk_witness :
    TgSet.WF ⟨[(lit "0", lit "0", lit "0")], 4, false,
        [([0, 0, 0, 0], 0)], false, [((0, 0, 0), 0)]⟩ ∧
    readTetgen
        (some (tgNodeFile 0 ⟨[(lit "0", lit "0", lit "0")], 4, false,
          [([0, 0, 0, 0], 0)], false, [((0, 0, 0), 0)]⟩
          ++ [lit "# Generated by tetgen", lit ""]))
        (some (tgEleFile 0 ⟨[(lit "0", lit "0", lit "0")], 4, false,
          [([0, 0, 0, 0], 0)], false, [((0, 0, 0), 0)]⟩ ++ [lit "# end"]))
        (some (tgFaceFile 0 ⟨[(lit "0", lit "0", lit "0")], 4, false,
          [([0, 0, 0, 0], 0)], false, [((0, 0, 0), 0)]⟩ ++ [lit ""]))
        none none none
      = tgResultOf ⟨[(lit "0", lit "0", lit "0")], 4, false,
          [([0, 0, 0, 0], 0)], false, [((0, 0, 0), 0)]⟩ :=
  ⟨by decide, readTetgen_skips_trailing_junk _ (by decide) 0 _ _ _⟩

/-- **C7**: whenever `readTetgen` succeeds on an `.ele` file whose header
declares the region-attribute flag as `1`, the collected attribute list (the
second component of the returned triple) has exactly the header-declared
element count; likewise, on a `.face` file declaring the boundary-marker
flag as `1`, the collected marker list has exactly the declared face count.
A run whose collected column is short of the declared count cannot return
`ok` (lines 237 and 276, `assert len(..) == n..`). -/
theorem readTetgen_attr_length_matches_count
    (nodeLines eleLines : List Chars) (faceF : Option (List Chars))
    (cm pm : Option (List (ℤ × Chars)))
    (pim : Option (List (Chars × (Option Chars × Option Chars))))
    (m : TgMesh) (cres pres : Option (List ℤ))
    (hrun : readTetgen (some nodeLines) (some eleLines) faceF cm pm pim
              = .ok (some (m, cres, pres))) :
    (∀ (ntets : ℤ) (cl : List ℤ),
        pyInt? ((pyWsTokens (rdline eleLines).1).getD 0 []) = some ntets →
        pyInt? ((pyWsTokens (rdline eleLines).1).getD 2 []) = some 1 →
        cres = some cl → (cl.length : ℤ) = ntets) ∧
    (∀ (faceLines : List Chars) (nfaces : ℤ) (pl : List ℤ),
        faceF = some faceLines →
        pyInt? ((pyWsTokens (rdline faceLines).1).getD 0 []) = some nfaces →
        pyInt? ((pyWsTokens (rdline faceLines).1).getD 1 []) = some 1 →
        pres = some pl → (pl.length : ℤ) = nfaces) := by
  simp only [readTetgen, bind_eq_ok, pyGet_eq_ok, pyIntE_eq_ok, pyAssert_ok_iff,
    pure_eq_ok', exists_const, ok_bind, Except.ok.injEq, Option.some.injEq,
    Prod.mk.injEq] at hrun
  obtain ⟨hlen4, t0, ht0, nn, hnn, hnpos, t1, ht1, nd, hnd, hnd3, t2, ht2, v2, hv2,
    t3, ht3, v3, hv3, ntrip, hnloop, hlen3, u0, hu0, nt, hnt, hntpos, u1, hu1,
    npt, hnpt, hnptor, u2, hu2, tra, htra, htraor, etrip, heloop, ue, hgateE,
    y, hfsec, ffl, hflat, tm, htm, hmeq, hceq, hpeq⟩ := hrun
  constructor
  · intro ntets cl hcount hflag hcl
    rw [getD_of_get? ([] : Chars) hu0, hnt, Option.some.injEq] at hcount
    rw [getD_of_get? ([] : Chars) hu2, htra, Option.some.injEq] at hflag
    subst hflag
    rw [if_pos rfl, pyAssert_ok_iff] at hgateE
    subst hcount
    rw [← hceq] at hcl
    by_cases hne : etrip.2.1 = []
    · rw [if_pos hne] at hcl; exact absurd hcl (by simp)
    · rw [if_neg hne, Option.some.injEq] at hcl
      rw [← hcl]; exact hgateE
  · intro faceLines nfaces pl hff hcount hflag hpl
    subst hff
    simp only [bind_eq_ok, pyGet_eq_ok, pyIntE_eq_ok, pyAssert_ok_iff, pure_eq_ok',
      exists_const, ok_bind, Except.ok.injEq, Option.some.injEq] at hfsec
    obtain ⟨hflen2, fw0, hfw0, nfv, hnfv, hnfpos, fw1, hfw1, fra, hfra, hfraor,
      ftrip, hfloop, uf, hgateF, hy⟩ := hfsec
    rw [getD_of_get? ([] : Chars) hfw0, hnfv, Option.some.injEq] at hcount
    rw [getD_of_get? ([] : Chars) hfw1, hfra, Option.some.injEq] at hflag
    subst hflag
    rw [if_pos rfl, pyAssert_ok_iff] at hgateF
    subst hcount
    rw [show y.2.2 = ftrip.2.1 from by rw [← hy]] at hpeq
    rw [← hpeq] at hpl
    by_cases hne : ftrip.2.1 = []
    · rw [if_pos hne] at hpl; exact absurd hpl (by simp)
    · rw [if_neg hne, Option.some.injEq] at hpl
      rw [← hpl]; exact hgateF

/-- Witness for C7: a one-element, one-face file-set with both attribute
flags on; the collected lists `[99]` and `[5]` have the declared lengths. -/
theorem readTetgen_attr_length_matches_count_witness :
    readTetgen (some [lit "1 3 0 0", lit "0 0 0 0"])
        (some [lit "1 4 1", lit "0 5 5 5 5 99"])
        (some [lit "1 1", lit "0 0 0 0 5"]) none none none
      = .ok (some (⟨[some 0, some 0, some 0], [some 5, some 5, some 5, some 5],
          [some 0, some 0, some 0], [], []⟩, some [99], some [5])) ∧
    (([99] : List ℤ).length : ℤ) = 1 ∧ (([5] : List ℤ).length : ℤ) = 1 := by
  have hrun : readTetgen (some [lit "1 3 0 0", lit "0 0 0 0"])
      (some [lit "1 4 1", lit "0 5 5 5 5 99"])
      (some [lit "1 1", lit "0 0 0 0 5"]) none none none
      = .ok (some (⟨[some 0, some 0, some 0], [some 5, some 5, some 5, some 5],
          [some 0, some 0, some 0], [], []⟩, some [99], some [5])) := by decide
  refine ⟨hrun, ?_, ?_⟩
  · exact (readTetgen_attr_length_matches_count _ _ _ _ _ _ _ _ _ hrun).1
      1 [99] (by decide) (by decide) rfl
  · exact (readTetgen_attr_length_matches_count _ _ _ _ _ _ _ _ _ hrun).2
      _ 1 [5] rfl (by decide) (by decide) rfl

/-! ## Rendered CUBIT files

An abstract CUBIT/ABAQUS input deck: a title line, node records of raw
`id, x, y, z` field tokens, and 4-node element records of integer values,
rendered with comma separators exactly as `readCubit` reads them back. -/

/-- A field of a CUBIT record: nonempty and free of whitespace and commas, so
that `line.replace(',', ' ').split()` recovers the field list. -/
def cubTokWF (t : Chars) : Prop := t ≠ [] ∧ ∀ c ∈ t, isWs c = false ∧ c ≠ ','

instance : DecidablePred cubTokWF := fun t => by unfold cubTokWF; infer_instance

structure CubitFile where
  title : Chars
  nodes : List (Chars × Chars × Chars × Chars)
  eles : List (ℤ × ℤ × ℤ × ℤ × ℤ)
  deriving DecidableEq, Repr

/-- The element-section header line; `readCubit` only looks at its first
comma-split token `*ELEMENT`. -/
def cubEleHdr : Chars := lit "*ELEMENT, TYPE=C3D4, ELSET=EB1"

def cubNodeRec (r : Chars × Chars × Chars × Chars) : Chars :=
  joinSep [','] [r.1, r.2.1, r.2.2.1, r.2.2.2]

def cubEleRec (e : ℤ × ℤ × ℤ × ℤ × ℤ) : Chars :=
  joinSep [','] [intStr e.1, intStr e.2.1, intStr e.2.2.1, intStr e.2.2.2.1,
    intStr e.2.2.2.2]

def cubitFileLines (f : CubitFile) : List Chars :=
  [lit "*HEADING", f.title, lit "*NODE"] ++ f.nodes.map cubNodeRec
    ++ cubEleHdr :: f.eles.map cubEleRec

/-- Well-formedness of a node record: clean fields, an integer id and three
float coordinates. -/
def cubNodeWF (r : Chars × Chars × Chars × Chars) : Prop :=
  cubTokWF r.1 ∧ cubTokWF r.2.1 ∧ cubTokWF r.2.2.1 ∧ cubTokWF r.2.2.2 ∧
    (pyInt? r.1).isSome ∧ (pyFloat? r.2.1).isSome ∧ (pyFloat? r.2.2.1).isSome ∧
    (pyFloat? r.2.2.2).isSome

instance : DecidablePred cubNodeWF := fun r => by unfold cubNodeWF; infer_instance

def CubitFile.WF (f : CubitFile) : Prop := ∀ r ∈ f.nodes, cubNodeWF r

instance : DecidablePred CubitFile.WF := fun f => by unfold CubitFile.WF; infer_instance

/-- The vertex array `readCubit` should build: each parsed coordinate times
`scale`, in record order. -/
def cubVertsOf (scale : ℚ) (f : CubitFile) : List ℚ :=
  f.nodes.flatMap (fun r => [((pyFloat? r.2.1).getD 0) * scale,
    ((pyFloat? r.2.2.1).getD 0) * scale, ((pyFloat? r.2.2.2).getD 0) * scale])

/-- The tetrahedron array `readCubit` should build: every node reference
decremented by exactly 1, the record id dropped. -/
def cubTetsOf (f : CubitFile) : List ℤ :=
  f.eles.flatMap (fun e => [e.2.1 - 1, e.2.2.1 - 1, e.2.2.2.1 - 1, e.2.2.2.2 - 1])

theorem pyReplaceComma_append (a b : Chars) :
    pyReplaceComma (a ++ b) = pyReplaceComma a ++ pyReplaceComma b :=
  List.map_append _ a b

theorem pyReplaceComma_of_no_comma :
    ∀ {t : Chars}, (∀ c ∈ t, c ≠ ',') → pyReplaceComma t = t := by
  intro t
  induction t with
  | nil => intro _; rfl
  | cons c r ih =>
    intro h
    simp only [pyReplaceComma, List.map_cons]
    rw [if_neg (h c (List.mem_cons_self _ _))]
    exact congrArg _ (ih fun x hx => h x (List.mem_cons_of_mem _ hx))

theorem pyReplaceComma_joinSep :
    ∀ (l : List Chars), (∀ t ∈ l, ∀ c ∈ t, c ≠ ',') →
      pyReplaceComma (joinSep [','] l) = joinSep [' '] l := by
  intro l
  induction l with
  | nil => intro _; rfl
  | cons x xs ih =>
    intro h
    cases xs with
    | nil => exact pyReplaceComma_of_no_comma (h x (List.mem_cons_self _ _))
    | cons y ys =>
      simp only [joinSep]
      rw [pyReplaceComma_append, pyReplaceComma_append,
        pyReplaceComma_of_no_comma (h x (List.mem_cons_self _ _)),
        show pyReplaceComma [','] = [' '] from rfl,
        ih fun t ht c hc => h t (List.mem_cons_of_mem _ ht) c hc]

/-- Tokenizing a comma-joined record after `replace(',', ' ')` recovers the
fields. -/
theorem cubRec_tokens {toks : List Chars} (hne : toks ≠ [])
    (hwf : ∀ t ∈ toks, cubTokWF t) :
    pyWsTokens (pyReplaceComma (joinSep [','] toks)) = toks := by
  rw [pyReplaceComma_joinSep toks (fun t ht c hc => ((hwf t ht).2 c hc).2)]
  exact pyWsTokens_render hne
    (fun t ht => ⟨(hwf t ht).1, fun c hc => ((hwf t ht).2 c hc).1⟩)

theorem cubTokWF_intStr (i : ℤ) : cubTokWF (intStr i) := by
  unfold intStr
  by_cases h : i < 0
  · rw [if_pos h]
    refine ⟨by simp, fun c hc => ?_⟩
    rcases List.mem_cons.mp hc with rfl | hc
    · exact ⟨by decide, by decide⟩
    · have hd : c.isDigit = true := by
        have := allDigits_natStr i.natAbs
        simp only [allDigits, List.all_eq_true] at this
        exact this c hc
      exact ⟨not_ws_of_isDigit hd, isDigit_ne hd (by decide)⟩
  · rw [if_neg h]
    refine ⟨natStr_ne_nil _, fun c hc => ?_⟩
    have hd : c.isDigit = true := by
      have := allDigits_natStr i.toNat
      simp only [allDigits, List.all_eq_true] at this
      exact this c hc
    exact ⟨not_ws_of_isDigit hd, isDigit_ne hd (by decide)⟩

theorem flatMap_length_const {α β : Type} (g : α → List β) (k : ℕ)
    (hg : ∀ a, (g a).length = k) :
    ∀ l : List α, (l.flatMap g).length = k * l.length := by
  intro l
  induction l with
  | nil => simp
  | cons a r ih =>
    rw [List.flatMap_cons, List.length_append, hg, ih, List.length_cons]
    ring

theorem rdline_cons (a : Chars) (l : List Chars) : rdline (a :: l) = (a, l) := rfl

/-- One full run of the `readCubit` node loop over rendered records, stopping
at the `*ELEMENT` header line. -/
theorem cubNodeLoop_run (scale : ℚ) (tail : List Chars) :
    ∀ (rs : List (Chars × Chars × Chars × Chars)) (acc : List ℚ) (fuel : ℕ),
      rs.length < fuel → (∀ r ∈ rs, cubNodeWF r) →
      cubNodeLoop scale fuel
          (rdline (rs.map cubNodeRec ++ cubEleHdr :: tail)).2
          (pyWsTokens (pyReplaceComma (rdline (rs.map cubNodeRec ++ cubEleHdr :: tail)).1))
          acc
        = .ok (acc ++ rs.flatMap (fun r => [((pyFloat? r.2.1).getD 0) * scale,
            ((pyFloat? r.2.2.1).getD 0) * scale, ((pyFloat? r.2.2.2).getD 0) * scale]),
            tail) := by
  intro rs
  induction rs with
  | nil =>
    intro acc fuel hfuel _
    match fuel, hfuel with
    | fuel + 1, _ =>
      simp only [List.map_nil, List.nil_append, rdline]
      rw [show pyWsTokens (pyReplaceComma cubEleHdr)
          = [lit "*ELEMENT", lit "TYPE=C3D4", lit "ELSET=EB1"] from rfl]
      simp [cubNodeLoop, pyGet, ok_bind]
  | cons r rs' ih =>
    intro acc fuel hfuel hwf
    obtain ⟨h1, h2, h3, h4, hid, hx, hy, hz⟩ := hwf r (List.mem_cons_self _ _)
    obtain ⟨iv, hiv⟩ := Option.isSome_iff_exists.mp hid
    obtain ⟨xv, hxv⟩ := Option.isSome_iff_exists.mp hx
    obtain ⟨yv, hyv⟩ := Option.isSome_iff_exists.mp hy
    obtain ⟨zv, hzv⟩ := Option.isSome_iff_exists.mp hz
    have hne1 : r.1 ≠ lit "*ELEMENT" := by
      intro he
      rw [he, show pyInt? (lit "*ELEMENT") = none from rfl] at hiv
      exact Option.noConfusion hiv
    match fuel, hfuel with
    | fuel + 1, hfuel =>
      simp only [List.map_cons, List.cons_append, rdline]
      rw [show cubNodeRec r
          = joinSep [','] [r.1, r.2.1, r.2.2.1, r.2.2.2] from rfl]
      rw [cubRec_tokens (by simp) (by
        intro t ht
        simp only [List.mem_cons] at ht
        rcases ht with rfl | rfl | rfl | rfl | hf
        · exact h1
        · exact h2
        · exact h3
        · exact h4
        · simp at hf)]
      simp only [cubNodeLoop, pyGet, List.get?, ok_bind, if_neg hne1]
      rw [pyAssert_pos (by rfl)]
      simp only [ok_bind, pyIntE, hiv, pyFloatQE, hxv, hyv, hzv]
      rw [ih (acc ++ [xv * scale, yv * scale, zv * scale]) fuel
        (by simp only [List.length_cons] at hfuel; omega)
        (fun q hq => hwf q (List.mem_cons_of_mem _ hq))]
      simp [List.flatMap_cons, hxv, hyv, hzv, List.append_assoc]

/-- One full run of the `readCubit` element loop over rendered records to end
of file. -/
theorem cubTetLoop_run :
    ∀ (es : List (ℤ × ℤ × ℤ × ℤ × ℤ)) (acc : List ℤ),
      cubTetLoop (es.map cubEleRec) acc
        = .ok (acc ++ es.flatMap (fun e =>
            [e.2.1 - 1, e.2.2.1 - 1, e.2.2.2.1 - 1, e.2.2.2.2 - 1])) := by
  intro es
  induction es with
  | nil => intro acc; simp [cubTetLoop]
  | cons e es' ih =>
    intro acc
    simp only [List.map_cons, cubTetLoop]
    rw [show cubEleRec e = joinSep [','] [intStr e.1, intStr e.2.1, intStr e.2.2.1,
      intStr e.2.2.2.1, intStr e.2.2.2.2] from rfl]
    rw [cubRec_tokens (by simp) (by
      intro t ht
      simp only [List.mem_cons] at ht
      rcases ht with rfl | rfl | rfl | rfl | rfl | hf
      · exact cubTokWF_intStr _
      · exact cubTokWF_intStr _
      · exact cubTokWF_intStr _
      · exact cubTokWF_intStr _
      · exact cubTokWF_intStr _
      · simp at hf)]
    rw [pyAssert_pos (by rfl)]
    simp only [ok_bind, pyGet, List.get?, pyIntE_intStr]
    rw [ih (acc ++ [e.2.1 - 1, e.2.2.1 - 1, e.2.2.2.1 - 1, e.2.2.2.2 - 1])]
    simp [List.flatMap_cons, List.append_assoc]

theorem cubFirst_len (rs : List (Chars × Chars × Chars × Chars)) (tail : List Chars) :
    rs.length ≤ (rdline (rs.map cubNodeRec ++ cubEleHdr :: tail)).2.length := by
  cases rs with
  | nil => simp [rdline]
  | cons r rs' => simp [rdline]

/-- **C8**: for every well-formed CUBIT/ABAQUS deck and every scale,
`readCubit` stores each node coordinate multiplied by `scale` and decrements
every element node reference by exactly 1, ignoring both record ids (the
node record id is parsed and discarded; vertices are stored in record
order). -/
theorem readCubit_scales_and_shifts (f : CubitFile) (hwf : f.WF) (scale : ℚ) :
    readCubit (cubitFileLines f) scale = .ok ⟨cubVertsOf scale f, cubTetsOf f⟩ := by
  have hlen3 : ((f.nodes.flatMap (fun r => [((pyFloat? r.2.1).getD 0) * scale,
      ((pyFloat? r.2.2.1).getD 0) * scale, ((pyFloat? r.2.2.2).getD 0) * scale])).length)
      = 3 * f.nodes.length := by
    apply flatMap_length_const
    intro r
    rfl
  have hlen4 : ((f.eles.flatMap (fun e =>
      [e.2.1 - 1, e.2.2.1 - 1, e.2.2.2.1 - 1, e.2.2.2.2 - 1])).length)
      = 4 * f.eles.length := by
    apply flatMap_length_const
    intro e
    rfl
  have h3 : ((f.nodes.flatMap (fun r => [((pyFloat? r.2.1).getD 0) * scale,
      ((pyFloat? r.2.2.1).getD 0) * scale, ((pyFloat? r.2.2.2).getD 0) * scale])).length)
      % 3 = 0 := by rw [hlen3]; omega
  have h4 : ((f.eles.flatMap (fun e =>
      [e.2.1 - 1, e.2.2.1 - 1, e.2.2.2.1 - 1, e.2.2.2.2 - 1])).length) % 4 = 0 := by
    rw [hlen4]; omega
  unfold readCubit cubitFileLines
  simp only [List.cons_append, List.nil_append, rdline_cons]
  rw [cubNodeLoop_run scale (f.eles.map cubEleRec) f.nodes []
    ((rdline (f.nodes.map cubNodeRec ++ cubEleHdr :: f.eles.map cubEleRec)).2.length + 1)
    (by have := cubFirst_len f.nodes (f.eles.map cubEleRec); omega) hwf]
  simp only [ok_bind, List.nil_append]
  rw [pyAssert_pos h3]
  simp only [ok_bind]
  rw [cubTetLoop_run f.eles []]
  simp only [ok_bind, List.nil_append]
  rw [pyAssert_pos h4]
  simp [pyAssert, CubitMesh.nverts, CubitMesh.ntets, ok_bind, pure_eq_ok',
    cubVertsOf, cubTetsOf]

/-- Witness for C8: node record `7, 1, 2, 3` under `scale = 1/1000000` and
element record `9, 5, 5, 5, 5`: every node reference 5 becomes vertex
index 4 even though the node record's id is 7. -/
theorem readCubit_scales_and_shifts_witness :
    CubitFile.WF ⟨lit "generated by cubit", [(lit "7", lit "1", lit "2", lit "3")],
      [(9, 5, 5, 5, 5)]⟩ ∧
    readCubit (cubitFileLines ⟨lit "generated by cubit",
        [(lit "7", lit "1", lit "2", lit "3")], [(9, 5, 5, 5, 5)]⟩) (1 / 1000000)
      = .ok ⟨cubVertsOf (1 / 1000000) ⟨lit "generated by cubit",
          [(lit "7", lit "1", lit "2", lit "3")], [(9, 5, 5, 5, 5)]⟩,
          cubTetsOf ⟨lit "generated by cubit",
          [(lit "7", lit "1", lit "2", lit "3")], [(9, 5, 5, 5, 5)]⟩⟩ ∧
    cubTetsOf ⟨lit "generated by cubit", [(lit "7", lit "1", lit "2", lit "3")],
      [(9, 5, 5, 5, 5)]⟩ = [4, 4, 4, 4] :=
  ⟨by decide, readCubit_scales_and_shifts _ (by decide) _, by decide⟩

/-! ## `saveXML` and `loadXML` (lines 456-868)

Python floats are carried as their `str()` texts: the engine accessors
(`getVertex`, `getTriArea`, ...) return these texts, `saveXML` writes them
verbatim, and the loader's `float()` calls validate the text and keep it
(`pyFloatTE`).  This is the text-level float model: "identical as
floating-point text" is text equality. -/

/-- Modelled from the spec: the per-triangle data of a `steps.geom.Tetmesh`
that `saveXML` queries (`getTri`, `getTriArea`, `getTriNorm`,
`getTriTetNeighb`). -/
structure TriRec where
  nodes : ℤ × ℤ × ℤ
  area : Chars
  norm : Chars × Chars × Chars
  tetns : ℤ × ℤ
  deriving DecidableEq, Repr

/-- Modelled from the spec: the per-tetrahedron data of a `steps.geom.Tetmesh`
that `saveXML` queries (`getTet`, `getTetVol`, `getTetBarycenter`,
`getTetTriNeighb`, `getTetTetNeighb`). -/
structure TetRec where
  nodes : ℤ × ℤ × ℤ × ℤ
  vol : Chars
  baryc : Chars × Chars × Chars
  trins : ℤ × ℤ × ℤ × ℤ
  tetns : ℤ × ℤ × ℤ × ℤ
  deriving DecidableEq, Repr

/-- Modelled from the spec: the `steps.geom.Tetmesh` object handed to
`saveXML`.  A compartment is its id with its volume systems, a patch its id,
surface systems, inner compartment id and optional outer compartment id;
`getTetComp`/`getTriPatch` are carried as one optional owner id per
tetrahedron/triangle. -/
structure Tetmesh where
  verts : List (Chars × Chars × Chars)
  tris : List TriRec
  tets : List TetRec
  comps : List (Chars × List Chars)
  patches : List (Chars × List Chars × Chars × Option Chars)
  tetComp : List (Option Chars)
  triPatch : List (Option Chars)
  deriving DecidableEq, Repr

/-- The inner loop of the membership scan (lines 624-626 / 665-667): the
index of the first compartment/patch whose id equals the owner id. -/
def firstMatchGo (idt : Chars) : List Chars → ℕ → Option ℕ
  | [], _ => none
  | i :: rest, c => if i = idt then some c else firstMatchGo idt rest (c + 1)

/-- The membership scan of `saveXML` (lines 599-606 / 644-651): element `t`
of `range n` is a member of entry `c` when its owner id resolves to entry
`c` first. -/
def memberScan (n : ℕ) (assign : List (Option Chars)) (ids : List Chars)
    (c : ℕ) : List ℕ :=
  (List.range n).filter (fun t =>
    match assign.getD t none with
    | none => false
    | some idt => decide (firstMatchGo idt ids 0 = some c))

/-- The comma-writing quirk of `saveXML` (lines 613-621 etc.): a separating
comma is written before every element that differs from the FIRST element of
the list (`if (t != list[0]): write(',')`), not before every element after
the first. -/
def joinQuirk [DecidableEq α] (render : α → Chars) (l : List α) : Chars :=
  match l with
  | [] => []
  | x0 :: _ => l.flatMap (fun v => if v = x0 then render v else ',' :: render v)

def saveNodesGo : ℕ → List (Chars × Chars × Chars) → List Chars
  | _, [] => []
  | i, v :: rest =>
    (lit "\t\t" ++ (lit "<node idx = \"" ++ (natStr i ++ lit "\">")))
      :: (lit "\t\t\t" ++ (lit "<coords>"
          ++ (joinSep (lit ", ") [v.1, v.2.1, v.2.2] ++ lit "</coords>")))
      :: lit "\t\t</node>"
      :: saveNodesGo (i + 1) rest

def saveTrisGo : ℕ → List TriRec → List Chars
  | _, [] => []
  | i, r :: rest =>
    (lit "\t\t" ++ (lit "<tri idx = \"" ++ (natStr i ++ lit "\">")))
      :: (lit "\t\t\t" ++ (lit "<nodes>" ++ (joinSep (lit ", ")
          [intStr r.nodes.1, intStr r.nodes.2.1, intStr r.nodes.2.2] ++ lit "</nodes>")))
      :: lit "\t\t</tri>"
      :: saveTrisGo (i + 1) rest

def saveTetsGo : ℕ → List TetRec → List Chars
  | _, [] => []
  | i, r :: rest =>
    (lit "\t\t" ++ (lit "<tet idx = \"" ++ (natStr i ++ lit "\">")))
      :: (lit "\t\t\t" ++ (lit "<nodes>" ++ (joinSep (lit ", ")
          [intStr r.nodes.1, intStr r.nodes.2.1, intStr r.nodes.2.2.1,
            intStr r.nodes.2.2.2] ++ lit "</nodes>")))
      :: lit "\t\t</tet>"
      :: saveTetsGo (i + 1) rest

def saveCompsGo (n : ℕ) (assign : List (Option Chars)) (ids : List Chars) :
    ℕ → List (Chars × List Chars) → List Chars
  | _, [] => []
  | c, comp :: rest =>
    (lit "\t\t" ++ (lit "<comp idx = \"" ++ (natStr c ++ lit "\">")))
      :: (lit "\t\t\t" ++ (lit "<id>" ++ (comp.1 ++ lit "</id>")))
      :: (lit "\t\t\t" ++ (lit "<volsys>"
          ++ (joinQuirk (fun s => s) comp.2 ++ lit "</volsys>")))
      :: (lit "\t\t\t" ++ (lit "<tets>"
          ++ (joinQuirk natStr (memberScan n assign ids c) ++ lit "</tets>")))
      :: lit "\t\t</comp>"
      :: saveCompsGo n assign ids (c + 1) rest

def savePatchesGo (n : ℕ) (assign : List (Option Chars)) (ids : List Chars) :
    ℕ → List (Chars × List Chars × Chars × Option Chars) → List Chars
  | _, [] => []
  | p, pa :: rest =>
    (lit "\t\t" ++ (lit "<patch idx = \"" ++ (natStr p ++ lit "\">")))
      :: (lit "\t\t\t" ++ (lit "<id>" ++ (pa.1 ++ lit "</id>")))
      :: (lit "\t\t\t" ++ (lit "<surfsys>"
          ++ (joinQuirk (fun s => s) pa.2.1 ++ lit "</surfsys>")))
      :: (lit "\t\t\t" ++ (lit "<icomp>" ++ (pa.2.2.1 ++ lit "</icomp>")))
      :: (lit "\t\t\t" ++ (lit "<ocomp>"
          ++ ((match pa.2.2.2 with | none => lit "null" | some o => o) ++ lit "</ocomp>")))
      :: (lit "\t\t\t" ++ (lit "<tris>"
          ++ (joinQuirk natStr (memberScan n assign ids p) ++ lit "</tris>")))
      :: lit "\t\t</patch>"
      :: savePatchesGo n assign ids (p + 1) rest

/-- The per-triangle line of the companion `.txt` file (lines 552-557):
six space-separated values with a trailing space. -/
def triTxtLine (r : TriRec) : Chars :=
  joinSep [' '] [r.area, r.norm.1, r.norm.2.1, r.norm.2.2,
    intStr r.tetns.1, intStr r.tetns.2] ++ [' ']

/-- The per-tetrahedron line of the companion `.txt` file (lines 569-577):
twelve space-separated values with a trailing space. -/
def tetTxtLine (r : TetRec) : Chars :=
  joinSep [' '] [r.vol, r.baryc.1, r.baryc.2.1, r.baryc.2.2,
    intStr r.trins.1, intStr r.trins.2.1, intStr r.trins.2.2.1, intStr r.trins.2.2.2,
    intStr r.tetns.1, intStr r.tetns.2.1, intStr r.tetns.2.2.1, intStr r.tetns.2.2.2]
    ++ [' ']

/-- `saveXML(pathname, tetmesh)` (lines 456-675): the lines of the `.xml`
file and of the companion `.txt` file. -/
def saveXML (m : Tetmesh) : List Chars × List Chars :=
  ([lit "<?xml version=\"1.0\" encoding=\"ISO-8859-1\"?>",
    lit "<tetmesh>",
    lit "\t" ++ (lit "<nodes size = \"" ++ (natStr m.verts.length ++ lit "\">"))]
    ++ saveNodesGo 0 m.verts
    ++ lit "\t</nodes>"
    :: (lit "\t" ++ (lit "<triangles size = \"" ++ (natStr m.tris.length ++ lit "\">")))
    :: saveTrisGo 0 m.tris
    ++ lit "\t</triangles>"
    :: (lit "\t" ++ (lit "<tetrahedrons size = \""
        ++ (natStr m.tets.length ++ lit "\">")))
    :: saveTetsGo 0 m.tets
    ++ lit "\t</tetrahedrons>"
    :: (lit "\t" ++ (lit "<compartments size = \""
        ++ (natStr m.comps.length ++ lit "\">")))
    :: saveCompsGo m.tets.length m.tetComp (m.comps.map Prod.fst) 0 m.comps
    ++ lit "\t</compartments>"
    :: (lit "\t" ++ (lit "<patches size = \"" ++ (natStr m.patches.length ++ lit "\">")))
    :: savePatchesGo m.tris.length m.triPatch (m.patches.map Prod.fst) 0 m.patches
    ++ [lit "\t</patches>", lit "</tetmesh>"],
   natStr m.verts.length :: [] :: natStr m.tris.length :: m.tris.map triTxtLine
    ++ [] :: natStr m.tets.length :: m.tets.map tetTxtLine)

/-- The mesh object built by `loadXML` at line 802: the constructor argument
order is nodes, tris, tri areas, tri normals, tri tet-neighbours, tets, tet
volumes, tet barycenters, tet tri-neighbours, tet tet-neighbours (flattened
arrays; floats as texts). -/
structure XmlMesh where
  nodes : List Chars
  tris : List ℤ
  triareas : List Chars
  trinorms : List Chars
  tritetns : List ℤ
  tets : List ℤ
  tetvols : List Chars
  tetbarycs : List Chars
  tettrins : List ℤ
  tettetns : List ℤ
  deriving DecidableEq, Repr

/-- `Tetmesh.getComp(id)` on the loaded mesh: the compartments registered so
far, by id (modelled from the spec, as for `TgMesh.getComp`). -/
def getCompOf (comps : List TmComp) (i : Chars) : Option TmComp :=
  comps.find? (fun c => c.id = i)

/-- Modelled from the spec: the `steps.geom.TmPatch` constructor requires a
valid inner compartment — passing `None` is fatal — while the outer
compartment argument is optional and `None` (the default) is accepted. -/
def mkTmPatch (i : Chars) (ssys : List Chars) (tris : List ℤ)
    (icomp ocomp : Option TmComp) : Except PyErr TmPatch :=
  match icomp with
  | none => .error .typeError
  | some ic => .ok ⟨i, ssys, ic.id, ocomp.map TmComp.id, tris⟩

/-- `int()` over every piece of a split membership string (lines 824-826 /
855-857). -/
def pyIntList : List Chars → Except PyErr (List ℤ)
  | [] => .ok []
  | s :: rest => do
    let v ← pyIntE s
    let vs ← pyIntList rest
    pure (v :: vs)

/-- The node loop of `loadXML` (lines 726-733). -/
def loadNodesGo : ℕ → ℕ → List Chars → List Chars →
    Except PyErr (List Chars × List Chars)
  | 0, _, xf, acc => .ok (acc, xf)
  | k + 1, i, xf, acc => do
    let (idxline, xf) := rdline xf
    let v ← pyIntE (sliceM 13 2 (pyStrip idxline))
    pyAssert (v = (i : ℤ))
    let (coordline, xf) := rdline xf
    let coordtemp := pyStrip coordline
    pyAssert (takeN 8 coordtemp = lit "<coords>" ∧ lastN 9 coordtemp = lit "</coords>")
    let toks := pySplitSep ',' [' '] (sliceM 8 9 coordtemp)
    let x ← pyFloatTE (← pyGet toks 0)
    let y ← pyFloatTE (← pyGet toks 1)
    let z ← pyFloatTE (← pyGet toks 2)
    let (closeline, xf) := rdline xf
    pyAssert (pyStrip closeline = lit "</node>")
    loadNodesGo k (i + 1) xf (acc ++ [x, y, z])

/-- The triangle loop of `loadXML` (lines 753-765). -/
def loadTrisGo : ℕ → ℕ → List Chars → Option (List Chars) →
    List ℤ → List Chars → List Chars → List ℤ →
    Except PyErr ((List ℤ × List Chars × List Chars × List ℤ)
      × List Chars × Option (List Chars))
  | 0, _, xf, tf, tris, areas, norms, tetns => .ok ((tris, areas, norms, tetns), xf, tf)
  | k + 1, i, xf, tf, tris, areas, norms, tetns => do
    let (idxline, xf) := rdline xf
    let v ← pyIntE (sliceM 12 2 (pyStrip idxline))
    pyAssert (v = (i : ℤ))
    let (nodeline, xf) := rdline xf
    let nodetemp := pyStrip nodeline
    pyAssert (takeN 7 nodetemp = lit "<nodes>" ∧ lastN 8 nodetemp = lit "</nodes>")
    let toks := pySplitSep ',' [' '] (sliceM 7 8 nodetemp)
    let a ← pyIntE (← pyGet toks 0)
    let b ← pyIntE (← pyGet toks 1)
    let c ← pyIntE (← pyGet toks 2)
    let (closeline, xf) := rdline xf
    pyAssert (pyStrip closeline = lit "</tri>")
    match tf with
    | none => loadTrisGo k (i + 1) xf none (tris ++ [a, b, c]) areas norms tetns
    | some tcur => do
      let (tline, tcur) := rdline tcur
      let ltoks := pySplitSep ' ' [] (pyRstrip tline)
      pyAssert (ltoks.length = 6)
      let ar ← pyFloatTE (← pyGet ltoks 0)
      let n0 ← pyFloatTE (← pyGet ltoks 1)
      let n1 ← pyFloatTE (← pyGet ltoks 2)
      let n2 ← pyFloatTE (← pyGet ltoks 3)
      let t0 ← pyIntE (← pyGet ltoks 4)
      let t1 ← pyIntE (← pyGet ltoks 5)
      loadTrisGo k (i + 1) xf (some tcur) (tris ++ [a, b, c]) (areas ++ [ar])
        (norms ++ [n0, n1, n2]) (tetns ++ [t0, t1])

/-- The tetrahedron loop of `loadXML` (lines 784-798). -/
def loadTetsGo : ℕ → ℕ → List Chars → Option (List Chars) →
    List ℤ → List Chars → List Chars → List ℤ → List ℤ →
    Except PyErr ((List ℤ × List Chars × List Chars × List ℤ × List ℤ)
      × List Chars × Option (List Chars))
  | 0, _, xf, tf, tets, vols, barycs, trins, tetns =>
    .ok ((tets, vols, barycs, trins, tetns), xf, tf)
  | k + 1, i, xf, tf, tets, vols, barycs, trins, tetns => do
    let (idxline, xf) := rdline xf
    let v ← pyIntE (sliceM 12 2 (pyStrip idxline))
    pyAssert (v = (i : ℤ))
    let (nodeline, xf) := rdline xf
    let nodetemp := pyStrip nodeline
    pyAssert (takeN 7 nodetemp = lit "<nodes>" ∧ lastN 8 nodetemp = lit "</nodes>")
    let toks := pySplitSep ',' [' '] (sliceM 7 8 nodetemp)
    let a ← pyIntE (← pyGet toks 0)
    let b ← pyIntE (← pyGet toks 1)
    let c ← pyIntE (← pyGet toks 2)
    let d ← pyIntE (← pyGet toks 3)
    let (closeline, xf) := rdline xf
    pyAssert (pyStrip closeline = lit "</tet>")
    match tf with
    | none => loadTetsGo k (i + 1) xf none (tets ++ [a, b, c, d]) vols barycs trins tetns
    | some tcur => do
      let (tline, tcur) := rdline tcur
      let ltoks := pySplitSep ' ' [] (pyRstrip tline)
      pyAssert (ltoks.length = 12)
      let vol ← pyFloatTE (← pyGet ltoks 0)
      let b0 ← pyFloatTE (← pyGet ltoks 1)
      let b1 ← pyFloatTE (← pyGet ltoks 2)
      let b2 ← pyFloatTE (← pyGet ltoks 3)
      let r0 ← pyIntE (← pyGet ltoks 4)
      let r1 ← pyIntE (← pyGet ltoks 5)
      let r2 ← pyIntE (← pyGet ltoks 6)
      let r3 ← pyIntE (← pyGet ltoks 7)
      let s0 ← pyIntE (← pyGet ltoks 8)
      let s1 ← pyIntE (← pyGet ltoks 9)
      let s2 ← pyIntE (← pyGet ltoks 10)
      let s3 ← pyIntE (← pyGet ltoks 11)
      loadTetsGo k (i + 1) xf (some tcur) (tets ++ [a, b, c, d]) (vols ++ [vol])
        (barycs ++ [b0, b1, b2]) (trins ++ [r0, r1, r2, r3]) (tetns ++ [s0, s1, s2, s3])

/-- The compartment loop of `loadXML` (lines 811-830). -/
def loadCompsGo : ℕ → ℕ → List Chars → List TmComp →
    Except PyErr (List TmComp × List Chars)
  | 0, _, xf, acc => .ok (acc, xf)
  | k + 1, i, xf, acc => do
    let (idxline, xf) := rdline xf
    let v ← pyIntE (sliceM 13 2 (pyStrip idxline))
    pyAssert (v = (i : ℤ))
    let (idline, xf) := rdline xf
    let idtemp0 := pyStrip idline
    pyAssert (takeN 4 idtemp0 = lit "<id>" ∧ lastN 5 idtemp0 = lit "</id>")
    let idtemp := sliceM 4 5 idtemp0
    let (vline, xf) := rdline xf
    let vs0 := pyStrip vline
    pyAssert (takeN 8 vs0 = lit "<volsys>" ∧ lastN 9 vs0 = lit "</volsys>")
    let volsystemp0 := pySplitSep ',' [] (sliceM 8 9 vs0)
    let volsystemp := if volsystemp0.getD 0 [] = [] then [] else volsystemp0
    let (tline, xf) := rdline xf
    let ts0 := pyStrip tline
    pyAssert (takeN 6 ts0 = lit "<tets>" ∧ lastN 7 ts0 = lit "</tets>")
    let ctets ← pyIntList (pySplitSep ',' [] (sliceM 6 7 ts0))
    let (closeline, xf) := rdline xf
    pyAssert (pyStrip closeline = lit "</comp>")
    loadCompsGo k (i + 1) xf (acc ++ [⟨idtemp, volsystemp, ctets⟩])

/-- The patch loop of `loadXML` (lines 836-862). -/
def loadPatchesGo (comps : List TmComp) : ℕ → ℕ → List Chars → List TmPatch →
    Except PyErr (List TmPatch × List Chars)
  | 0, _, xf, acc => .ok (acc, xf)
  | k + 1, i, xf, acc => do
    let (idxline, xf) := rdline xf
    let v ← pyIntE (sliceM 14 2 (pyStrip idxline))
    pyAssert (v = (i : ℤ))
    let (idline, xf) := rdline xf
    let idtemp0 := pyStrip idline
    pyAssert (takeN 4 idtemp0 = lit "<id>" ∧ lastN 5 idtemp0 = lit "</id>")
    let idtemp := sliceM 4 5 idtemp0
    let (sline, xf) := rdline xf
    let ss0 := pyStrip sline
    pyAssert (takeN 9 ss0 = lit "<surfsys>" ∧ lastN 10 ss0 = lit "</surfsys>")
    let surfsystemp0 := pySplitSep ',' [] (sliceM 9 10 ss0)
    let surfsystemp := if surfsystemp0.getD 0 [] = [] then [] else surfsystemp0
    let (icline, xf) := rdline xf
    let ic0 := pyStrip icline
    pyAssert (takeN 7 ic0 = lit "<icomp>" ∧ lastN 8 ic0 = lit "</icomp>")
    let icomptemp := sliceM 7 8 ic0
    let (ocline, xf) := rdline xf
    let oc0 := pyStrip ocline
    pyAssert (takeN 7 oc0 = lit "<ocomp>" ∧ lastN 8 oc0 = lit "</ocomp>")
    let ocomptemp := sliceM 7 8 oc0
    let (trline, xf) := rdline xf
    let tr0 := pyStrip trline
    pyAssert (takeN 6 tr0 = lit "<tris>" ∧ lastN 7 tr0 = lit "</tris>")
    let ptris ← pyIntList (pySplitSep ',' [] (sliceM 6 7 tr0))
    let p_out ← if ocomptemp ≠ lit "null" then
        mkTmPatch idtemp surfsystemp ptris (getCompOf comps icomptemp)
          (getCompOf comps ocomptemp)
      else
        mkTmPatch idtemp surfsystemp ptris (getCompOf comps icomptemp) none
    let (closeline, xf) := rdline xf
    pyAssert (pyStrip closeline = lit "</patch>")
    loadPatchesGo comps k (i + 1) xf (acc ++ [p_out])

/-- `loadXML(pathname)` (lines 679-868).  The `.xml` file is given as its
lines; the optional `.txt` companion as `none` when the file does not exist
(`havetxt = False`).  A first line that does not r-strip to `<tetmesh>`
returns `None`; numpy arrays are written slot by slot in loop order and are
modelled by appending.  When the `.txt` file is absent the derived arrays
are never assigned, and their use in the constructor call at line 802
raises `NameError`. -/
def loadXML (xml : List Chars) (txt : Option (List Chars)) :
    Except PyErr (Option (XmlMesh × List TmComp × List TmPatch)) := do
  let (_, xf) := rdline xml
  let (l2, xf) := rdline xf
  if pyRstrip l2 ≠ lit "<tetmesh>" then return none
  else do
    -- nodes header (lines 719-723)
    let (nodeinfoline, xf) := rdline xf
    let nodeinfo := pyStrip nodeinfoline
    pyAssert (17 < nodeinfo.length)
    pyAssert (lastN 2 nodeinfo = lit "\">")
    let nnodes ← pyIntE (sliceM 15 2 nodeinfo)
    let tf ← match txt with
      | none => pure (none : Option (List Chars))
      | some tcur => do
        let (tl, tcur) := rdline tcur
        let v ← pyIntE tl
        pyAssert (nnodes = v)
        pure (some tcur)
    let (nodes_out, xf) ← loadNodesGo nnodes.toNat 0 xf []
    let (closeline, xf) := rdline xf
    pyAssert (pyStrip closeline = lit "</nodes>")
    -- triangles header (lines 738-744)
    let (triinfoline, xf) := rdline xf
    let triinfo := pyStrip triinfoline
    pyAssert (21 < triinfo.length)
    pyAssert (lastN 2 triinfo = lit "\">")
    let ntris ← pyIntE (sliceM 19 2 triinfo)
    let tf ← match tf with
      | none => pure (none : Option (List Chars))
      | some tcur => do
        let (_, tcur) := rdline tcur
        let (tl, tcur) := rdline tcur
        let v ← pyIntE tl
        pyAssert (ntris = v)
        pure (some tcur)
    let ((tris_out, triareas_out, trinorms_out, tritetns_out), xf, tf) ←
      loadTrisGo ntris.toNat 0 xf tf [] [] [] []
    let (closeline, xf) := rdline xf
    pyAssert (pyStrip closeline = lit "</triangles>")
    -- tetrahedrons header (lines 769-776)
    let (tetinfoline, xf) := rdline xf
    let tetinfo := pyStrip tetinfoline
    pyAssert (24 < tetinfo.length)
    pyAssert (lastN 2 tetinfo = lit "\">")
    let ntets ← pyIntE (sliceM 22 2 tetinfo)
    let tf ← match tf with
      | none => pure (none : Option (List Chars))
      | some tcur => do
        let (_, tcur) := rdline tcur
        let (tl, tcur) := rdline tcur
        let v ← pyIntE tl
        pyAssert (ntets = v)
        pure (some tcur)
    let ((tets_out, tetvols_out, tetbarycs_out, tettrins_out, tettetns_out), xf, _) ←
      loadTetsGo ntets.toNat 0 xf tf [] [] [] [] []
    let (closeline, xf) := rdline xf
    pyAssert (pyStrip closeline = lit "</tetrahedrons>")
    -- line 802: with no .txt file the derived arrays were never assigned
    let mesh ← (match txt with
      | none => .error .nameError
      | some _ => pure (XmlMesh.mk nodes_out tris_out triareas_out trinorms_out
          tritetns_out tets_out tetvols_out tetbarycs_out tettrins_out tettetns_out)
      : Except PyErr XmlMesh)
    -- compartments (lines 805-831)
    let (compinfoline, xf) := rdline xf
    let compinfo := pyStrip compinfoline
    pyAssert (24 < compinfo.length)
    pyAssert (lastN 2 compinfo = lit "\">")
    let ncomps ← pyIntE (sliceM 22 2 compinfo)
    let (comps_out, xf) ← loadCompsGo ncomps.toNat 0 xf []
    let (closeline, xf) := rdline xf
    pyAssert (pyStrip closeline = lit "</compartments>")
    -- patches (lines 834-863)
    let (patchinfoline, xf) := rdline xf
    let patchinfo := pyStrip patchinfoline
    pyAssert (19 < patchinfo.length)
    pyAssert (lastN 2 patchinfo = lit "\">")
    let npatches ← pyIntE (sliceM 17 2 patchinfo)
    let (patches_out, xf) ← loadPatchesGo comps_out npatches.toNat 0 xf []
    let (closeline, _) := rdline xf
    pyAssert (pyStrip closeline = lit "</patches>")
    return some (mesh, comps_out, patches_out)

/-! ### Well-formedness for `saveXML` round trips -/

/-- A float text as written by the engine: nonempty, free of whitespace and
commas, and accepted by `float()`. -/
def floatTok (t : Chars) : Prop :=
  t ≠ [] ∧ (∀ c ∈ t, isWs c = false ∧ c ≠ ',') ∧ (pyFloat? t).isSome

instance : DecidablePred floatTok := fun t => by unfold floatTok; infer_instance

def vertWF (v : Chars × Chars × Chars) : Prop :=
  floatTok v.1 ∧ floatTok v.2.1 ∧ floatTok v.2.2

instance : DecidablePred vertWF := fun v => by unfold vertWF; infer_instance

def triWF (r : TriRec) : Prop :=
  floatTok r.area ∧ floatTok r.norm.1 ∧ floatTok r.norm.2.1 ∧ floatTok r.norm.2.2

instance : DecidablePred triWF := fun r => by unfold triWF; infer_instance

def tetWF (r : TetRec) : Prop :=
  floatTok r.vol ∧ floatTok r.baryc.1 ∧ floatTok r.baryc.2.1 ∧ floatTok r.baryc.2.2

instance : DecidablePred tetWF := fun r => by unfold tetWF; infer_instance

/-- Core well-formedness: every float text of the mesh is a clean token. -/
def Tetmesh.CoreWF (m : Tetmesh) : Prop :=
  (∀ v ∈ m.verts, vertWF v) ∧ (∀ r ∈ m.tris, triWF r) ∧ (∀ r ∈ m.tets, tetWF r)

instance : DecidablePred Tetmesh.CoreWF := fun m => by unfold Tetmesh.CoreWF; infer_instance

/-- Per-compartment conditions for a clean reload, entry by entry from save
index `c`: a nonempty membership scan and volume-system strings that survive
the comma join. -/
def compsLoadWF (n : ℕ) (assign : List (Option Chars)) (ids : List Chars) :
    ℕ → List (Chars × List Chars) → Prop
  | _, [] => True
  | c, comp :: rest =>
    (memberScan n assign ids c ≠ [] ∧ comp.2.Nodup
        ∧ (∀ s ∈ comp.2, s ≠ [] ∧ ∀ ch ∈ s, ch ≠ ','))
      ∧ compsLoadWF n assign ids (c + 1) rest

instance compsLoadWFDec (n : ℕ) (assign : List (Option Chars)) (ids : List Chars) :
    ∀ (c : ℕ) (cs : List (Chars × List Chars)), Decidable (compsLoadWF n assign ids c cs)
  | _, [] => .isTrue trivial
  | c, comp :: rest => by
    unfold compsLoadWF
    have := compsLoadWFDec n assign ids (c + 1) rest
    infer_instance

/-- Per-patch conditions for a clean reload: a nonempty membership scan,
clean surface-system strings, a resolvable inner compartment id, and an
outer compartment id that is absent or resolvable and distinct from the
sentinel `null`. -/
def patchesLoadWF (n : ℕ) (assign : List (Option Chars)) (ids : List Chars)
    (comps : List TmComp) : ℕ → List (Chars × List Chars × Chars × Option Chars) → Prop
  | _, [] => True
  | p, pa :: rest =>
    (memberScan n assign ids p ≠ [] ∧ pa.2.1.Nodup
        ∧ (∀ s ∈ pa.2.1, s ≠ [] ∧ ∀ ch ∈ s, ch ≠ ',')
        ∧ pa.2.2.1 ≠ lit "null" ∧ (getCompOf comps pa.2.2.1).isSome
        ∧ (∀ o, pa.2.2.2 = some o → o ≠ lit "null" ∧ (getCompOf comps o).isSome))
      ∧ patchesLoadWF n assign ids comps (p + 1) rest

instance patchesLoadWFDec (n : ℕ) (assign : List (Option Chars)) (ids : List Chars)
    (comps : List TmComp) :
    ∀ (p : ℕ) (ps : List (Chars × List Chars × Chars × Option Chars)),
      Decidable (patchesLoadWF n assign ids comps p ps)
  | _, [] => .isTrue trivial
  | p, pa :: rest => by
    unfold patchesLoadWF
    have := patchesLoadWFDec n assign ids comps (p + 1) rest
    infer_instance

/-! ### Expected load results -/

/-- The mesh `loadXML` reconstructs from `saveXML` output: identical
coordinate and derived-geometry texts, identical index tuples. -/
def xmlMeshOf (m : Tetmesh) : XmlMesh :=
  ⟨m.verts.flatMap (fun v => [v.1, v.2.1, v.2.2]),
   m.tris.flatMap (fun r => [r.nodes.1, r.nodes.2.1, r.nodes.2.2]),
   m.tris.map TriRec.area,
   m.tris.flatMap (fun r => [r.norm.1, r.norm.2.1, r.norm.2.2]),
   m.tris.flatMap (fun r => [r.tetns.1, r.tetns.2]),
   m.tets.flatMap (fun r => [r.nodes.1, r.nodes.2.1, r.nodes.2.2.1, r.nodes.2.2.2]),
   m.tets.map TetRec.vol,
   m.tets.flatMap (fun r => [r.baryc.1, r.baryc.2.1, r.baryc.2.2]),
   m.tets.flatMap (fun r => [r.trins.1, r.trins.2.1, r.trins.2.2.1, r.trins.2.2.2]),
   m.tets.flatMap (fun r => [r.tetns.1, r.tetns.2.1, r.tetns.2.2.1, r.tetns.2.2.2])⟩

/-- The compartments `loadXML` reconstructs: each id and volume-system list
with the saved membership scan. -/
def compsOutGo (n : ℕ) (assign : List (Option Chars)) (ids : List Chars) :
    ℕ → List (Chars × List Chars) → List TmComp
  | _, [] => []
  | c, comp :: rest =>
    ⟨comp.1, comp.2, (memberScan n assign ids c).map Int.ofNat⟩
      :: compsOutGo n assign ids (c + 1) rest

/-- The patches `loadXML` reconstructs. -/
def patchesOutGo (n : ℕ) (assign : List (Option Chars)) (ids : List Chars) :
    ℕ → List (Chars × List Chars × Chars × Option Chars) → List TmPatch
  | _, [] => []
  | p, pa :: rest =>
    ⟨pa.1, pa.2.1, pa.2.2.1, pa.2.2.2,
      (memberScan n assign ids p).map Int.ofNat⟩
      :: patchesOutGo n assign ids (p + 1) rest

/-! ### Supporting lemmas -/

theorem tagLineParts {a m b : Chars} {la lb : ℕ}
    (hla : a.length = la) (hlb : b.length = lb) :
    sliceM la lb (a ++ (m ++ b)) = m
    ∧ takeN la (a ++ (m ++ b)) = a
    ∧ lastN lb (a ++ (m ++ b)) = b := by
  refine ⟨sliceM_wrap m hla hlb, takeN_wrap _ hla, ?_⟩
  rw [← List.append_assoc]
  exact lastN_wrap _ hlb

theorem pyFloatTE_wf {t : Chars} (h : floatTok t) : pyFloatTE t = .ok t := by
  obtain ⟨hne, hcs, hsome⟩ := h
  obtain ⟨q, hq⟩ := Option.isSome_iff_exists.mp hsome
  simp [pyFloatTE, hq, pyStrip_noWs (fun c hc => (hcs c hc).1)]

theorem joinSep_ends_nonws {sep : Chars} :
    ∀ {toks : List Chars}, toks ≠ [] →
      (∀ t ∈ toks, t ≠ [] ∧ ∀ c ∈ t, isWs c = false) →
      ∃ l c, joinSep sep toks = l ++ [c] ∧ isWs c = false := by
  intro toks
  induction toks with
  | nil => intro h; exact absurd rfl h
  | cons x xs ih =>
    intro _ hwf
    cases xs with
    | nil =>
      obtain ⟨hxne, hxc⟩ := hwf x (List.mem_cons_self _ _)
      rcases List.eq_nil_or_concat x with rfl | ⟨l, c, rfl⟩
      · exact absurd rfl hxne
      · exact ⟨l, c, by simp [joinSep, List.concat_eq_append],
          hxc c (by simp [List.concat_eq_append])⟩
    | cons y ys =>
      obtain ⟨l, c, hj, hc⟩ := ih (by simp)
        (fun t ht => hwf t (List.mem_cons_of_mem _ ht))
      refine ⟨x ++ sep ++ l, c, ?_, hc⟩
      show x ++ (sep ++ joinSep sep (y :: ys)) = x ++ sep ++ l ++ [c]
      rw [hj]
      simp [List.append_assoc]

theorem pyRstrip_snoc_ws {A : Chars} (hA : ∃ l c, A = l ++ [c] ∧ isWs c = false)
    {w : Char} (hw : isWs w = true) : pyRstrip (A ++ [w]) = A := by
  obtain ⟨l, c, rfl, hc⟩ := hA
  unfold pyRstrip
  rw [List.rdropWhile_concat_pos _ _ _ (by simp [hw])]
  exact pyRstrip_concat_neg hc

theorem cons_comma_joinSep :
    ∀ (ts : List Chars) (x : Chars),
      x ++ ts.flatMap (fun s => ',' :: s) = joinSep [','] (x :: ts) := by
  intro ts
  induction ts with
  | nil => intro x; simp [joinSep]
  | cons t ts ih =>
    intro x
    show x ++ (',' :: t ++ ts.flatMap (fun s => ',' :: s))
      = x ++ ([','] ++ joinSep [','] (t :: ts))
    rw [← ih t]
    simp

theorem flatMap_comma_map (render : α → Chars) :
    ∀ (rs : List α), rs.flatMap (fun v => ',' :: render v)
      = (rs.map render).flatMap (fun s => ',' :: s) := by
  intro rs
  induction rs with
  | nil => rfl
  | cons a as iha => simp only [List.flatMap_cons, List.map_cons, iha]

theorem joinQuirk_eq_joinSep [DecidableEq α] (render : α → Chars) :
    ∀ (l : List α), l.Nodup → joinQuirk render l = joinSep [','] (l.map render) := by
  intro l hnd
  match l, hnd with
  | [], _ => rfl
  | x0 :: rest, hnd =>
    have hx0 : x0 ∉ rest := (List.nodup_cons.mp hnd).1
    show (x0 :: rest).flatMap (fun v => if v = x0 then render v else ',' :: render v)
      = joinSep [','] (render x0 :: rest.map render)
    rw [List.flatMap_cons, if_pos rfl]
    have hrest : ∀ (rs : List α), (∀ v ∈ rs, v ≠ x0) →
        rs.flatMap (fun v => if v = x0 then render v else ',' :: render v)
          = rs.flatMap (fun v => ',' :: render v) := by
      intro rs
      induction rs with
      | nil => intro _; rfl
      | cons y ys ihy =>
        intro hy
        rw [List.flatMap_cons, List.flatMap_cons, if_neg (hy y (List.mem_cons_self _ _)),
          ihy (fun v hv => hy v (List.mem_cons_of_mem _ hv))]
    rw [hrest rest (fun v hv he => hx0 (he ▸ hv))]
    rw [flatMap_comma_map render rest]
    exact cons_comma_joinSep _ _

theorem pySplitSep_joinQuirk [DecidableEq α] (render : α → Chars)
    (l : List α) (hne : l ≠ []) (hnd : l.Nodup)
    (hc : ∀ v ∈ l, ',' ∉ render v) :
    pySplitSep ',' [] (joinQuirk render l) = l.map render := by
  rw [joinQuirk_eq_joinSep render l hnd]
  refine pySplitSep_joinSep (l.map render) (by simpa using hne) ?_
  intro p hp
  obtain ⟨v, hv, rfl⟩ := List.mem_map.mp hp
  exact hc v hv

theorem pyIntList_natStr :
    ∀ (l : List ℕ), pyIntList (l.map natStr) = .ok (l.map Int.ofNat) := by
  intro l
  induction l with
  | nil => rfl
  | cons n rest ih =>
    rw [List.map_cons, List.map_cons]
    show (do
      let v ← pyIntE (natStr n)
      let vs ← pyIntList (rest.map natStr)
      pure (v :: vs)) = _
    rw [pyIntE_natStr]
    simp [ok_bind, ih, pure_eq_ok']

theorem memberScan_nodup (n : ℕ) (assign : List (Option Chars)) (ids : List Chars)
    (c : ℕ) : (memberScan n assign ids c).Nodup :=
  (List.nodup_range n).filter _

theorem natStr_no_comma (n : ℕ) : ',' ∉ natStr n := by
  intro hc
  have hall := allDigits_natStr n
  simp only [allDigits, List.all_eq_true] at hall
  have := hall ',' hc
  simp at this

/-- Loading a saved membership list: split on commas, then `int()` each
piece. -/
theorem loadMembers (l : List ℕ) (hne : l ≠ []) (hnd : l.Nodup) :
    pyIntList (pySplitSep ',' [] (joinQuirk natStr l))
      = .ok (l.map Int.ofNat) := by
  rw [pySplitSep_joinQuirk natStr l hne hnd (fun v _ => natStr_no_comma v)]
  exact pyIntList_natStr l

/-- Loading a saved system-string list (volsys/surfsys): the empty list and
the `['']` artefact of splitting an empty string collapse back to `[]`. -/
theorem loadSys (strs : List Chars) (hnd : strs.Nodup)
    (hwf : ∀ s ∈ strs, s ≠ [] ∧ ∀ ch ∈ s, ch ≠ ',') :
    (if (pySplitSep ',' [] (joinQuirk (fun s => s) strs)).getD 0 [] = [] then []
      else pySplitSep ',' [] (joinQuirk (fun s => s) strs)) = strs := by
  cases strs with
  | nil => rfl
  | cons s0 rest =>
    have hsp : pySplitSep ',' [] (joinQuirk (fun s => s) (s0 :: rest))
        = s0 :: rest := by
      have := pySplitSep_joinQuirk (fun s => s) (s0 :: rest) (by simp) hnd
        (fun v hv hc => (hwf v hv).2 ',' hc rfl)
      simpa using this
    rw [hsp]
    have hne0 : ¬ ((s0 :: rest).getD 0 [] = []) := by
      simpa [show (s0 :: rest).getD 0 [] = s0 from rfl]
        using (hwf s0 (List.mem_cons_self _ _)).1
    rw [if_neg hne0]

def headNonWs : Chars → Prop
  | [] => False
  | c :: _ => isWs c = false

instance : DecidablePred headNonWs := fun s => by
  cases s <;> unfold headNonWs <;> infer_instance

def lastNonWs (s : Chars) : Prop :=
  match s.getLast? with
  | none => False
  | some c => isWs c = false

instance : DecidablePred lastNonWs := fun s => by
  unfold lastNonWs
  cases s.getLast? <;> infer_instance

/-- Strip of a tag line `tabs ++ (openTag ++ (mid ++ closeTag))`. -/
theorem stripTag (t a b : Chars) {m : Chars} (ht : t.all isWs = true)
    (ha : headNonWs a) (hb : lastNonWs b) :
    pyStrip (t ++ (a ++ (m ++ b))) = a ++ (m ++ b) := by
  refine pyStrip_wrap (fun c hc => List.all_eq_true.mp ht c hc) ?_ ?_
  · cases a with
    | nil => exact absurd ha (by simp [headNonWs])
    | cons c r => exact ⟨c, r, rfl, ha⟩
  · rcases List.eq_nil_or_concat b with rfl | ⟨l, c, rfl⟩
    · exact absurd hb (by simp [lastNonWs])
    · refine ⟨l, c, by simp [List.concat_eq_append], ?_⟩
      unfold lastNonWs at hb
      rw [List.concat_eq_append, List.getLast?_concat] at hb
      exact hb

/-- Slices of a stripped tag line `openTag ++ (mid ++ closeTag)`. -/
theorem tagParts (a b : Chars) (la lb : ℕ) {m : Chars}
    (hla : a.length = la) (hlb : b.length = lb) :
    sliceM la lb (a ++ (m ++ b)) = m
    ∧ takeN la (a ++ (m ++ b)) = a
    ∧ lastN lb (a ++ (m ++ b)) = b := by
  refine ⟨sliceM_wrap m hla hlb, takeN_wrap _ hla, ?_⟩
  rw [← List.append_assoc]
  exact lastN_wrap _ hlb

/-- One full run of the `loadXML` node loop over `saveXML` output. -/
theorem loadNodesGo_run (xtail : List Chars) :
    ∀ (vs : List (Chars × Chars × Chars)) (i : ℕ) (acc : List Chars),
      (∀ v ∈ vs, vertWF v) →
      loadNodesGo vs.length i (saveNodesGo i vs ++ xtail) acc
        = .ok (acc ++ vs.flatMap (fun v => [v.1, v.2.1, v.2.2]), xtail) := by
  intro vs
  induction vs with
  | nil => intro i acc _; simp [saveNodesGo, loadNodesGo]
  | cons v rest ih =>
    intro i acc hwf
    obtain ⟨hx, hy, hz⟩ := hwf v (List.mem_cons_self _ _)
    have hsplit : pySplitSep ',' [' '] (joinSep (lit ", ") [v.1, v.2.1, v.2.2])
        = [v.1, v.2.1, v.2.2] := by
      rw [show joinSep (lit ", ") [v.1, v.2.1, v.2.2]
          = joinSep (',' :: [' ']) [v.1, v.2.1, v.2.2] from rfl]
      refine pySplitSep_joinSep _ (by simp) ?_
      intro p hp hcm
      simp only [List.mem_cons] at hp
      rcases hp with rfl | rfl | rfl | hf
      · exact (hx.2.1 ',' hcm).2 rfl
      · exact (hy.2.1 ',' hcm).2 rfl
      · exact (hz.2.1 ',' hcm).2 rfl
      · simp at hf
    simp only [List.length_cons, saveNodesGo, List.cons_append, loadNodesGo, rdline_cons,
      stripTag (lit "\t\t") (lit "<node idx = \"") (lit "\">")
        (by decide) (by decide) (by decide),
      stripTag (lit "\t\t\t") (lit "<coords>") (lit "</coords>")
        (by decide) (by decide) (by decide),
      (tagParts (lit "<node idx = \"") (lit "\">") 13 2 rfl rfl).1,
      (tagParts (lit "<coords>") (lit "</coords>") 8 9 rfl rfl).1,
      (tagParts (lit "<coords>") (lit "</coords>") 8 9 rfl rfl).2.1,
      (tagParts (lit "<coords>") (lit "</coords>") 8 9 rfl rfl).2.2,
      pyIntE_natStr, hsplit, pyGet, List.get?,
      pyFloatTE_wf hx, pyFloatTE_wf hy, pyFloatTE_wf hz,
      ok_bind, and_self, eq_self_iff_true]
    rw [ih (i + 1) (acc ++ [v.1, v.2.1, v.2.2])
      (fun q hq => hwf q (List.mem_cons_of_mem _ hq))]
    rw [pyAssert_pos
      (show pyStrip (lit "\t\t</node>") = lit "</node>" from by decide)]
    simp [List.flatMap_cons, List.append_assoc, ok_bind, pyAssert_pos trivial]

theorem intStr_no_comma (i : ℤ) : ',' ∉ intStr i := by
  intro hc
  unfold intStr at hc
  by_cases h : i < 0
  · rw [if_pos h] at hc
    rcases List.mem_cons.mp hc with he | hc
    · exact absurd he (by decide)
    · exact natStr_no_comma _ hc
  · rw [if_neg h] at hc
    exact natStr_no_comma _ hc

/-- Splitting a saved `.txt` record line (space-joined tokens with a trailing
space) after `rstrip` recovers the tokens. -/
theorem spaceTokens_split (toks : List Chars) (hne : toks ≠ [])
    (hwf : ∀ t ∈ toks, t ≠ [] ∧ ∀ c ∈ t, isWs c = false) :
    pySplitSep ' ' [] (pyRstrip (joinSep [' '] toks ++ [' '])) = toks := by
  rw [pyRstrip_snoc_ws (joinSep_ends_nonws hne hwf) (by decide)]
  refine pySplitSep_joinSep toks hne ?_
  intro p hp hsp
  have h1 := (hwf p hp).2 ' ' hsp
  have h2 : isWs ' ' = true := by decide
  rw [h1] at h2
  cases h2

theorem tokWF_pair_intStr (i : ℤ) :
    intStr i ≠ [] ∧ ∀ c ∈ intStr i, isWs c = false := by
  exact ⟨(tokWF_intStr i).1, fun c hc => ((tokWF_intStr i).2 c hc).1⟩

theorem floatTok_pair {t : Chars} (h : floatTok t) :
    t ≠ [] ∧ ∀ c ∈ t, isWs c = false :=
  ⟨h.1, fun c hc => (h.2.1 c hc).1⟩

/-- One full run of the `loadXML` triangle loop over `saveXML` output with
the `.txt` file present. -/
theorem loadTrisGo_run (xtail ttail : List Chars) :
    ∀ (rs : List TriRec) (i : ℕ) (tris : List ℤ) (areas norms : List Chars)
      (tetns : List ℤ), (∀ r ∈ rs, triWF r) →
      loadTrisGo rs.length i (saveTrisGo i rs ++ xtail)
          (some (rs.map triTxtLine ++ ttail)) tris areas norms tetns
        = .ok ((tris ++ rs.flatMap (fun r => [r.nodes.1, r.nodes.2.1, r.nodes.2.2]),
            areas ++ rs.map TriRec.area,
            norms ++ rs.flatMap (fun r => [r.norm.1, r.norm.2.1, r.norm.2.2]),
            tetns ++ rs.flatMap (fun r => [r.tetns.1, r.tetns.2])),
            xtail, some ttail) := by
  intro rs
  induction rs with
  | nil => intro i tris areas norms tetns _; simp [saveTrisGo, loadTrisGo]
  | cons r rest ih =>
    intro i tris areas norms tetns hwf
    obtain ⟨ha, hn0, hn1, hn2⟩ := hwf r (List.mem_cons_self _ _)
    have hsplit : pySplitSep ',' [' '] (joinSep (lit ", ")
        [intStr r.nodes.1, intStr r.nodes.2.1, intStr r.nodes.2.2])
        = [intStr r.nodes.1, intStr r.nodes.2.1, intStr r.nodes.2.2] := by
      rw [show joinSep (lit ", ") [intStr r.nodes.1, intStr r.nodes.2.1, intStr r.nodes.2.2]
          = joinSep (',' :: [' ']) [intStr r.nodes.1, intStr r.nodes.2.1,
            intStr r.nodes.2.2] from rfl]
      refine pySplitSep_joinSep _ (by simp) ?_
      intro p hp
      simp only [List.mem_cons] at hp
      rcases hp with rfl | rfl | rfl | hf
      · exact intStr_no_comma _
      · exact intStr_no_comma _
      · exact intStr_no_comma _
      · simp at hf
    have h6 : ∀ t ∈ [r.area, r.norm.1, r.norm.2.1, r.norm.2.2,
        intStr r.tetns.1, intStr r.tetns.2], t ≠ [] ∧ ∀ c ∈ t, isWs c = false := by
      intro t ht
      simp only [List.mem_cons] at ht
      rcases ht with rfl | rfl | rfl | rfl | rfl | rfl | hf
      · exact floatTok_pair ha
      · exact floatTok_pair hn0
      · exact floatTok_pair hn1
      · exact floatTok_pair hn2
      · exact tokWF_pair_intStr _
      · exact tokWF_pair_intStr _
      · simp at hf
    have hline : pySplitSep ' ' [] (pyRstrip (triTxtLine r))
        = [r.area, r.norm.1, r.norm.2.1, r.norm.2.2,
            intStr r.tetns.1, intStr r.tetns.2] :=
      spaceTokens_split _ (by simp) h6
    simp only [List.length_cons, saveTrisGo, List.map_cons, List.cons_append,
      loadTrisGo, rdline_cons,
      stripTag (lit "\t\t") (lit "<tri idx = \"") (lit "\">")
        (by decide) (by decide) (by decide),
      stripTag (lit "\t\t\t") (lit "<nodes>") (lit "</nodes>")
        (by decide) (by decide) (by decide),
      (tagParts (lit "<tri idx = \"") (lit "\">") 12 2 rfl rfl).1,
      (tagParts (lit "<nodes>") (lit "</nodes>") 7 8 rfl rfl).1,
      (tagParts (lit "<nodes>") (lit "</nodes>") 7 8 rfl rfl).2.1,
      (tagParts (lit "<nodes>") (lit "</nodes>") 7 8 rfl rfl).2.2,
      pyIntE_natStr, hsplit, pyGet, List.get?, pyIntE_intStr, hline,
      pyFloatTE_wf ha, pyFloatTE_wf hn0, pyFloatTE_wf hn1, pyFloatTE_wf hn2,
      ok_bind, and_self, eq_self_iff_true]
    rw [ih (i + 1) (tris ++ [r.nodes.1, r.nodes.2.1, r.nodes.2.2]) (areas ++ [r.area])
      (norms ++ [r.norm.1, r.norm.2.1, r.norm.2.2]) (tetns ++ [r.tetns.1, r.tetns.2])
      (fun q hq => hwf q (List.mem_cons_of_mem _ hq))]
    rw [pyAssert_pos (show pyStrip (lit "\t\t</tri>") = lit "</tri>" from by decide)]
    simp [List.flatMap_cons, List.append_assoc, ok_bind, pyAssert_pos trivial]

/-- One full run of the `loadXML` tetrahedron loop over `saveXML` output with
the `.txt` file present. -/
theorem loadTetsGo_run (xtail ttail : List Chars) :
    ∀ (rs : List TetRec) (i : ℕ) (tets : List ℤ) (vols barycs : List Chars)
      (trins tetns : List ℤ), (∀ r ∈ rs, tetWF r) →
      loadTetsGo rs.length i (saveTetsGo i rs ++ xtail)
          (some (rs.map tetTxtLine ++ ttail)) tets vols barycs trins tetns
        = .ok ((tets ++ rs.flatMap (fun r => [r.nodes.1, r.nodes.2.1, r.nodes.2.2.1,
              r.nodes.2.2.2]),
            vols ++ rs.map TetRec.vol,
            barycs ++ rs.flatMap (fun r => [r.baryc.1, r.baryc.2.1, r.baryc.2.2]),
            trins ++ rs.flatMap (fun r => [r.trins.1, r.trins.2.1, r.trins.2.2.1,
              r.trins.2.2.2]),
            tetns ++ rs.flatMap (fun r => [r.tetns.1, r.tetns.2.1, r.tetns.2.2.1,
              r.tetns.2.2.2])),
            xtail, some ttail) := by
  intro rs
  induction rs with
  | nil => intro i tets vols barycs trins tetns _; simp [saveTetsGo, loadTetsGo]
  | cons r rest ih =>
    intro i tets vols barycs trins tetns hwf
    obtain ⟨hv, hb0, hb1, hb2⟩ := hwf r (List.mem_cons_self _ _)
    have hsplit : pySplitSep ',' [' '] (joinSep (lit ", ")
        [intStr r.nodes.1, intStr r.nodes.2.1, intStr r.nodes.2.2.1,
          intStr r.nodes.2.2.2])
        = [intStr r.nodes.1, intStr r.nodes.2.1, intStr r.nodes.2.2.1,
            intStr r.nodes.2.2.2] := by
      rw [show joinSep (lit ", ") [intStr r.nodes.1, intStr r.nodes.2.1,
            intStr r.nodes.2.2.1, intStr r.nodes.2.2.2]
          = joinSep (',' :: [' ']) [intStr r.nodes.1, intStr r.nodes.2.1,
            intStr r.nodes.2.2.1, intStr r.nodes.2.2.2] from rfl]
      refine pySplitSep_joinSep _ (by simp) ?_
      intro p hp
      simp only [List.mem_cons] at hp
      rcases hp with rfl | rfl | rfl | rfl | hf
      · exact intStr_no_comma _
      · exact intStr_no_comma _
      · exact intStr_no_comma _
      · exact intStr_no_comma _
      · simp at hf
    have h12 : ∀ t ∈ [r.vol, r.baryc.1, r.baryc.2.1, r.baryc.2.2,
        intStr r.trins.1, intStr r.trins.2.1, intStr r.trins.2.2.1, intStr r.trins.2.2.2,
        intStr r.tetns.1, intStr r.tetns.2.1, intStr r.tetns.2.2.1, intStr r.tetns.2.2.2],
        t ≠ [] ∧ ∀ c ∈ t, isWs c = false := by
      intro t ht
      simp only [List.mem_cons] at ht
      rcases ht with rfl | rfl | rfl | rfl | rfl | rfl | rfl | rfl | rfl | rfl | rfl | rfl | hf
      · exact floatTok_pair hv
      · exact floatTok_pair hb0
      · exact floatTok_pair hb1
      · exact floatTok_pair hb2
      · exact tokWF_pair_intStr _
      · exact tokWF_pair_intStr _
      · exact tokWF_pair_intStr _
      · exact tokWF_pair_intStr _
      · exact tokWF_pair_intStr _
      · exact tokWF_pair_intStr _
      · exact tokWF_pair_intStr _
      · exact tokWF_pair_intStr _
      · simp at hf
    have hline : pySplitSep ' ' [] (pyRstrip (tetTxtLine r))
        = [r.vol, r.baryc.1, r.baryc.2.1, r.baryc.2.2,
            intStr r.trins.1, intStr r.trins.2.1, intStr r.trins.2.2.1,
            intStr r.trins.2.2.2, intStr r.tetns.1, intStr r.tetns.2.1,
            intStr r.tetns.2.2.1, intStr r.tetns.2.2.2] :=
      spaceTokens_split _ (by simp) h12
    simp only [List.length_cons, saveTetsGo, List.map_cons, List.cons_append,
      loadTetsGo, rdline_cons,
      stripTag (lit "\t\t") (lit "<tet idx = \"") (lit "\">")
        (by decide) (by decide) (by decide),
      stripTag (lit "\t\t\t") (lit "<nodes>") (lit "</nodes>")
        (by decide) (by decide) (by decide),
      (tagParts (lit "<tet idx = \"") (lit "\">") 12 2 rfl rfl).1,
      (tagParts (lit "<nodes>") (lit "</nodes>") 7 8 rfl rfl).1,
      (tagParts (lit "<nodes>") (lit "</nodes>") 7 8 rfl rfl).2.1,
      (tagParts (lit "<nodes>") (lit "</nodes>") 7 8 rfl rfl).2.2,
      pyIntE_natStr, hsplit, pyGet, List.get?, pyIntE_intStr, hline,
      pyFloatTE_wf hv, pyFloatTE_wf hb0, pyFloatTE_wf hb1, pyFloatTE_wf hb2,
      ok_bind, and_self, eq_self_iff_true]
    rw [ih (i + 1)
      (tets ++ [r.nodes.1, r.nodes.2.1, r.nodes.2.2.1, r.nodes.2.2.2])
      (vols ++ [r.vol]) (barycs ++ [r.baryc.1, r.baryc.2.1, r.baryc.2.2])
      (trins ++ [r.trins.1, r.trins.2.1, r.trins.2.2.1, r.trins.2.2.2])
      (tetns ++ [r.tetns.1, r.tetns.2.1, r.tetns.2.2.1, r.tetns.2.2.2])
      (fun q hq => hwf q (List.mem_cons_of_mem _ hq))]
    rw [pyAssert_pos (show pyStrip (lit "\t\t</tet>") = lit "</tet>" from by decide)]
    simp [List.flatMap_cons, List.append_assoc, ok_bind, pyAssert_pos trivial]

/-- One full run of the `loadXML` compartment loop over `saveXML` output. -/
theorem loadCompsGo_run (xtail : List Chars) (n : ℕ) (assign : List (Option Chars))
    (ids : List Chars) :
    ∀ (cs : List (Chars × List Chars)) (c : ℕ) (acc : List TmComp),
      compsLoadWF n assign ids c cs →
      loadCompsGo cs.length c (saveCompsGo n assign ids c cs ++ xtail) acc
        = .ok (acc ++ compsOutGo n assign ids c cs, xtail) := by
  intro cs
  induction cs with
  | nil => intro c acc _; simp [saveCompsGo, loadCompsGo, compsOutGo]
  | cons comp rest ih =>
    intro c acc hwf
    obtain ⟨⟨hscan, hnd, hsys⟩, hrest⟩ := hwf
    simp only [List.length_cons, saveCompsGo, List.cons_append, loadCompsGo, rdline_cons,
      stripTag (lit "\t\t") (lit "<comp idx = \"") (lit "\">")
        (by decide) (by decide) (by decide),
      stripTag (lit "\t\t\t") (lit "<id>") (lit "</id>")
        (by decide) (by decide) (by decide),
      stripTag (lit "\t\t\t") (lit "<volsys>") (lit "</volsys>")
        (by decide) (by decide) (by decide),
      stripTag (lit "\t\t\t") (lit "<tets>") (lit "</tets>")
        (by decide) (by decide) (by decide),
      (tagParts (lit "<comp idx = \"") (lit "\">") 13 2 rfl rfl).1,
      (tagParts (lit "<id>") (lit "</id>") 4 5 rfl rfl).1,
      (tagParts (lit "<id>") (lit "</id>") 4 5 rfl rfl).2.1,
      (tagParts (lit "<id>") (lit "</id>") 4 5 rfl rfl).2.2,
      (tagParts (lit "<volsys>") (lit "</volsys>") 8 9 rfl rfl).1,
      (tagParts (lit "<volsys>") (lit "</volsys>") 8 9 rfl rfl).2.1,
      (tagParts (lit "<volsys>") (lit "</volsys>") 8 9 rfl rfl).2.2,
      (tagParts (lit "<tets>") (lit "</tets>") 6 7 rfl rfl).1,
      (tagParts (lit "<tets>") (lit "</tets>") 6 7 rfl rfl).2.1,
      (tagParts (lit "<tets>") (lit "</tets>") 6 7 rfl rfl).2.2,
      pyIntE_natStr, ok_bind, and_self, eq_self_iff_true,
      loadMembers (memberScan n assign ids c) hscan (memberScan_nodup n assign ids c),
      loadSys comp.2 hnd hsys]
    simp only [pyAssert_pos trivial, ok_bind,
      pyAssert_pos (show pyStrip (lit "\t\t</comp>") = lit "</comp>" from by decide)]
    refine (ih (c + 1) (acc ++ [⟨comp.1, comp.2,
      (memberScan n assign ids c).map Int.ofNat⟩]) hrest).trans ?_
    simp [compsOutGo, List.append_assoc]

/-- One full run of the `loadXML` patch loop over `saveXML` output. -/
theorem loadPatchesGo_run (xtail : List Chars) (n : ℕ) (assign : List (Option Chars))
    (ids : List Chars) (comps : List TmComp) :
    ∀ (ps : List (Chars × List Chars × Chars × Option Chars)) (p : ℕ)
      (acc : List TmPatch),
      patchesLoadWF n assign ids comps p ps →
      loadPatchesGo comps ps.length p (savePatchesGo n assign ids p ps ++ xtail) acc
        = .ok (acc ++ patchesOutGo n assign ids p ps, xtail) := by
  intro ps
  induction ps with
  | nil => intro p acc _; simp [savePatchesGo, loadPatchesGo, patchesOutGo]
  | cons pa rest ih =>
    intro p acc hwf
    obtain ⟨⟨hscan, hnd, hsys, hicnull, hicsome, hoc⟩, hrest⟩ := hwf
    obtain ⟨ic, hic⟩ := Option.isSome_iff_exists.mp hicsome
    have hicid : ic.id = pa.2.2.1 := by
      have := List.find?_some hic
      simpa using this
    have hstep : ∀ (ocmid : Chars),
        (mkTmPatch pa.1 (if (pySplitSep ',' []
              (joinQuirk (fun s => s) pa.2.1)).getD 0 [] = [] then []
            else pySplitSep ',' [] (joinQuirk (fun s => s) pa.2.1)) = mkTmPatch pa.1 pa.2.1)
        := fun _ => by rw [loadSys pa.2.1 hnd hsys]
    simp only [List.length_cons, savePatchesGo, List.cons_append, loadPatchesGo, rdline_cons,
      stripTag (lit "\t\t") (lit "<patch idx = \"") (lit "\">")
        (by decide) (by decide) (by decide),
      stripTag (lit "\t\t\t") (lit "<id>") (lit "</id>")
        (by decide) (by decide) (by decide),
      stripTag (lit "\t\t\t") (lit "<surfsys>") (lit "</surfsys>")
        (by decide) (by decide) (by decide),
      stripTag (lit "\t\t\t") (lit "<icomp>") (lit "</icomp>")
        (by decide) (by decide) (by decide),
      stripTag (lit "\t\t\t") (lit "<ocomp>") (lit "</ocomp>")
        (by decide) (by decide) (by decide),
      stripTag (lit "\t\t\t") (lit "<tris>") (lit "</tris>")
        (by decide) (by decide) (by decide),
      (tagParts (lit "<patch idx = \"") (lit "\">") 14 2 rfl rfl).1,
      (tagParts (lit "<id>") (lit "</id>") 4 5 rfl rfl).1,
      (tagParts (lit "<id>") (lit "</id>") 4 5 rfl rfl).2.1,
      (tagParts (lit "<id>") (lit "</id>") 4 5 rfl rfl).2.2,
      (tagParts (lit "<surfsys>") (lit "</surfsys>") 9 10 rfl rfl).1,
      (tagParts (lit "<surfsys>") (lit "</surfsys>") 9 10 rfl rfl).2.1,
      (tagParts (lit "<surfsys>") (lit "</surfsys>") 9 10 rfl rfl).2.2,
      (tagParts (lit "<icomp>") (lit "</icomp>") 7 8 rfl rfl).1,
      (tagParts (lit "<icomp>") (lit "</icomp>") 7 8 rfl rfl).2.1,
      (tagParts (lit "<icomp>") (lit "</icomp>") 7 8 rfl rfl).2.2,
      (tagParts (lit "<ocomp>") (lit "</ocomp>") 7 8 rfl rfl).1,
      (tagParts (lit "<ocomp>") (lit "</ocomp>") 7 8 rfl rfl).2.1,
      (tagParts (lit "<ocomp>") (lit "</ocomp>") 7 8 rfl rfl).2.2,
      (tagParts (lit "<tris>") (lit "</tris>") 6 7 rfl rfl).1,
      (tagParts (lit "<tris>") (lit "</tris>") 6 7 rfl rfl).2.1,
      (tagParts (lit "<tris>") (lit "</tris>") 6 7 rfl rfl).2.2,
      pyIntE_natStr, ok_bind, and_self, eq_self_iff_true,
      loadMembers (memberScan n assign ids p) hscan (memberScan_nodup n assign ids p),
      loadSys pa.2.1 hnd hsys, hic]
    rcases h22 : pa.2.2.2 with _ | o
    · simp only [h22, mkTmPatch, ok_bind]
      simp only [pyAssert_pos trivial, ok_bind,
        pyAssert_pos (show pyStrip (lit "\t\t</patch>") = lit "</patch>" from by decide)]
      refine (ih (p + 1) (acc ++ [⟨pa.1, pa.2.1, ic.id, none,
        (memberScan n assign ids p).map Int.ofNat⟩]) hrest).trans ?_
      simp [patchesOutGo, List.append_assoc, h22, hicid]
    · obtain ⟨honull, hosome⟩ := hoc o h22
      obtain ⟨oc, hocomp⟩ := Option.isSome_iff_exists.mp hosome
      have hocid : oc.id = o := by
        have := List.find?_some hocomp
        simpa using this
      simp only [h22, if_pos honull, hocomp, mkTmPatch, ok_bind, Option.map_some]
      simp only [pyAssert_pos trivial, ok_bind,
        pyAssert_pos (show pyStrip (lit "\t\t</patch>") = lit "</patch>" from by decide)]
      refine (ih (p + 1) (acc ++ [⟨pa.1, pa.2.1, ic.id, some oc.id,
        (memberScan n assign ids p).map Int.ofNat⟩]) hrest).trans ?_
      simp [patchesOutGo, List.append_assoc, h22, hicid, hocid]

theorem loadNodesGo_run' (vs : List (Chars × Chars × Chars)) (i : ℕ) (acc : List Chars)
    (h : ∀ v ∈ vs, vertWF v) :
    ∀ xtail : List Chars,
      loadNodesGo vs.length i (saveNodesGo i vs ++ xtail) acc
        = .ok (acc ++ vs.flatMap (fun v => [v.1, v.2.1, v.2.2]), xtail) :=
  fun xtail => loadNodesGo_run xtail vs i acc h

theorem loadTrisGo_run' (rs : List TriRec) (i : ℕ) (tris : List ℤ)
    (areas norms : List Chars) (tetns : List ℤ) (h : ∀ r ∈ rs, triWF r) :
    ∀ xtail ttail : List Chars,
      loadTrisGo rs.length i (saveTrisGo i rs ++ xtail)
          (some (rs.map triTxtLine ++ ttail)) tris areas norms tetns
        = .ok ((tris ++ rs.flatMap (fun r => [r.nodes.1, r.nodes.2.1, r.nodes.2.2]),
            areas ++ rs.map TriRec.area,
            norms ++ rs.flatMap (fun r => [r.norm.1, r.norm.2.1, r.norm.2.2]),
            tetns ++ rs.flatMap (fun r => [r.tetns.1, r.tetns.2])),
            xtail, some ttail) :=
  fun xtail ttail => loadTrisGo_run xtail ttail rs i tris areas norms tetns h

theorem loadTetsGo_run' (rs : List TetRec) (i : ℕ) (tets : List ℤ)
    (vols barycs : List Chars) (trins tetns : List ℤ) (h : ∀ r ∈ rs, tetWF r) :
    ∀ xtail ttail : List Chars,
      loadTetsGo rs.length i (saveTetsGo i rs ++ xtail)
          (some (rs.map tetTxtLine ++ ttail)) tets vols barycs trins tetns
        = .ok ((tets ++ rs.flatMap (fun r => [r.nodes.1, r.nodes.2.1, r.nodes.2.2.1,
              r.nodes.2.2.2]),
            vols ++ rs.map TetRec.vol,
            barycs ++ rs.flatMap (fun r => [r.baryc.1, r.baryc.2.1, r.baryc.2.2]),
            trins ++ rs.flatMap (fun r => [r.trins.1, r.trins.2.1, r.trins.2.2.1,
              r.trins.2.2.2]),
            tetns ++ rs.flatMap (fun r => [r.tetns.1, r.tetns.2.1, r.tetns.2.2.1,
              r.tetns.2.2.2])),
            xtail, some ttail) :=
  fun xtail ttail => loadTetsGo_run xtail ttail rs i tets vols barycs trins tetns h

theorem loadCompsGo_run' (n : ℕ) (assign : List (Option Chars)) (ids : List Chars)
    (cs : List (Chars × List Chars)) (c : ℕ) (acc : List TmComp)
    (h : compsLoadWF n assign ids c cs) :
    ∀ xtail : List Chars,
      loadCompsGo cs.length c (saveCompsGo n assign ids c cs ++ xtail) acc
        = .ok (acc ++ compsOutGo n assign ids c cs, xtail) :=
  fun xtail => loadCompsGo_run xtail n assign ids cs c acc h

theorem loadPatchesGo_run' (n : ℕ) (assign : List (Option Chars)) (ids : List Chars)
    (comps : List TmComp) (ps : List (Chars × List Chars × Chars × Option Chars))
    (p : ℕ) (acc : List TmPatch) (h : patchesLoadWF n assign ids comps p ps) :
    ∀ xtail : List Chars,
      loadPatchesGo comps ps.length p (savePatchesGo n assign ids p ps ++ xtail) acc
        = .ok (acc ++ patchesOutGo n assign ids p ps, xtail) :=
  fun xtail => loadPatchesGo_run xtail n assign ids comps ps p acc h

theorem loadTetsGo_final (rs : List TetRec) (i : ℕ) (tets : List ℤ)
    (vols barycs : List Chars) (trins tetns : List ℤ) (h : ∀ r ∈ rs, tetWF r) :
    ∀ xtail : List Chars,
      loadTetsGo rs.length i (saveTetsGo i rs ++ xtail)
          (some (rs.map tetTxtLine)) tets vols barycs trins tetns
        = .ok ((tets ++ rs.flatMap (fun r => [r.nodes.1, r.nodes.2.1, r.nodes.2.2.1,
              r.nodes.2.2.2]),
            vols ++ rs.map TetRec.vol,
            barycs ++ rs.flatMap (fun r => [r.baryc.1, r.baryc.2.1, r.baryc.2.2]),
            trins ++ rs.flatMap (fun r => [r.trins.1, r.trins.2.1, r.trins.2.2.1,
              r.trins.2.2.2]),
            tetns ++ rs.flatMap (fun r => [r.tetns.1, r.tetns.2.1, r.tetns.2.2.1,
              r.tetns.2.2.2])),
            xtail, some []) := by
  intro xtail
  have h0 := loadTetsGo_run xtail [] rs i tets vols barycs trins tetns h
  simpa using h0

theorem hdrLen (a b : Chars) (n k : ℕ) (hk : k < a.length + 1 + b.length) :
    k < (a ++ (natStr n ++ b)).length := by
  have h1 : 1 ≤ (natStr n).length := List.length_pos.mpr (natStr_ne_nil n)
  simp only [List.length_append]
  omega

/-- **C1** (amended): the save-then-load round trip is exact — identical
coordinate texts, identical triangle and tetrahedron index tuples in order,
identical compartment and patch ids, volume/surface-system lists and
membership scans, and identical derived-geometry texts — but only for
well-formed meshes: clean float texts, every compartment and patch
membership nonempty, system labels free of commas and duplicates, and patch
compartment references resolvable.  (The unqualified claim over every mesh
is refuted by `saveXML_roundtrip_refuted`.) -/
theorem loadXML_saveXML (m : Tetmesh) (hcore : m.CoreWF)
    (hcomps : compsLoadWF m.tets.length m.tetComp (m.comps.map Prod.fst) 0 m.comps)
    (hpatches : patchesLoadWF m.tris.length m.triPatch (m.patches.map Prod.fst)
      (compsOutGo m.tets.length m.tetComp (m.comps.map Prod.fst) 0 m.comps) 0 m.patches) :
    loadXML (saveXML m).1 (some (saveXML m).2)
      = .ok (some (xmlMeshOf m,
          compsOutGo m.tets.length m.tetComp (m.comps.map Prod.fst) 0 m.comps,
          patchesOutGo m.tris.length m.triPatch (m.patches.map Prod.fst) 0 m.patches)) := by
  obtain ⟨hverts, htris, htets⟩ := hcore
  unfold loadXML saveXML
  simp only [List.cons_append, List.nil_append, List.append_assoc, rdline_cons,
    stripTag (lit "\t") (lit "<nodes size = \"") (lit "\">")
      (by decide) (by decide) (by decide),
    stripTag (lit "\t") (lit "<triangles size = \"") (lit "\">")
      (by decide) (by decide) (by decide),
    stripTag (lit "\t") (lit "<tetrahedrons size = \"") (lit "\">")
      (by decide) (by decide) (by decide),
    stripTag (lit "\t") (lit "<compartments size = \"") (lit "\">")
      (by decide) (by decide) (by decide),
    stripTag (lit "\t") (lit "<patches size = \"") (lit "\">")
      (by decide) (by decide) (by decide),
    (tagParts (lit "<nodes size = \"") (lit "\">") 15 2 rfl rfl).1,
    (tagParts (lit "<nodes size = \"") (lit "\">") 15 2 rfl rfl).2.2,
    (tagParts (lit "<triangles size = \"") (lit "\">") 19 2 rfl rfl).1,
    (tagParts (lit "<triangles size = \"") (lit "\">") 19 2 rfl rfl).2.2,
    (tagParts (lit "<tetrahedrons size = \"") (lit "\">") 22 2 rfl rfl).1,
    (tagParts (lit "<tetrahedrons size = \"") (lit "\">") 22 2 rfl rfl).2.2,
    (tagParts (lit "<compartments size = \"") (lit "\">") 22 2 rfl rfl).1,
    (tagParts (lit "<compartments size = \"") (lit "\">") 22 2 rfl rfl).2.2,
    (tagParts (lit "<patches size = \"") (lit "\">") 17 2 rfl rfl).1,
    (tagParts (lit "<patches size = \"") (lit "\">") 17 2 rfl rfl).2.2,
    pyIntE_natStr, Int.toNat_natCast, ok_bind, pure_eq_ok', and_self, eq_self_iff_true,
    pyAssert_pos (hdrLen (lit "<nodes size = \"") (lit "\">") m.verts.length 17 (by decide)),
    pyAssert_pos (hdrLen (lit "<triangles size = \"") (lit "\">") m.tris.length 21
      (by decide)),
    pyAssert_pos (hdrLen (lit "<tetrahedrons size = \"") (lit "\">") m.tets.length 24
      (by decide)),
    pyAssert_pos (hdrLen (lit "<compartments size = \"") (lit "\">") m.comps.length 24
      (by decide)),
    pyAssert_pos (hdrLen (lit "<patches size = \"") (lit "\">") m.patches.length 19
      (by decide)),
    pyAssert_pos (show pyStrip (lit "\t</nodes>") = lit "</nodes>" from by decide),
    pyAssert_pos (show pyStrip (lit "\t</triangles>") = lit "</triangles>" from by decide),
    pyAssert_pos (show pyStrip (lit "\t</tetrahedrons>") = lit "</tetrahedrons>"
      from by decide),
    pyAssert_pos (show pyStrip (lit "\t</compartments>") = lit "</compartments>"
      from by decide),
    pyAssert_pos (show pyStrip (lit "\t</patches>") = lit "</patches>" from by decide),
    pyAssert_pos trivial]
  rw [if_neg (show ¬(pyRstrip (lit "<tetmesh>") ≠ lit "<tetmesh>") from by decide)]
  rw [loadNodesGo_run' m.verts 0 [] hverts]
  simp only [List.cons_append, List.nil_append, List.append_assoc, rdline_cons,
    stripTag (lit "\t") (lit "<nodes size = \"") (lit "\">")
      (by decide) (by decide) (by decide),
    stripTag (lit "\t") (lit "<triangles size = \"") (lit "\">")
      (by decide) (by decide) (by decide),
    stripTag (lit "\t") (lit "<tetrahedrons size = \"") (lit "\">")
      (by decide) (by decide) (by decide),
    stripTag (lit "\t") (lit "<compartments size = \"") (lit "\">")
      (by decide) (by decide) (by decide),
    stripTag (lit "\t") (lit "<patches size = \"") (lit "\">")
      (by decide) (by decide) (by decide),
    (tagParts (lit "<nodes size = \"") (lit "\">") 15 2 rfl rfl).1,
    (tagParts (lit "<nodes size = \"") (lit "\">") 15 2 rfl rfl).2.2,
    (tagParts (lit "<triangles size = \"") (lit "\">") 19 2 rfl rfl).1,
    (tagParts (lit "<triangles size = \"") (lit "\">") 19 2 rfl rfl).2.2,
    (tagParts (lit "<tetrahedrons size = \"") (lit "\">") 22 2 rfl rfl).1,
    (tagParts (lit "<tetrahedrons size = \"") (lit "\">") 22 2 rfl rfl).2.2,
    (tagParts (lit "<compartments size = \"") (lit "\">") 22 2 rfl rfl).1,
    (tagParts (lit "<compartments size = \"") (lit "\">") 22 2 rfl rfl).2.2,
    (tagParts (lit "<patches size = \"") (lit "\">") 17 2 rfl rfl).1,
    (tagParts (lit "<patches size = \"") (lit "\">") 17 2 rfl rfl).2.2,
    pyIntE_natStr, Int.toNat_natCast, ok_bind, pure_eq_ok', and_self, eq_self_iff_true,
    pyAssert_pos (hdrLen (lit "<nodes size = \"") (lit "\">") m.verts.length 17 (by decide)),
    pyAssert_pos (hdrLen (lit "<triangles size = \"") (lit "\">") m.tris.length 21
      (by decide)),
    pyAssert_pos (hdrLen (lit "<tetrahedrons size = \"") (lit "\">") m.tets.length 24
      (by decide)),
    pyAssert_pos (hdrLen (lit "<compartments size = \"") (lit "\">") m.comps.length 24
      (by decide)),
    pyAssert_pos (hdrLen (lit "<patches size = \"") (lit "\">") m.patches.length 19
      (by decide)),
    pyAssert_pos (show pyStrip (lit "\t</nodes>") = lit "</nodes>" from by decide),
    pyAssert_pos (show pyStrip (lit "\t</triangles>") = lit "</triangles>" from by decide),
    pyAssert_pos (show pyStrip (lit "\t</tetrahedrons>") = lit "</tetrahedrons>"
      from by decide),
    pyAssert_pos (show pyStrip (lit "\t</compartments>") = lit "</compartments>"
      from by decide),
    pyAssert_pos (show pyStrip (lit "\t</patches>") = lit "</patches>" from by decide),
    pyAssert_pos trivial]
  rw [loadTrisGo_run' m.tris 0 [] [] [] [] htris]
  simp only [List.cons_append, List.nil_append, List.append_assoc, rdline_cons,
    stripTag (lit "\t") (lit "<nodes size = \"") (lit "\">")
      (by decide) (by decide) (by decide),
    stripTag (lit "\t") (lit "<triangles size = \"") (lit "\">")
      (by decide) (by decide) (by decide),
    stripTag (lit "\t") (lit "<tetrahedrons size = \"") (lit "\">")
      (by decide) (by decide) (by decide),
    stripTag (lit "\t") (lit "<compartments size = \"") (lit "\">")
      (by decide) (by decide) (by decide),
    stripTag (lit "\t") (lit "<patches size = \"") (lit "\">")
      (by decide) (by decide) (by decide),
    (tagParts (lit "<nodes size = \"") (lit "\">") 15 2 rfl rfl).1,
    (tagParts (lit "<nodes size = \"") (lit "\">") 15 2 rfl rfl).2.2,
    (tagParts (lit "<triangles size = \"") (lit "\">") 19 2 rfl rfl).1,
    (tagParts (lit "<triangles size = \"") (lit "\">") 19 2 rfl rfl).2.2,
    (tagParts (lit "<tetrahedrons size = \"") (lit "\">") 22 2 rfl rfl).1,
    (tagParts (lit "<tetrahedrons size = \"") (lit "\">") 22 2 rfl rfl).2.2,
    (tagParts (lit "<compartments size = \"") (lit "\">") 22 2 rfl rfl).1,
    (tagParts (lit "<compartments size = \"") (lit "\">") 22 2 rfl rfl).2.2,
    (tagParts (lit "<patches size = \"") (lit "\">") 17 2 rfl rfl).1,
    (tagParts (lit "<patches size = \"") (lit "\">") 17 2 rfl rfl).2.2,
    pyIntE_natStr, Int.toNat_natCast, ok_bind, pure_eq_ok', and_self, eq_self_iff_true,
    pyAssert_pos (hdrLen (lit "<nodes size = \"") (lit "\">") m.verts.length 17 (by decide)),
    pyAssert_pos (hdrLen (lit "<triangles size = \"") (lit "\">") m.tris.length 21
      (by decide)),
    pyAssert_pos (hdrLen (lit "<tetrahedrons size = \"") (lit "\">") m.tets.length 24
      (by decide)),
    pyAssert_pos (hdrLen (lit "<compartments size = \"") (lit "\">") m.comps.length 24
      (by decide)),
    pyAssert_pos (hdrLen (lit "<patches size = \"") (lit "\">") m.patches.length 19
      (by decide)),
    pyAssert_pos (show pyStrip (lit "\t</nodes>") = lit "</nodes>" from by decide),
    pyAssert_pos (show pyStrip (lit "\t</triangles>") = lit "</triangles>" from by decide),
    pyAssert_pos (show pyStrip (lit "\t</tetrahedrons>") = lit "</tetrahedrons>"
      from by decide),
    pyAssert_pos (show pyStrip (lit "\t</compartments>") = lit "</compartments>"
      from by decide),
    pyAssert_pos (show pyStrip (lit "\t</patches>") = lit "</patches>" from by decide),
    pyAssert_pos trivial]
  rw [loadTetsGo_final m.tets 0 [] [] [] [] [] htets]
  simp only [List.cons_append, List.nil_append, List.append_assoc, rdline_cons,
    stripTag (lit "\t") (lit "<nodes size = \"") (lit "\">")
      (by decide) (by decide) (by decide),
    stripTag (lit "\t") (lit "<triangles size = \"") (lit "\">")
      (by decide) (by decide) (by decide),
    stripTag (lit "\t") (lit "<tetrahedrons size = \"") (lit "\">")
      (by decide) (by decide) (by decide),
    stripTag (lit "\t") (lit "<compartments size = \"") (lit "\">")
      (by decide) (by decide) (by decide),
    stripTag (lit "\t") (lit "<patches size = \"") (lit "\">")
      (by decide) (by decide) (by decide),
    (tagParts (lit "<nodes size = \"") (lit "\">") 15 2 rfl rfl).1,
    (tagParts (lit "<nodes size = \"") (lit "\">") 15 2 rfl rfl).2.2,
    (tagParts (lit "<triangles size = \"") (lit "\">") 19 2 rfl rfl).1,
    (tagParts (lit "<triangles size = \"") (lit "\">") 19 2 rfl rfl).2.2,
    (tagParts (lit "<tetrahedrons size = \"") (lit "\">") 22 2 rfl rfl).1,
    (tagParts (lit "<tetrahedrons size = \"") (lit "\">") 22 2 rfl rfl).2.2,
    (tagParts (lit "<compartments size = \"") (lit "\">") 22 2 rfl rfl).1,
    (tagParts (lit "<compartments size = \"") (lit "\">") 22 2 rfl rfl).2.2,
    (tagParts (lit "<patches size = \"") (lit "\">") 17 2 rfl rfl).1,
    (tagParts (lit "<patches size = \"") (lit "\">") 17 2 rfl rfl).2.2,
    pyIntE_natStr, Int.toNat_natCast, ok_bind, pure_eq_ok', and_self, eq_self_iff_true,
    pyAssert_pos (hdrLen (lit "<nodes size = \"") (lit "\">") m.verts.length 17 (by decide)),
    pyAssert_pos (hdrLen (lit "<triangles size = \"") (lit "\">") m.tris.length 21
      (by decide)),
    pyAssert_pos (hdrLen (lit "<tetrahedrons size = \"") (lit "\">") m.tets.length 24
      (by decide)),
    pyAssert_pos (hdrLen (lit "<compartments size = \"") (lit "\">") m.comps.length 24
      (by decide)),
    pyAssert_pos (hdrLen (lit "<patches size = \"") (lit "\">") m.patches.length 19
      (by decide)),
    pyAssert_pos (show pyStrip (lit "\t</nodes>") = lit "</nodes>" from by decide),
    pyAssert_pos (show pyStrip (lit "\t</triangles>") = lit "</triangles>" from by decide),
    pyAssert_pos (show pyStrip (lit "\t</tetrahedrons>") = lit "</tetrahedrons>"
      from by decide),
    pyAssert_pos (show pyStrip (lit "\t</compartments>") = lit "</compartments>"
      from by decide),
    pyAssert_pos (show pyStrip (lit "\t</patches>") = lit "</patches>" from by decide),
    pyAssert_pos trivial]
  rw [loadCompsGo_run' m.tets.length m.tetComp (m.comps.map Prod.fst) m.comps 0 [] hcomps]
  simp only [List.cons_append, List.nil_append, List.append_assoc, rdline_cons,
    stripTag (lit "\t") (lit "<nodes size = \"") (lit "\">")
      (by decide) (by decide) (by decide),
    stripTag (lit "\t") (lit "<triangles size = \"") (lit "\">")
      (by decide) (by decide) (by decide),
    stripTag (lit "\t") (lit "<tetrahedrons size = \"") (lit "\">")
      (by decide) (by decide) (by decide),
    stripTag (lit "\t") (lit "<compartments size = \"") (lit "\">")
      (by decide) (by decide) (by decide),
    stripTag (lit "\t") (lit "<patches size = \"") (lit "\">")
      (by decide) (by decide) (by decide),
    (tagParts (lit "<nodes size = \"") (lit "\">") 15 2 rfl rfl).1,
    (tagParts (lit "<nodes size = \"") (lit "\">") 15 2 rfl rfl).2.2,
    (tagParts (lit "<triangles size = \"") (lit "\">") 19 2 rfl rfl).1,
    (tagParts (lit "<triangles size = \"") (lit "\">") 19 2 rfl rfl).2.2,
    (tagParts (lit "<tetrahedrons size = \"") (lit "\">") 22 2 rfl rfl).1,
    (tagParts (lit "<tetrahedrons size = \"") (lit "\">") 22 2 rfl rfl).2.2,
    (tagParts (lit "<compartments size = \"") (lit "\">") 22 2 rfl rfl).1,
    (tagParts (lit "<compartments size = \"") (lit "\">") 22 2 rfl rfl).2.2,
    (tagParts (lit "<patches size = \"") (lit "\">") 17 2 rfl rfl).1,
    (tagParts (lit "<patches size = \"") (lit "\">") 17 2 rfl rfl).2.2,
    pyIntE_natStr, Int.toNat_natCast, ok_bind, pure_eq_ok', and_self, eq_self_iff_true,
    pyAssert_pos (hdrLen (lit "<nodes size = \"") (lit "\">") m.verts.length 17 (by decide)),
    pyAssert_pos (hdrLen (lit "<triangles size = \"") (lit "\">") m.tris.length 21
      (by decide)),
    pyAssert_pos (hdrLen (lit "<tetrahedrons size = \"") (lit "\">") m.tets.length 24
      (by decide)),
    pyAssert_pos (hdrLen (lit "<compartments size = \"") (lit "\">") m.comps.length 24
      (by decide)),
    pyAssert_pos (hdrLen (lit "<patches size = \"") (lit "\">") m.patches.length 19
      (by decide)),
    pyAssert_pos (show pyStrip (lit "\t</nodes>") = lit "</nodes>" from by decide),
    pyAssert_pos (show pyStrip (lit "\t</triangles>") = lit "</triangles>" from by decide),
    pyAssert_pos (show pyStrip (lit "\t</tetrahedrons>") = lit "</tetrahedrons>"
      from by decide),
    pyAssert_pos (show pyStrip (lit "\t</compartments>") = lit "</compartments>"
      from by decide),
    pyAssert_pos (show pyStrip (lit "\t</patches>") = lit "</patches>" from by decide),
    pyAssert_pos trivial]
  rw [loadPatchesGo_run' m.tris.length m.triPatch (m.patches.map Prod.fst)
    (compsOutGo m.tets.length m.tetComp (m.comps.map Prod.fst) 0 m.comps) m.patches 0 []
    hpatches]
  simp [xmlMeshOf, pure_eq_ok', ok_bind, List.nil_append, rdline_cons,
    pyAssert_pos (show pyStrip (lit "\t</patches>") = lit "</patches>" from by decide)]


/-- The compartment loop fails with `ValueError` at the first entry whose
membership scan is empty: `<tets></tets>` splits to `['']` and `int('')`
raises. -/
theorem loadCompsGo_empty_fails (xtail : List Chars) (n : ℕ)
    (assign : List (Option Chars)) (ids : List Chars) :
    ∀ (pre : List (Chars × List Chars)) (c : ℕ) (acc : List TmComp)
      (bad : Chars × List Chars) (rest : List (Chars × List Chars)),
      compsLoadWF n assign ids c pre →
      memberScan n assign ids (c + pre.length) = [] →
      loadCompsGo (pre ++ bad :: rest).length c
          (saveCompsGo n assign ids c (pre ++ bad :: rest) ++ xtail) acc
        = .error .valueError := by
  intro pre
  induction pre with
  | nil =>
    intro c acc bad rest _ hbad
    simp only [List.length_nil, Nat.add_zero] at hbad
    simp only [List.nil_append, List.length_cons, saveCompsGo, loadCompsGo, rdline_cons,
      List.cons_append,
      stripTag (lit "\t\t") (lit "<comp idx = \"") (lit "\">")
        (by decide) (by decide) (by decide),
      stripTag (lit "\t\t\t") (lit "<id>") (lit "</id>")
        (by decide) (by decide) (by decide),
      stripTag (lit "\t\t\t") (lit "<volsys>") (lit "</volsys>")
        (by decide) (by decide) (by decide),
      stripTag (lit "\t\t\t") (lit "<tets>") (lit "</tets>")
        (by decide) (by decide) (by decide),
      (tagParts (lit "<comp idx = \"") (lit "\">") 13 2 rfl rfl).1,
      (tagParts (lit "<id>") (lit "</id>") 4 5 rfl rfl).1,
      (tagParts (lit "<id>") (lit "</id>") 4 5 rfl rfl).2.1,
      (tagParts (lit "<id>") (lit "</id>") 4 5 rfl rfl).2.2,
      (tagParts (lit "<volsys>") (lit "</volsys>") 8 9 rfl rfl).1,
      (tagParts (lit "<volsys>") (lit "</volsys>") 8 9 rfl rfl).2.1,
      (tagParts (lit "<volsys>") (lit "</volsys>") 8 9 rfl rfl).2.2,
      (tagParts (lit "<tets>") (lit "</tets>") 6 7 rfl rfl).1,
      (tagParts (lit "<tets>") (lit "</tets>") 6 7 rfl rfl).2.1,
      (tagParts (lit "<tets>") (lit "</tets>") 6 7 rfl rfl).2.2,
      pyIntE_natStr, ok_bind, and_self, eq_self_iff_true, pyAssert_pos trivial,
      hbad]
    rw [show joinQuirk natStr ([] : List ℕ) = [] from rfl]
    rw [show pyIntList (pySplitSep ',' [] []) = .error .valueError from rfl]
    simp [error_bind]
  | cons comp pre' ih =>
    intro c acc bad rest hwf hbad
    obtain ⟨⟨hscan, hnd, hsys⟩, hrest⟩ := hwf
    have hbad' : memberScan n assign ids (c + 1 + pre'.length) = [] := by
      rw [show c + 1 + pre'.length = c + (comp :: pre').length from by
        simp [List.length_cons]; omega]
      exact hbad
    simp only [List.cons_append, List.length_cons, saveCompsGo, loadCompsGo, rdline_cons,
      stripTag (lit "\t\t") (lit "<comp idx = \"") (lit "\">")
        (by decide) (by decide) (by decide),
      stripTag (lit "\t\t\t") (lit "<id>") (lit "</id>")
        (by decide) (by decide) (by decide),
      stripTag (lit "\t\t\t") (lit "<volsys>") (lit "</volsys>")
        (by decide) (by decide) (by decide),
      stripTag (lit "\t\t\t") (lit "<tets>") (lit "</tets>")
        (by decide) (by decide) (by decide),
      (tagParts (lit "<comp idx = \"") (lit "\">") 13 2 rfl rfl).1,
      (tagParts (lit "<id>") (lit "</id>") 4 5 rfl rfl).1,
      (tagParts (lit "<id>") (lit "</id>") 4 5 rfl rfl).2.1,
      (tagParts (lit "<id>") (lit "</id>") 4 5 rfl rfl).2.2,
      (tagParts (lit "<volsys>") (lit "</volsys>") 8 9 rfl rfl).1,
      (tagParts (lit "<volsys>") (lit "</volsys>") 8 9 rfl rfl).2.1,
      (tagParts (lit "<volsys>") (lit "</volsys>") 8 9 rfl rfl).2.2,
      (tagParts (lit "<tets>") (lit "</tets>") 6 7 rfl rfl).1,
      (tagParts (lit "<tets>") (lit "</tets>") 6 7 rfl rfl).2.1,
      (tagParts (lit "<tets>") (lit "</tets>") 6 7 rfl rfl).2.2,
      pyIntE_natStr, ok_bind, and_self, eq_self_iff_true, pyAssert_pos trivial,
      loadMembers (memberScan n assign ids c) hscan (memberScan_nodup n assign ids c),
      loadSys comp.2 hnd hsys,
      pyAssert_pos (show pyStrip (lit "\t\t</comp>") = lit "</comp>" from by decide)]
    have hlen : (pre' ++ bad :: rest).length + 1 = (pre' ++ bad :: rest).length + 1 := rfl
    exact ih (c + 1)
      (acc ++ [⟨comp.1, comp.2, (memberScan n assign ids c).map Int.ofNat⟩])
      bad rest hrest hbad'

theorem loadCompsGo_empty_fails_tail (n : ℕ) (assign : List (Option Chars))
    (ids : List Chars) (pre : List (Chars × List Chars)) (c : ℕ) (acc : List TmComp)
    (bad : Chars × List Chars) (rest : List (Chars × List Chars))
    (h1 : compsLoadWF n assign ids c pre)
    (h2 : memberScan n assign ids (c + pre.length) = []) :
    ∀ xtail : List Chars,
      loadCompsGo (pre ++ bad :: rest).length c
          (saveCompsGo n assign ids c (pre ++ bad :: rest) ++ xtail) acc
        = .error .valueError :=
  fun xtail => loadCompsGo_empty_fails xtail n assign ids pre c acc bad rest h1 h2

/-- Replays the round trip to the compartment loop: a compartment entry with
an empty membership scan after a clean prefix makes `loadXML` fail with
`ValueError` at `int('')`. -/
theorem saveXML_empty_comp_fails_aux (m : Tetmesh) (hcore : m.CoreWF)
    (pre : List (Chars × List Chars)) (bad : Chars × List Chars)
    (rest : List (Chars × List Chars))
    (hsplit : m.comps = pre ++ bad :: rest)
    (hpre : compsLoadWF m.tets.length m.tetComp (m.comps.map Prod.fst) 0 pre)
    (hbad : memberScan m.tets.length m.tetComp (m.comps.map Prod.fst) pre.length = []) :
    loadXML (saveXML m).1 (some (saveXML m).2) = .error .valueError := by
  obtain ⟨hverts, htris, htets⟩ := hcore
  rw [hsplit] at hpre hbad
  unfold loadXML saveXML
  simp only [List.cons_append, List.nil_append, List.append_assoc, rdline_cons,
    stripTag (lit "\t") (lit "<nodes size = \"") (lit "\">")
      (by decide) (by decide) (by decide),
    stripTag (lit "\t") (lit "<triangles size = \"") (lit "\">")
      (by decide) (by decide) (by decide),
    stripTag (lit "\t") (lit "<tetrahedrons size = \"") (lit "\">")
      (by decide) (by decide) (by decide),
    stripTag (lit "\t") (lit "<compartments size = \"") (lit "\">")
      (by decide) (by decide) (by decide),
    stripTag (lit "\t") (lit "<patches size = \"") (lit "\">")
      (by decide) (by decide) (by decide),
    (tagParts (lit "<nodes size = \"") (lit "\">") 15 2 rfl rfl).1,
    (tagParts (lit "<nodes size = \"") (lit "\">") 15 2 rfl rfl).2.2,
    (tagParts (lit "<triangles size = \"") (lit "\">") 19 2 rfl rfl).1,
    (tagParts (lit "<triangles size = \"") (lit "\">") 19 2 rfl rfl).2.2,
    (tagParts (lit "<tetrahedrons size = \"") (lit "\">") 22 2 rfl rfl).1,
    (tagParts (lit "<tetrahedrons size = \"") (lit "\">") 22 2 rfl rfl).2.2,
    (tagParts (lit "<compartments size = \"") (lit "\">") 22 2 rfl rfl).1,
    (tagParts (lit "<compartments size = \"") (lit "\">") 22 2 rfl rfl).2.2,
    (tagParts (lit "<patches size = \"") (lit "\">") 17 2 rfl rfl).1,
    (tagParts (lit "<patches size = \"") (lit "\">") 17 2 rfl rfl).2.2,
    pyIntE_natStr, Int.toNat_natCast, ok_bind, pure_eq_ok', and_self, eq_self_iff_true,
    pyAssert_pos (hdrLen (lit "<nodes size = \"") (lit "\">") m.verts.length 17 (by decide)),
    pyAssert_pos (hdrLen (lit "<triangles size = \"") (lit "\">") m.tris.length 21
      (by decide)),
    pyAssert_pos (hdrLen (lit "<tetrahedrons size = \"") (lit "\">") m.tets.length 24
      (by decide)),
    pyAssert_pos (hdrLen (lit "<compartments size = \"") (lit "\">") m.comps.length 24
      (by decide)),
    pyAssert_pos (hdrLen (lit "<patches size = \"") (lit "\">") m.patches.length 19
      (by decide)),
    pyAssert_pos (show pyStrip (lit "\t</nodes>") = lit "</nodes>" from by decide),
    pyAssert_pos (show pyStrip (lit "\t</triangles>") = lit "</triangles>" from by decide),
    pyAssert_pos (show pyStrip (lit "\t</tetrahedrons>") = lit "</tetrahedrons>"
      from by decide),
    pyAssert_pos (show pyStrip (lit "\t</compartments>") = lit "</compartments>"
      from by decide),
    pyAssert_pos (show pyStrip (lit "\t</patches>") = lit "</patches>" from by decide),
    pyAssert_pos trivial]
  rw [if_neg (show ¬(pyRstrip (lit "<tetmesh>") ≠ lit "<tetmesh>") from by decide)]
  rw [loadNodesGo_run' m.verts 0 [] hverts]
  simp only [List.cons_append, List.nil_append, List.append_assoc, rdline_cons,
    stripTag (lit "\t") (lit "<nodes size = \"") (lit "\">")
      (by decide) (by decide) (by decide),
    stripTag (lit "\t") (lit "<triangles size = \"") (lit "\">")
      (by decide) (by decide) (by decide),
    stripTag (lit "\t") (lit "<tetrahedrons size = \"") (lit "\">")
      (by decide) (by decide) (by decide),
    stripTag (lit "\t") (lit "<compartments size = \"") (lit "\">")
      (by decide) (by decide) (by decide),
    stripTag (lit "\t") (lit "<patches size = \"") (lit "\">")
      (by decide) (by decide) (by decide),
    (tagParts (lit "<nodes size = \"") (lit "\">") 15 2 rfl rfl).1,
    (tagParts (lit "<nodes size = \"") (lit "\">") 15 2 rfl rfl).2.2,
    (tagParts (lit "<triangles size = \"") (lit "\">") 19 2 rfl rfl).1,
    (tagParts (lit "<triangles size = \"") (lit "\">") 19 2 rfl rfl).2.2,
    (tagParts (lit "<tetrahedrons size = \"") (lit "\">") 22 2 rfl rfl).1,
    (tagParts (lit "<tetrahedrons size = \"") (lit "\">") 22 2 rfl rfl).2.2,
    (tagParts (lit "<compartments size = \"") (lit "\">") 22 2 rfl rfl).1,
    (tagParts (lit "<compartments size = \"") (lit "\">") 22 2 rfl rfl).2.2,
    (tagParts (lit "<patches size = \"") (lit "\">") 17 2 rfl rfl).1,
    (tagParts (lit "<patches size = \"") (lit "\">") 17 2 rfl rfl).2.2,
    pyIntE_natStr, Int.toNat_natCast, ok_bind, pure_eq_ok', and_self, eq_self_iff_true,
    pyAssert_pos (hdrLen (lit "<nodes size = \"") (lit "\">") m.verts.length 17 (by decide)),
    pyAssert_pos (hdrLen (lit "<triangles size = \"") (lit "\">") m.tris.length 21
      (by decide)),
    pyAssert_pos (hdrLen (lit "<tetrahedrons size = \"") (lit "\">") m.tets.length 24
      (by decide)),
    pyAssert_pos (hdrLen (lit "<compartments size = \"") (lit "\">") m.comps.length 24
      (by decide)),
    pyAssert_pos (hdrLen (lit "<patches size = \"") (lit "\">") m.patches.length 19
      (by decide)),
    pyAssert_pos (show pyStrip (lit "\t</nodes>") = lit "</nodes>" from by decide),
    pyAssert_pos (show pyStrip (lit "\t</triangles>") = lit "</triangles>" from by decide),
    pyAssert_pos (show pyStrip (lit "\t</tetrahedrons>") = lit "</tetrahedrons>"
      from by decide),
    pyAssert_pos (show pyStrip (lit "\t</compartments>") = lit "</compartments>"
      from by decide),
    pyAssert_pos (show pyStrip (lit "\t</patches>") = lit "</patches>" from by decide),
    pyAssert_pos trivial]
  rw [loadTrisGo_run' m.tris 0 [] [] [] [] htris]
  simp only [List.cons_append, List.nil_append, List.append_assoc, rdline_cons,
    stripTag (lit "\t") (lit "<nodes size = \"") (lit "\">")
      (by decide) (by decide) (by decide),
    stripTag (lit "\t") (lit "<triangles size = \"") (lit "\">")
      (by decide) (by decide) (by decide),
    stripTag (lit "\t") (lit "<tetrahedrons size = \"") (lit "\">")
      (by decide) (by decide) (by decide),
    stripTag (lit "\t") (lit "<compartments size = \"") (lit "\">")
      (by decide) (by decide) (by decide),
    stripTag (lit "\t") (lit "<patches size = \"") (lit "\">")
      (by decide) (by decide) (by decide),
    (tagParts (lit "<nodes size = \"") (lit "\">") 15 2 rfl rfl).1,
    (tagParts (lit "<nodes size = \"") (lit "\">") 15 2 rfl rfl).2.2,
    (tagParts (lit "<triangles size = \"") (lit "\">") 19 2 rfl rfl).1,
    (tagParts (lit "<triangles size = \"") (lit "\">") 19 2 rfl rfl).2.2,
    (tagParts (lit "<tetrahedrons size = \"") (lit "\">") 22 2 rfl rfl).1,
    (tagParts (lit "<tetrahedrons size = \"") (lit "\">") 22 2 rfl rfl).2.2,
    (tagParts (lit "<compartments size = \"") (lit "\">") 22 2 rfl rfl).1,
    (tagParts (lit "<compartments size = \"") (lit "\">") 22 2 rfl rfl).2.2,
    (tagParts (lit "<patches size = \"") (lit "\">") 17 2 rfl rfl).1,
    (tagParts (lit "<patches size = \"") (lit "\">") 17 2 rfl rfl).2.2,
    pyIntE_natStr, Int.toNat_natCast, ok_bind, pure_eq_ok', and_self, eq_self_iff_true,
    pyAssert_pos (hdrLen (lit "<nodes size = \"") (lit "\">") m.verts.length 17 (by decide)),
    pyAssert_pos (hdrLen (lit "<triangles size = \"") (lit "\">") m.tris.length 21
      (by decide)),
    pyAssert_pos (hdrLen (lit "<tetrahedrons size = \"") (lit "\">") m.tets.length 24
      (by decide)),
    pyAssert_pos (hdrLen (lit "<compartments size = \"") (lit "\">") m.comps.length 24
      (by decide)),
    pyAssert_pos (hdrLen (lit "<patches size = \"") (lit "\">") m.patches.length 19
      (by decide)),
    pyAssert_pos (show pyStrip (lit "\t</nodes>") = lit "</nodes>" from by decide),
    pyAssert_pos (show pyStrip (lit "\t</triangles>") = lit "</triangles>" from by decide),
    pyAssert_pos (show pyStrip (lit "\t</tetrahedrons>") = lit "</tetrahedrons>"
      from by decide),
    pyAssert_pos (show pyStrip (lit "\t</compartments>") = lit "</compartments>"
      from by decide),
    pyAssert_pos (show pyStrip (lit "\t</patches>") = lit "</patches>" from by decide),
    pyAssert_pos trivial]
  rw [loadTetsGo_final m.tets 0 [] [] [] [] [] htets]
  simp only [List.cons_append, List.nil_append, List.append_assoc, rdline_cons,
    stripTag (lit "\t") (lit "<nodes size = \"") (lit "\">")
      (by decide) (by decide) (by decide),
    stripTag (lit "\t") (lit "<triangles size = \"") (lit "\">")
      (by decide) (by decide) (by decide),
    stripTag (lit "\t") (lit "<tetrahedrons size = \"") (lit "\">")
      (by decide) (by decide) (by decide),
    stripTag (lit "\t") (lit "<compartments size = \"") (lit "\">")
      (by decide) (by decide) (by decide),
    stripTag (lit "\t") (lit "<patches size = \"") (lit "\">")
      (by decide) (by decide) (by decide),
    (tagParts (lit "<nodes size = \"") (lit "\">") 15 2 rfl rfl).1,
    (tagParts (lit "<nodes size = \"") (lit "\">") 15 2 rfl rfl).2.2,
    (tagParts (lit "<triangles size = \"") (lit "\">") 19 2 rfl rfl).1,
    (tagParts (lit "<triangles size = \"") (lit "\">") 19 2 rfl rfl).2.2,
    (tagParts (lit "<tetrahedrons size = \"") (lit "\">") 22 2 rfl rfl).1,
    (tagParts (lit "<tetrahedrons size = \"") (lit "\">") 22 2 rfl rfl).2.2,
    (tagParts (lit "<compartments size = \"") (lit "\">") 22 2 rfl rfl).1,
    (tagParts (lit "<compartments size = \"") (lit "\">") 22 2 rfl rfl).2.2,
    (tagParts (lit "<patches size = \"") (lit "\">") 17 2 rfl rfl).1,
    (tagParts (lit "<patches size = \"") (lit "\">") 17 2 rfl rfl).2.2,
    pyIntE_natStr, Int.toNat_natCast, ok_bind, pure_eq_ok', and_self, eq_self_iff_true,
    pyAssert_pos (hdrLen (lit "<nodes size = \"") (lit "\">") m.verts.length 17 (by decide)),
    pyAssert_pos (hdrLen (lit "<triangles size = \"") (lit "\">") m.tris.length 21
      (by decide)),
    pyAssert_pos (hdrLen (lit "<tetrahedrons size = \"") (lit "\">") m.tets.length 24
      (by decide)),
    pyAssert_pos (hdrLen (lit "<compartments size = \"") (lit "\">") m.comps.length 24
      (by decide)),
    pyAssert_pos (hdrLen (lit "<patches size = \"") (lit "\">") m.patches.length 19
      (by decide)),
    pyAssert_pos (show pyStrip (lit "\t</nodes>") = lit "</nodes>" from by decide),
    pyAssert_pos (show pyStrip (lit "\t</triangles>") = lit "</triangles>" from by decide),
    pyAssert_pos (show pyStrip (lit "\t</tetrahedrons>") = lit "</tetrahedrons>"
      from by decide),
    pyAssert_pos (show pyStrip (lit "\t</compartments>") = lit "</compartments>"
      from by decide),
    pyAssert_pos (show pyStrip (lit "\t</patches>") = lit "</patches>" from by decide),
    pyAssert_pos trivial]
  rw [hsplit]
  rw [loadCompsGo_empty_fails_tail m.tets.length m.tetComp
    ((pre ++ bad :: rest).map Prod.fst) pre 0 [] bad rest hpre (by simpa using hbad)]
  simp [error_bind]

/-! ### Concrete meshes -/

/-- A concrete mesh: one vertex, one triangle, one tetrahedron, one
compartment (`cytosol`, owning the tetrahedron) and one patch (`memb`,
owning the triangle, inner compartment `cytosol`, no outer compartment). -/
def tetmeshEx : Tetmesh :=
  ⟨[(lit "0.1", lit "0.2", lit "0.3")],
   [⟨(0, 0, 0), lit "2.5", (lit "0.0", lit "0.0", lit "1.0"), (0, -1)⟩],
   [⟨(0, 0, 0, 0), lit "0.25", (lit "0.1", lit "0.1", lit "0.1"), (0, 0, 0, 0),
     (-1, -1, -1, -1)⟩],
   [(lit "cytosol", [lit "vsys1"])],
   [(lit "memb", [lit "ssys1"], lit "cytosol", none)],
   [some (lit "cytosol")],
   [some (lit "memb")]⟩

/-- `tetmeshEx` with the tetrahedron assigned to no compartment: the
compartment `cytosol` has an empty membership list at save time. -/
def tetmeshEmptyComp : Tetmesh :=
  { tetmeshEx with tetComp := [none] }

/-- `tetmeshEx` with the triangle assigned to no patch: the patch `memb`
has an empty membership list at save time. -/
def tetmeshEmptyPatch : Tetmesh :=
  { tetmeshEx with triPatch := [none] }

/-- `tetmeshEx` with the patch's outer compartment id set to `nowhere`,
which names no compartment of the mesh. -/
def tetmeshBadOuter : Tetmesh :=
  { tetmeshEx with patches := [(lit "memb", [lit "ssys1"], lit "cytosol",
      some (lit "nowhere"))] }

/-- `tetmeshEx` with the patch's inner compartment id set to `nowhere`,
which names no compartment of the mesh. -/
def tetmeshBadInner : Tetmesh :=
  { tetmeshEx with patches := [(lit "memb", [lit "ssys1"], lit "nowhere", none)] }

/-- **C1** counterexample: a mesh whose patch has an empty membership list
saves fine but fails to load (`int('')` raises), so the round trip does not
hold for every mesh with compartments and patches. -/
theorem saveXML_roundtrip_refuted :
    loadXML (saveXML tetmeshEmptyPatch).1 (some (saveXML tetmeshEmptyPatch).2)
      = .error .valueError := by decide

/-- Witness for C1: the round trip reproduces `tetmeshEx` exactly. -/
theorem loadXML_saveXML_witness :
    Tetmesh.CoreWF tetmeshEx ∧
    compsLoadWF tetmeshEx.tets.length tetmeshEx.tetComp (tetmeshEx.comps.map Prod.fst)
      0 tetmeshEx.comps ∧
    loadXML (saveXML tetmeshEx).1 (some (saveXML tetmeshEx).2)
      = .ok (some (xmlMeshOf tetmeshEx,
          compsOutGo tetmeshEx.tets.length tetmeshEx.tetComp
            (tetmeshEx.comps.map Prod.fst) 0 tetmeshEx.comps,
          patchesOutGo tetmeshEx.tris.length tetmeshEx.triPatch
            (tetmeshEx.patches.map Prod.fst) 0 tetmeshEx.patches)) :=
  ⟨by decide, by decide, loadXML_saveXML tetmeshEx (by decide) (by decide) (by decide)⟩

/-- **C2**: the claim — that `loadXML` succeeds without the companion `.txt`
file, returning a mesh built from the structural data alone — is refuted by
the code: the derived-geometry lists (`triareas_out` and friends) are only
assigned under `if (havetxt)` (lines 704-710, 777-801) but are passed to
the mesh constructor unconditionally (line 802), so a load without the
`.txt` file raises `NameError` instead of succeeding. -/
theorem loadXML_missing_txt_crashes :
    loadXML (saveXML tetmeshEx).1 none = .error .nameError := by decide

/-- **C9** (amended): only the INNER compartment reference is checked:
a patch whose inner compartment id resolves to no compartment is fatal
(`mesh.getComp` yields no compartment and the patch constructor rejects it,
line 861).  The outer reference is NOT checked — see
`loadXML_unresolved_outer_silent`. -/
theorem loadXML_unresolved_inner_fatal :
    loadXML (saveXML tetmeshBadInner).1 (some (saveXML tetmeshBadInner).2)
      = .error .typeError := by decide

/-- **C9** counterexample: a patch whose OUTER compartment id (`nowhere`)
resolves to no compartment loads without any error, and the loaded patch
silently carries no outer compartment reference — refuting the claim that
an unresolved compartment name is always fatal. -/
theorem loadXML_unresolved_outer_silent :
    tetmeshBadOuter.patches.map (fun pa => pa.2.2.2) = [some (lit "nowhere")] ∧
    (loadXML (saveXML tetmeshBadOuter).1 (some (saveXML tetmeshBadOuter).2)).map
        (fun r => r.map (fun res => res.2.2.map TmPatch.ocompId))
      = .ok (some [none]) := by decide



/-- The patch loop fails with `ValueError` at the first entry whose
membership scan is empty: `<tris></tris>` splits to `['']` and `int('')`
raises (before any compartment lookup). -/
theorem loadPatchesGo_empty_fails (xtail : List Chars) (n : ℕ)
    (assign : List (Option Chars)) (ids : List Chars) (comps : List TmComp) :
    ∀ (pre : List (Chars × List Chars × Chars × Option Chars)) (p : ℕ)
      (acc : List TmPatch) (bad : Chars × List Chars × Chars × Option Chars)
      (rest : List (Chars × List Chars × Chars × Option Chars)),
      patchesLoadWF n assign ids comps p pre →
      memberScan n assign ids (p + pre.length) = [] →
      loadPatchesGo comps (pre ++ bad :: rest).length p
          (savePatchesGo n assign ids p (pre ++ bad :: rest) ++ xtail) acc
        = .error .valueError := by
  intro pre
  induction pre with
  | nil =>
    intro p acc bad rest _ hbad
    simp only [List.length_nil, Nat.add_zero] at hbad
    simp only [List.nil_append, List.length_cons, savePatchesGo, loadPatchesGo, rdline_cons,
      List.cons_append,
      stripTag (lit "\t\t") (lit "<patch idx = \"") (lit "\">")
        (by decide) (by decide) (by decide),
      stripTag (lit "\t\t\t") (lit "<id>") (lit "</id>")
        (by decide) (by decide) (by decide),
      stripTag (lit "\t\t\t") (lit "<surfsys>") (lit "</surfsys>")
        (by decide) (by decide) (by decide),
      stripTag (lit "\t\t\t") (lit "<icomp>") (lit "</icomp>")
        (by decide) (by decide) (by decide),
      stripTag (lit "\t\t\t") (lit "<ocomp>") (lit "</ocomp>")
        (by decide) (by decide) (by decide),
      stripTag (lit "\t\t\t") (lit "<tris>") (lit "</tris>")
        (by decide) (by decide) (by decide),
      (tagParts (lit "<patch idx = \"") (lit "\">") 14 2 rfl rfl).1,
      (tagParts (lit "<id>") (lit "</id>") 4 5 rfl rfl).1,
      (tagParts (lit "<id>") (lit "</id>") 4 5 rfl rfl).2.1,
      (tagParts (lit "<id>") (lit "</id>") 4 5 rfl rfl).2.2,
      (tagParts (lit "<surfsys>") (lit "</surfsys>") 9 10 rfl rfl).1,
      (tagParts (lit "<surfsys>") (lit "</surfsys>") 9 10 rfl rfl).2.1,
      (tagParts (lit "<surfsys>") (lit "</surfsys>") 9 10 rfl rfl).2.2,
      (tagParts (lit "<icomp>") (lit "</icomp>") 7 8 rfl rfl).1,
      (tagParts (lit "<icomp>") (lit "</icomp>") 7 8 rfl rfl).2.1,
      (tagParts (lit "<icomp>") (lit "</icomp>") 7 8 rfl rfl).2.2,
      (tagParts (lit "<ocomp>") (lit "</ocomp>") 7 8 rfl rfl).1,
      (tagParts (lit "<ocomp>") (lit "</ocomp>") 7 8 rfl rfl).2.1,
      (tagParts (lit "<ocomp>") (lit "</ocomp>") 7 8 rfl rfl).2.2,
      (tagParts (lit "<tris>") (lit "</tris>") 6 7 rfl rfl).1,
      (tagParts (lit "<tris>") (lit "</tris>") 6 7 rfl rfl).2.1,
      (tagParts (lit "<tris>") (lit "</tris>") 6 7 rfl rfl).2.2,
      pyIntE_natStr, ok_bind, and_self, eq_self_iff_true, pyAssert_pos trivial,
      hbad]
    rw [show joinQuirk natStr ([] : List ℕ) = [] from rfl]
    rw [show pyIntList (pySplitSep ',' [] []) = .error .valueError from rfl]
    simp [error_bind]
  | cons pa pre' ih =>
    intro p acc bad rest hwf hbad
    obtain ⟨⟨hscan, hnd, hsys, hicnull, hicsome, hoc⟩, hrest⟩ := hwf
    obtain ⟨ic, hic⟩ := Option.isSome_iff_exists.mp hicsome
    have hbad' : memberScan n assign ids (p + 1 + pre'.length) = [] := by
      rw [show p + 1 + pre'.length = p + (pa :: pre').length from by
        simp [List.length_cons]; omega]
      exact hbad
    simp only [List.cons_append, List.length_cons, savePatchesGo, loadPatchesGo,
      rdline_cons,
      stripTag (lit "\t\t") (lit "<patch idx = \"") (lit "\">")
        (by decide) (by decide) (by decide),
      stripTag (lit "\t\t\t") (lit "<id>") (lit "</id>")
        (by decide) (by decide) (by decide),
      stripTag (lit "\t\t\t") (lit "<surfsys>") (lit "</surfsys>")
        (by decide) (by decide) (by decide),
      stripTag (lit "\t\t\t") (lit "<icomp>") (lit "</icomp>")
        (by decide) (by decide) (by decide),
      stripTag (lit "\t\t\t") (lit "<ocomp>") (lit "</ocomp>")
        (by decide) (by decide) (by decide),
      stripTag (lit "\t\t\t") (lit "<tris>") (lit "</tris>")
        (by decide) (by decide) (by decide),
      (tagParts (lit "<patch idx = \"") (lit "\">") 14 2 rfl rfl).1,
      (tagParts (lit "<id>") (lit "</id>") 4 5 rfl rfl).1,
      (tagParts (lit "<id>") (lit "</id>") 4 5 rfl rfl).2.1,
      (tagParts (lit "<id>") (lit "</id>") 4 5 rfl rfl).2.2,
      (tagParts (lit "<surfsys>") (lit "</surfsys>") 9 10 rfl rfl).1,
      (tagParts (lit "<surfsys>") (lit "</surfsys>") 9 10 rfl rfl).2.1,
      (tagParts (lit "<surfsys>") (lit "</surfsys>") 9 10 rfl rfl).2.2,
      (tagParts (lit "<icomp>") (lit "</icomp>") 7 8 rfl rfl).1,
      (tagParts (lit "<icomp>") (lit "</icomp>") 7 8 rfl rfl).2.1,
      (tagParts (lit "<icomp>") (lit "</icomp>") 7 8 rfl rfl).2.2,
      (tagParts (lit "<ocomp>") (lit "</ocomp>") 7 8 rfl rfl).1,
      (tagParts (lit "<ocomp>") (lit "</ocomp>") 7 8 rfl rfl).2.1,
      (tagParts (lit "<ocomp>") (lit "</ocomp>") 7 8 rfl rfl).2.2,
      (tagParts (lit "<tris>") (lit "</tris>") 6 7 rfl rfl).1,
      (tagParts (lit "<tris>") (lit "</tris>") 6 7 rfl rfl).2.1,
      (tagParts (lit "<tris>") (lit "</tris>") 6 7 rfl rfl).2.2,
      pyIntE_natStr, ok_bind, and_self, eq_self_iff_true,
      loadMembers (memberScan n assign ids p) hscan (memberScan_nodup n assign ids p),
      loadSys pa.2.1 hnd hsys, hic]
    rcases h22 : pa.2.2.2 with _ | o
    · simp only [h22, mkTmPatch, ok_bind]
      simp only [pyAssert_pos trivial, ok_bind,
        pyAssert_pos (show pyStrip (lit "\t\t</patch>") = lit "</patch>" from by decide)]
      exact ih (p + 1) (acc ++ [⟨pa.1, pa.2.1, ic.id, none,
        (memberScan n assign ids p).map Int.ofNat⟩]) bad rest hrest hbad'
    · obtain ⟨honull, hosome⟩ := hoc o h22
      obtain ⟨oc, hocomp⟩ := Option.isSome_iff_exists.mp hosome
      simp only [h22, if_pos honull, hocomp, mkTmPatch, ok_bind, Option.map_some]
      simp only [pyAssert_pos trivial, ok_bind,
        pyAssert_pos (show pyStrip (lit "\t\t</patch>") = lit "</patch>" from by decide)]
      exact ih (p + 1) (acc ++ [⟨pa.1, pa.2.1, ic.id, some oc.id,
        (memberScan n assign ids p).map Int.ofNat⟩]) bad rest hrest hbad'

theorem loadPatchesGo_empty_fails_tail (n : ℕ) (assign : List (Option Chars))
    (ids : List Chars) (comps : List TmComp)
    (pre : List (Chars × List Chars × Chars × Option Chars)) (p : ℕ)
    (acc : List TmPatch) (bad : Chars × List Chars × Chars × Option Chars)
    (rest : List (Chars × List Chars × Chars × Option Chars))
    (h1 : patchesLoadWF n assign ids comps p pre)
    (h2 : memberScan n assign ids (p + pre.length) = []) :
    ∀ xtail : List Chars,
      loadPatchesGo comps (pre ++ bad :: rest).length p
          (savePatchesGo n assign ids p (pre ++ bad :: rest) ++ xtail) acc
        = .error .valueError :=
  fun xtail => loadPatchesGo_empty_fails xtail n assign ids comps pre p acc bad rest h1 h2

/-- Replays the round trip to the patch loop: with every compartment loading
cleanly, a patch entry with an empty membership scan after a clean prefix
makes `loadXML` fail with `ValueError`. -/
theorem saveXML_empty_patch_fails_aux (m : Tetmesh) (hcore : m.CoreWF)
    (hcomps : compsLoadWF m.tets.length m.tetComp (m.comps.map Prod.fst) 0 m.comps)
    (pre : List (Chars × List Chars × Chars × Option Chars))
    (bad : Chars × List Chars × Chars × Option Chars)
    (rest : List (Chars × List Chars × Chars × Option Chars))
    (hsplit : m.patches = pre ++ bad :: rest)
    (hpre : patchesLoadWF m.tris.length m.triPatch (m.patches.map Prod.fst)
      (compsOutGo m.tets.length m.tetComp (m.comps.map Prod.fst) 0 m.comps) 0 pre)
    (hbad : memberScan m.tris.length m.triPatch (m.patches.map Prod.fst)
      pre.length = []) :
    loadXML (saveXML m).1 (some (saveXML m).2) = .error .valueError := by
  obtain ⟨hverts, htris, htets⟩ := hcore
  rw [hsplit] at hpre hbad
  unfold loadXML saveXML
  simp only [List.cons_append, List.nil_append, List.append_assoc, rdline_cons,
    stripTag (lit "\t") (lit "<nodes size = \"") (lit "\">")
      (by decide) (by decide) (by decide),
    stripTag (lit "\t") (lit "<triangles size = \"") (lit "\">")
      (by decide) (by decide) (by decide),
    stripTag (lit "\t") (lit "<tetrahedrons size = \"") (lit "\">")
      (by decide) (by decide) (by decide),
    stripTag (lit "\t") (lit "<compartments size = \"") (lit "\">")
      (by decide) (by decide) (by decide),
    stripTag (lit "\t") (lit "<patches size = \"") (lit "\">")
      (by decide) (by decide) (by decide),
    (tagParts (lit "<nodes size = \"") (lit "\">") 15 2 rfl rfl).1,
    (tagParts (lit "<nodes size = \"") (lit "\">") 15 2 rfl rfl).2.2,
    (tagParts (lit "<triangles size = \"") (lit "\">") 19 2 rfl rfl).1,
    (tagParts (lit "<triangles size = \"") (lit "\">") 19 2 rfl rfl).2.2,
    (tagParts (lit "<tetrahedrons size = \"") (lit "\">") 22 2 rfl rfl).1,
    (tagParts (lit "<tetrahedrons size = \"") (lit "\">") 22 2 rfl rfl).2.2,
    (tagParts (lit "<compartments size = \"") (lit "\">") 22 2 rfl rfl).1,
    (tagParts (lit "<compartments size = \"") (lit "\">") 22 2 rfl rfl).2.2,
    (tagParts (lit "<patches size = \"") (lit "\">") 17 2 rfl rfl).1,
    (tagParts (lit "<patches size = \"") (lit "\">") 17 2 rfl rfl).2.2,
    pyIntE_natStr, Int.toNat_natCast, ok_bind, pure_eq_ok', and_self, eq_self_iff_true,
    pyAssert_pos (hdrLen (lit "<nodes size = \"") (lit "\">") m.verts.length 17 (by decide)),
    pyAssert_pos (hdrLen (lit "<triangles size = \"") (lit "\">") m.tris.length 21
      (by decide)),
    pyAssert_pos (hdrLen (lit "<tetrahedrons size = \"") (lit "\">") m.tets.length 24
      (by decide)),
    pyAssert_pos (hdrLen (lit "<compartments size = \"") (lit "\">") m.comps.length 24
      (by decide)),
    pyAssert_pos (hdrLen (lit "<patches size = \"") (lit "\">") m.patches.length 19
      (by decide)),
    pyAssert_pos (show pyStrip (lit "\t</nodes>") = lit "</nodes>" from by decide),
    pyAssert_pos (show pyStrip (lit "\t</triangles>") = lit "</triangles>" from by decide),
    pyAssert_pos (show pyStrip (lit "\t</tetrahedrons>") = lit "</tetrahedrons>"
      from by decide),
    pyAssert_pos (show pyStrip (lit "\t</compartments>") = lit "</compartments>"
      from by decide),
    pyAssert_pos (show pyStrip (lit "\t</patches>") = lit "</patches>" from by decide),
    pyAssert_pos trivial]
  rw [if_neg (show ¬(pyRstrip (lit "<tetmesh>") ≠ lit "<tetmesh>") from by decide)]
  rw [loadNodesGo_run' m.verts 0 [] hverts]
  simp only [List.cons_append, List.nil_append, List.append_assoc, rdline_cons,
    stripTag (lit "\t") (lit "<nodes size = \"") (lit "\">")
      (by decide) (by decide) (by decide),
    stripTag (lit "\t") (lit "<triangles size = \"") (lit "\">")
      (by decide) (by decide) (by decide),
    stripTag (lit "\t") (lit "<tetrahedrons size = \"") (lit "\">")
      (by decide) (by decide) (by decide),
    stripTag (lit "\t") (lit "<compartments size = \"") (lit "\">")
      (by decide) (by decide) (by decide),
    stripTag (lit "\t") (lit "<patches size = \"") (lit "\">")
      (by decide) (by decide) (by decide),
    (tagParts (lit "<nodes size = \"") (lit "\">") 15 2 rfl rfl).1,
    (tagParts (lit "<nodes size = \"") (lit "\">") 15 2 rfl rfl).2.2,
    (tagParts (lit "<triangles size = \"") (lit "\">") 19 2 rfl rfl).1,
    (tagParts (lit "<triangles size = \"") (lit "\">") 19 2 rfl rfl).2.2,
    (tagParts (lit "<tetrahedrons size = \"") (lit "\">") 22 2 rfl rfl).1,
    (tagParts (lit "<tetrahedrons size = \"") (lit "\">") 22 2 rfl rfl).2.2,
    (tagParts (lit "<compartments size = \"") (lit "\">") 22 2 rfl rfl).1,
    (tagParts (lit "<compartments size = \"") (lit "\">") 22 2 rfl rfl).2.2,
    (tagParts (lit "<patches size = \"") (lit "\">") 17 2 rfl rfl).1,
    (tagParts (lit "<patches size = \"") (lit "\">") 17 2 rfl rfl).2.2,
    pyIntE_natStr, Int.toNat_natCast, ok_bind, pure_eq_ok', and_self, eq_self_iff_true,
    pyAssert_pos (hdrLen (lit "<nodes size = \"") (lit "\">") m.verts.length 17 (by decide)),
    pyAssert_pos (hdrLen (lit "<triangles size = \"") (lit "\">") m.tris.length 21
      (by decide)),
    pyAssert_pos (hdrLen (lit "<tetrahedrons size = \"") (lit "\">") m.tets.length 24
      (by decide)),
    pyAssert_pos (hdrLen (lit "<compartments size = \"") (lit "\">") m.comps.length 24
      (by decide)),
    pyAssert_pos (hdrLen (lit "<patches size = \"") (lit "\">") m.patches.length 19
      (by decide)),
    pyAssert_pos (show pyStrip (lit "\t</nodes>") = lit "</nodes>" from by decide),
    pyAssert_pos (show pyStrip (lit "\t</triangles>") = lit "</triangles>" from by decide),
    pyAssert_pos (show pyStrip (lit "\t</tetrahedrons>") = lit "</tetrahedrons>"
      from by decide),
    pyAssert_pos (show pyStrip (lit "\t</compartments>") = lit "</compartments>"
      from by decide),
    pyAssert_pos (show pyStrip (lit "\t</patches>") = lit "</patches>" from by decide),
    pyAssert_pos trivial]
  rw [loadTrisGo_run' m.tris 0 [] [] [] [] htris]
  simp only [List.cons_append, List.nil_append, List.append_assoc, rdline_cons,
    stripTag (lit "\t") (lit "<nodes size = \"") (lit "\">")
      (by decide) (by decide) (by decide),
    stripTag (lit "\t") (lit "<triangles size = \"") (lit "\">")
      (by decide) (by decide) (by decide),
    stripTag (lit "\t") (lit "<tetrahedrons size = \"") (lit "\">")
      (by decide) (by decide) (by decide),
    stripTag (lit "\t") (lit "<compartments size = \"") (lit "\">")
      (by decide) (by decide) (by decide),
    stripTag (lit "\t") (lit "<patches size = \"") (lit "\">")
      (by decide) (by decide) (by decide),
    (tagParts (lit "<nodes size = \"") (lit "\">") 15 2 rfl rfl).1,
    (tagParts (lit "<nodes size = \"") (lit "\">") 15 2 rfl rfl).2.2,
    (tagParts (lit "<triangles size = \"") (lit "\">") 19 2 rfl rfl).1,
    (tagParts (lit "<triangles size = \"") (lit "\">") 19 2 rfl rfl).2.2,
    (tagParts (lit "<tetrahedrons size = \"") (lit "\">") 22 2 rfl rfl).1,
    (tagParts (lit "<tetrahedrons size = \"") (lit "\">") 22 2 rfl rfl).2.2,
    (tagParts (lit "<compartments size = \"") (lit "\">") 22 2 rfl rfl).1,
    (tagParts (lit "<compartments size = \"") (lit "\">") 22 2 rfl rfl).2.2,
    (tagParts (lit "<patches size = \"") (lit "\">") 17 2 rfl rfl).1,
    (tagParts (lit "<patches size = \"") (lit "\">") 17 2 rfl rfl).2.2,
    pyIntE_natStr, Int.toNat_natCast, ok_bind, pure_eq_ok', and_self, eq_self_iff_true,
    pyAssert_pos (hdrLen (lit "<nodes size = \"") (lit "\">") m.verts.length 17 (by decide)),
    pyAssert_pos (hdrLen (lit "<triangles size = \"") (lit "\">") m.tris.length 21
      (by decide)),
    pyAssert_pos (hdrLen (lit "<tetrahedrons size = \"") (lit "\">") m.tets.length 24
      (by decide)),
    pyAssert_pos (hdrLen (lit "<compartments size = \"") (lit "\">") m.comps.length 24
      (by decide)),
    pyAssert_pos (hdrLen (lit "<patches size = \"") (lit "\">") m.patches.length 19
      (by decide)),
    pyAssert_pos (show pyStrip (lit "\t</nodes>") = lit "</nodes>" from by decide),
    pyAssert_pos (show pyStrip (lit "\t</triangles>") = lit "</triangles>" from by decide),
    pyAssert_pos (show pyStrip (lit "\t</tetrahedrons>") = lit "</tetrahedrons>"
      from by decide),
    pyAssert_pos (show pyStrip (lit "\t</compartments>") = lit "</compartments>"
      from by decide),
    pyAssert_pos (show pyStrip (lit "\t</patches>") = lit "</patches>" from by decide),
    pyAssert_pos trivial]
  rw [loadTetsGo_final m.tets 0 [] [] [] [] [] htets]
  simp only [List.cons_append, List.nil_append, List.append_assoc, rdline_cons,
    stripTag (lit "\t") (lit "<nodes size = \"") (lit "\">")
      (by decide) (by decide) (by decide),
    stripTag (lit "\t") (lit "<triangles size = \"") (lit "\">")
      (by decide) (by decide) (by decide),
    stripTag (lit "\t") (lit "<tetrahedrons size = \"") (lit "\">")
      (by decide) (by decide) (by decide),
    stripTag (lit "\t") (lit "<compartments size = \"") (lit "\">")
      (by decide) (by decide) (by decide),
    stripTag (lit "\t") (lit "<patches size = \"") (lit "\">")
      (by decide) (by decide) (by decide),
    (tagParts (lit "<nodes size = \"") (lit "\">") 15 2 rfl rfl).1,
    (tagParts (lit "<nodes size = \"") (lit "\">") 15 2 rfl rfl).2.2,
    (tagParts (lit "<triangles size = \"") (lit "\">") 19 2 rfl rfl).1,
    (tagParts (lit "<triangles size = \"") (lit "\">") 19 2 rfl rfl).2.2,
    (tagParts (lit "<tetrahedrons size = \"") (lit "\">") 22 2 rfl rfl).1,
    (tagParts (lit "<tetrahedrons size = \"") (lit "\">") 22 2 rfl rfl).2.2,
    (tagParts (lit "<compartments size = \"") (lit "\">") 22 2 rfl rfl).1,
    (tagParts (lit "<compartments size = \"") (lit "\">") 22 2 rfl rfl).2.2,
    (tagParts (lit "<patches size = \"") (lit "\">") 17 2 rfl rfl).1,
    (tagParts (lit "<patches size = \"") (lit "\">") 17 2 rfl rfl).2.2,
    pyIntE_natStr, Int.toNat_natCast, ok_bind, pure_eq_ok', and_self, eq_self_iff_true,
    pyAssert_pos (hdrLen (lit "<nodes size = \"") (lit "\">") m.verts.length 17 (by decide)),
    pyAssert_pos (hdrLen (lit "<triangles size = \"") (lit "\">") m.tris.length 21
      (by decide)),
    pyAssert_pos (hdrLen (lit "<tetrahedrons size = \"") (lit "\">") m.tets.length 24
      (by decide)),
    pyAssert_pos (hdrLen (lit "<compartments size = \"") (lit "\">") m.comps.length 24
      (by decide)),
    pyAssert_pos (hdrLen (lit "<patches size = \"") (lit "\">") m.patches.length 19
      (by decide)),
    pyAssert_pos (show pyStrip (lit "\t</nodes>") = lit "</nodes>" from by decide),
    pyAssert_pos (show pyStrip (lit "\t</triangles>") = lit "</triangles>" from by decide),
    pyAssert_pos (show pyStrip (lit "\t</tetrahedrons>") = lit "</tetrahedrons>"
      from by decide),
    pyAssert_pos (show pyStrip (lit "\t</compartments>") = lit "</compartments>"
      from by decide),
    pyAssert_pos (show pyStrip (lit "\t</patches>") = lit "</patches>" from by decide),
    pyAssert_pos trivial]
  rw [loadCompsGo_run' m.tets.length m.tetComp (m.comps.map Prod.fst) m.comps 0 [] hcomps]
  simp only [List.cons_append, List.nil_append, List.append_assoc, rdline_cons,
    stripTag (lit "\t") (lit "<nodes size = \"") (lit "\">")
      (by decide) (by decide) (by decide),
    stripTag (lit "\t") (lit "<triangles size = \"") (lit "\">")
      (by decide) (by decide) (by decide),
    stripTag (lit "\t") (lit "<tetrahedrons size = \"") (lit "\">")
      (by decide) (by decide) (by decide),
    stripTag (lit "\t") (lit "<compartments size = \"") (lit "\">")
      (by decide) (by decide) (by decide),
    stripTag (lit "\t") (lit "<patches size = \"") (lit "\">")
      (by decide) (by decide) (by decide),
    (tagParts (lit "<nodes size = \"") (lit "\">") 15 2 rfl rfl).1,
    (tagParts (lit "<nodes size = \"") (lit "\">") 15 2 rfl rfl).2.2,
    (tagParts (lit "<triangles size = \"") (lit "\">") 19 2 rfl rfl).1,
    (tagParts (lit "<triangles size = \"") (lit "\">") 19 2 rfl rfl).2.2,
    (tagParts (lit "<tetrahedrons size = \"") (lit "\">") 22 2 rfl rfl).1,
    (tagParts (lit "<tetrahedrons size = \"") (lit "\">") 22 2 rfl rfl).2.2,
    (tagParts (lit "<compartments size = \"") (lit "\">") 22 2 rfl rfl).1,
    (tagParts (lit "<compartments size = \"") (lit "\">") 22 2 rfl rfl).2.2,
    (tagParts (lit "<patches size = \"") (lit "\">") 17 2 rfl rfl).1,
    (tagParts (lit "<patches size = \"") (lit "\">") 17 2 rfl rfl).2.2,
    pyIntE_natStr, Int.toNat_natCast, ok_bind, pure_eq_ok', and_self, eq_self_iff_true,
    pyAssert_pos (hdrLen (lit "<nodes size = \"") (lit "\">") m.verts.length 17 (by decide)),
    pyAssert_pos (hdrLen (lit "<triangles size = \"") (lit "\">") m.tris.length 21
      (by decide)),
    pyAssert_pos (hdrLen (lit "<tetrahedrons size = \"") (lit "\">") m.tets.length 24
      (by decide)),
    pyAssert_pos (hdrLen (lit "<compartments size = \"") (lit "\">") m.comps.length 24
      (by decide)),
    pyAssert_pos (hdrLen (lit "<patches size = \"") (lit "\">") m.patches.length 19
      (by decide)),
    pyAssert_pos (show pyStrip (lit "\t</nodes>") = lit "</nodes>" from by decide),
    pyAssert_pos (show pyStrip (lit "\t</triangles>") = lit "</triangles>" from by decide),
    pyAssert_pos (show pyStrip (lit "\t</tetrahedrons>") = lit "</tetrahedrons>"
      from by decide),
    pyAssert_pos (show pyStrip (lit "\t</compartments>") = lit "</compartments>"
      from by decide),
    pyAssert_pos (show pyStrip (lit "\t</patches>") = lit "</patches>" from by decide),
    pyAssert_pos trivial]
  rw [hsplit]
  rw [loadPatchesGo_empty_fails_tail m.tris.length m.triPatch
    ((pre ++ bad :: rest).map Prod.fst)
    (compsOutGo m.tets.length m.tetComp (m.comps.map Prod.fst) 0 m.comps)
    pre 0 [] bad rest hpre (by simpa using hbad)]
  simp [error_bind]

/-- **C10**: if some compartment (or patch) of the mesh has an empty derived
membership list at save time, `saveXML` writes an empty `<tets></tets>`
(resp. `<tris></tris>`) element for it, and the subsequent `loadXML` of the
saved data fails with `ValueError` when `int('')` is applied to the empty
member token: the save-then-load round trip only succeeds when every
compartment and every patch has at least one member element. -/
theorem saveXML_empty_member_load_fails (m : Tetmesh) (hcore : m.CoreWF) :
    (∀ (pre : List (Chars × List Chars)) (bad : Chars × List Chars)
       (rest : List (Chars × List Chars)),
       m.comps = pre ++ bad :: rest →
       compsLoadWF m.tets.length m.tetComp (m.comps.map Prod.fst) 0 pre →
       memberScan m.tets.length m.tetComp (m.comps.map Prod.fst) pre.length = [] →
       loadXML (saveXML m).1 (some (saveXML m).2) = .error .valueError)
    ∧ (∀ (pre : List (Chars × List Chars × Chars × Option Chars))
         (bad : Chars × List Chars × Chars × Option Chars)
         (rest : List (Chars × List Chars × Chars × Option Chars)),
       m.patches = pre ++ bad :: rest →
       compsLoadWF m.tets.length m.tetComp (m.comps.map Prod.fst) 0 m.comps →
       patchesLoadWF m.tris.length m.triPatch (m.patches.map Prod.fst)
         (compsOutGo m.tets.length m.tetComp (m.comps.map Prod.fst) 0 m.comps) 0 pre →
       memberScan m.tris.length m.triPatch (m.patches.map Prod.fst) pre.length = [] →
       loadXML (saveXML m).1 (some (saveXML m).2) = .error .valueError) :=
  ⟨fun pre bad rest h1 h2 h3 =>
     saveXML_empty_comp_fails_aux m hcore pre bad rest h1 h2 h3,
   fun pre bad rest h1 hc h2 h3 =>
     saveXML_empty_patch_fails_aux m hcore hc pre bad rest h1 h2 h3⟩

/-- Witness for C10: in `tetmeshEmptyComp` the compartment `cytosol` owns no
tetrahedron and in `tetmeshEmptyPatch` the patch `memb` owns no triangle;
both save-then-load round trips fail with `ValueError`. -/
theorem saveXML_empty_member_load_fails_witness :
    memberScan tetmeshEmptyComp.tets.length tetmeshEmptyComp.tetComp
      (tetmeshEmptyComp.comps.map Prod.fst) 0 = [] ∧
    loadXML (saveXML tetmeshEmptyComp).1 (some (saveXML tetmeshEmptyComp).2)
      = .error .valueError ∧
    memberScan tetmeshEmptyPatch.tris.length tetmeshEmptyPatch.triPatch
      (tetmeshEmptyPatch.patches.map Prod.fst) 0 = [] ∧
    loadXML (saveXML tetmeshEmptyPatch).1 (some (saveXML tetmeshEmptyPatch).2)
      = .error .valueError :=
  ⟨by decide,
   (saveXML_empty_member_load_fails tetmeshEmptyComp (by decide)).1 []
     (lit "cytosol", [lit "vsys1"]) [] rfl trivial (by decide),
   by decide,
   (saveXML_empty_member_load_fails tetmeshEmptyPatch (by decide)).2 []
     (lit "memb", [lit "ssys1"], lit "cytosol", none) [] rfl (by decide) trivial
     (by decide)⟩

section Sanity

example : ("ab").data = ['a', 'b'] := rfl
example : pyInt? (lit " 42 ") = some 42 := by decide
example : pyInt? (lit "-7") = some (-7) := by decide
example : pyInt? (lit "") = none := by decide
example : pyFloat? (lit "2") = some 2 := rfl
example : pySplitSep ',' [] (lit "a,b,,c") = [lit "a", lit "b", [], lit "c"] := by decide
example : pySplitSep ',' [' '] (lit "1.0, 2.0, 3.0") = [lit "1.0", lit "2.0", lit "3.0"] := by
  decide
example : pyWsTokens (lit "  4 3  0 0 ") = [lit "4", lit "3", lit "0", lit "0"] := by decide
example : pyStrip (lit "\t\t<node idx = \"0\">") = lit "<node idx = \"0\">" := by decide
example : sliceM 13 2 (lit "<node idx = \"17\">") = lit "17" := by decide
example : natStr 120 = lit "120" := by decide
example : intStr (-5) = lit "-5" := by decide

-- a concrete 1-based TetGen file-set: 4 nodes, 1 tetrahedron with region
-- attribute 7, 1 face with boundary marker 5
example :
    readTetgen
      (some [lit "4 3 0 0", lit "1 0 0 0", lit "2 1 0 0", lit "3 0 1 0", lit "4 0 0 1"])
      (some [lit "1 4 1", lit "1 1 2 3 4 7"])
      (some [lit "1 1", lit "1 1 2 3 5"])
      none none none
    = .ok (some
        (⟨[some 0, some 0, some 0, some 1, some 0, some 0,
           some 0, some 1, some 0, some 0, some 0, some 1],
          [some 0, some 1, some 2, some 3],
          [some 0, some 1, some 2], [], []⟩,
         some [7], some [5])) := by
  decide

-- a missing .face file: AttributeError from `faces.flatten()` on `None`
example :
    readTetgen
      (some [lit "4 3 0 0", lit "1 0 0 0", lit "2 1 0 0", lit "3 0 1 0", lit "4 0 0 1"])
      (some [lit "1 4 0", lit "1 1 2 3 4"])
      none none none none
    = .error .attributeError := by decide

-- CUBIT: node references decremented by exactly 1 (ℚ coordinates are not
-- compared by `decide`; rational normalization does not kernel-reduce)
example :
    (readCubit
      [lit "*HEADING", lit "cubit(spine.inp): 01/01/2009: 12", lit "*NODE",
       lit "1, 1, 2, 3",
       lit "*ELEMENT, TYPE=C3D4, ELSET=EB1",
       lit "1, 5, 2, 3, 4"]
      1).map CubitMesh.tets
    = .ok [4, 1, 2, 3] := by decide

end Sanity
